import Mathlib

/-!
# Carbonifer: extraction of compute resources from a Terraform plan

A shallow embedding of `internal/terraform/GCP.go` and
`internal/terraform/resources.go`.

Conventions of the embedding.

* A Go `interface{}` holding decoded JSON is a `Json`; the nil interface is
  `Json.null`.
* JSON numbers (`float64`) are represented by their decimal value in `ℚ`, and a
  `decimal.Decimal` is a `ℚ` as well, so `decimal.NewFromFloat` is the identity
  and `Add`/`Mul` are exact.  `Decimal.Div` rounds to 16 decimal places
  (`decimalDiv`).
* A Go map with string keys is an association list read with `List.lookup`; a
  missing key reads as `none` (the nil pointer / nil interface).
* Go `int32` / `int64` values are integers reduced with `wrap32` / `wrap64`
  where the source converts or multiplies.
* A run-time panic, a `log.Fatal` and a returned `error` are the three
  constructors of `Fault`; every function that can end in one of them returns
  `Except Fault _`.
* Code that lives outside the two files (catalogs, configuration, the generic
  path queries, library parsers) is gathered in the record `Env`.
-/

namespace Carbonifer

/-! ## Basic data -/

/-- Abnormal outcomes of the Go code. -/
inductive Fault where
  /-- a run-time panic: nil dereference, failed type assertion, index out of range -/
  | panic : Fault
  /-- the process is stopped by `log.Fatal` or `log.Fatalf` -/
  | fatal : Fault
  /-- the function returns a non-nil `error` -/
  | error : Fault
  deriving DecidableEq, Repr

deriving instance DecidableEq for Except

/-- Decoded JSON value, the content of a Go `interface{}`. -/
inductive Json where
  | null : Json
  | bool (b : Bool) : Json
  | num (q : ℚ) : Json
  | str (s : String) : Json
  | arr (l : List Json) : Json
  | obj (l : List (String × Json)) : Json

/-- The `tfjson.Expression` record: constant value, references, nested blocks. -/
inductive Expression where
  | mk (ConstantValue : Json) (References : List String)
      (NestedBlocks : List (List (String × Expression))) : Expression

/-- A block of expressions, `map[string]*tfjson.Expression`. -/
abbrev Block := List (String × Expression)

/-- Field `ConstantValue` of an expression. -/
def Expression.ConstantValue : Expression → Json
  | .mk c _ _ => c

/-- Field `References` of an expression. -/
def Expression.References : Expression → List String
  | .mk _ r _ => r

/-- Field `NestedBlocks` of an expression. -/
def Expression.NestedBlocks : Expression → List Block
  | .mk _ _ b => b

/-- The fields of `tfjson.ConfigResource` read by the resolver. -/
structure ConfigResource where
  Address : String
  Type_ : String
  Name : String
  Expressions : Block

/-- Cloud providers, `providers.Provider`. -/
inductive Provider where
  | AWS : Provider
  | GCP : Provider
  | AZURE : Provider
  deriving DecidableEq, Repr

/-- Record `resources.ResourceIdentification`, with the fields set by
`getResourceIdentification`. -/
structure ResourceIdentification where
  Name : String
  ResourceType : String
  Provider : Provider
  Region : String
  SelfLink : String
  Count : Int
  deriving DecidableEq

/-- Record `resources.ComputeResourceSpecs`, with the fields set by
`getComputeResourceSpecs`. -/
structure ComputeResourceSpecs where
  GpuTypes : List String
  VCPUs : Int
  MemoryMb : Int
  CPUType : String
  SsdStorage : ℚ
  HddStorage : ℚ
  ReplicationFactor : Int
  deriving DecidableEq

/-- The variants of `resources.Resource` built by the extraction. -/
inductive Resource where
  | ComputeResource (Identification : ResourceIdentification)
      (Specs : ComputeResourceSpecs) : Resource
  | UnsupportedResource (Identification : ResourceIdentification) : Resource
  deriving DecidableEq

/-- A data resource of the auxiliary table; the resolver only reads
`DataImageSpecs.DiskSizeGb` of a `resources.DataImageResource`, a `float64`:
every image that the table holds comes with a size. -/
structure DataImageResource where
  DiskSizeGb : ℚ
  deriving DecidableEq

/-- Entry of the machine type catalog, `providers.MachineType`. -/
structure MachineType where
  Vcpus : Int
  MemoryMb : Int
  GPUTypes : List String
  deriving DecidableEq

/-- Entry of the database tier catalog, `providers.SqlTier`. -/
structure SqlTier where
  Vcpus : Int
  MemoryMb : Int
  deriving DecidableEq

/-- A value with its optional unit, `valueWithUnit`. -/
structure valueWithUnit where
  Value : Json
  Unit : Option String

/-- An element of the slices returned by `getSlice`: a map from field name to a
`*valueWithUnit`, which may be the nil pointer. -/
abbrev TaggedBlock := List (String × Option valueWithUnit)

/-- Modelled from the spec: the Mapping Entry of one resource type,
`ResourceMapping`, whose declaration is outside the embedded files.  `Paths` is
the field read by `getResourcesOfType`; `Properties` stands for the pairs of a
canonical field and its path expression and unit, which only the functions of
`Env` read. -/
structure ResourceMapping where
  Paths : Json
  Properties : Json

/-- Extraction context, `tfContext`. -/
structure tfContext where
  ResourceAddress : String
  Mapping : ResourceMapping
  Resource : List (String × Json)
  Provider : Provider

/-! ## Numbers and strings -/

/-- Conversion to `int32`: the value modulo `2^32` in the signed range. -/
def wrap32 (n : Int) : Int := (n + 2147483648) % 4294967296 - 2147483648

/-- Conversion to `int64`: the value modulo `2^64` in the signed range. -/
def wrap64 (n : Int) : Int :=
  (n + 9223372036854775808) % 18446744073709551616 - 9223372036854775808

/-- Truncation of a number toward zero, as done by `int(f)` and by
`Decimal.BigInt`. -/
def truncate (q : ℚ) : Int := q.num.tdiv q.den

/-- The library function `Decimal.Div`: the quotient rounded to 16 decimal
places, a tie going away from zero. -/
def decimalDiv (a b : ℚ) : ℚ :=
  let x := a / b * 10000000000000000
  (if 0 ≤ x then ⌊x + 1 / 2⌋ else -⌊-x + 1 / 2⌋ : Int) / 10000000000000000

/-- Lower case of one character.  The two characters outside ASCII whose lower
case is an ASCII letter (the Kelvin sign and the dotted capital I) are mapped
to it; the other characters outside ASCII are kept, which does not change
whether the result equals an ASCII constant. -/
def lowerChar (c : Char) : Char :=
  if c = Char.ofNat 0x212A then 'k'
  else if c = Char.ofNat 0x130 then 'i'
  else c.toLower

/-- The library function `strings.ToLower`. -/
def ToLower (s : String) : String := String.mk (s.data.map lowerChar)

/-- The library function `strings.HasSuffix`. -/
def HasSuffix (s suffix : String) : Bool := suffix.data.isSuffixOf s.data

/-- The pieces of a character list between occurrences of `sep`. -/
def splitChars (sep : Char) : List Char → List (List Char)
  | [] => [[]]
  | c :: cs =>
    if c = sep then [] :: splitChars sep cs
    else
      match splitChars sep cs with
      | [] => [[c]]
      | w :: ws => (c :: w) :: ws

/-- The expression `strings.Join(strings.Split(s, "-")[:2], "-")`; slicing
panics when the split has a single piece. -/
def firstTwoSegments (s : String) : Except Fault String :=
  match splitChars '-' s.data with
  | a :: b :: _ => .ok (String.mk (a ++ '-' :: b))
  | _ => .error .panic

/-- Type assertion `v.(string)`. -/
def asString : Json → Except Fault String
  | .str s => .ok s
  | _ => .error .panic

/-- Type assertion `v.(float64)`. -/
def asFloat : Json → Except Fault ℚ
  | .num q => .ok q
  | _ => .error .panic

/-! ## External collaborators -/

/-- Configuration values read through `viper`. -/
structure Config where
  /-- key `provider.gcp.boot_disk.size` -/
  bootDiskSize : ℚ
  /-- key `provider.gcp.boot_disk.type` -/
  bootDiskType : String
  /-- key `provider.gcp.disk.size` -/
  diskSize : ℚ
  /-- key `provider.gcp.disk.type` -/
  diskType : String

/-- Functions and tables defined outside the two embedded files. -/
structure Env where
  /-- the `viper` configuration -/
  config : Config
  /-- `providers.GetGCPMachineType(machineType, zone)` -/
  GetGCPMachineType : String → String → Except Fault MachineType
  /-- `providers.GetGCPSQLTier(tierName)` -/
  GetGCPSQLTier : String → Except Fault SqlTier
  /-- `providers.ParseProvider(name)` -/
  ParseProvider : String → Except Fault Provider
  /-- `fmt.Sprint` of a value that is not a string -/
  Sprint : Json → String
  /-- the list `(*globalMappings.General)[provider].IgnoredResources`; `none`
  when the provider has no entry or the list pointer is nil -/
  IgnoredResources : Provider → Option (List String)
  /-- `regexp.MustCompile(pattern).MatchString(s)`; `none` when the pattern
  does not compile -/
  regexMatch : String → String → Option Bool
  /-- `resources.Resource.GetAddress` -/
  GetAddress : Resource → String
  /-- `utils.GetJSON(path, plan)` -/
  GetJSON : String → Json → Except Fault (List Json)
  /-- `getMapping()` followed by `*mapping.ComputeResource`, listed in the
  order in which the map is enumerated -/
  getMapping : Except Fault (List (String × ResourceMapping))
  /-- `readPaths(pathsProperty)` -/
  readPaths : Json → Except Fault (List String)
  /-- `getString(key, context)` -/
  getString : String → tfContext → Except Fault (Option String)
  /-- `getValue(key, context)` -/
  getValue : String → tfContext → Except Fault (Option valueWithUnit)
  /-- `getSlice(key, context)` -/
  getSlice : String → tfContext → Except Fault (List TaggedBlock)
  /-- `utils.ParseToInt(value)` -/
  ParseToInt : Json → Except Fault Int
  /-- `decimal.NewFromString(fmt.Sprintf("%v", value))` -/
  NewFromString : Json → Except Fault ℚ

/-! ## GCP.go -/

/-- Function `GetConstFromExpression`. -/
def GetConstFromExpression (expr : Option Expression) : Json :=
  match expr with
  | some e =>
    match e.ConstantValue with
    | .null => .null
    | c => c
  | none => .null

/-- Function `GetConstFromConfig`. -/
def GetConstFromConfig (resource : ConfigResource) (key : String) : Json :=
  GetConstFromExpression (resource.Expressions.lookup key)

/-- The statements of `getResourceIdentification` that compute `region`: the
declared constant, or the first two segments of the zone, or those of the first
replica zone, or the empty string. -/
def resourceRegion (resource : ConfigResource) : Except Fault Json :=
  match GetConstFromConfig resource "region" with
  | .null =>
    match GetConstFromConfig resource "zone" with
    | .null =>
      match GetConstFromConfig resource "replica_zones" with
      | .null => pure (Json.str "")
      | .arr (first :: _) => do
        let s ← asString first
        let r ← firstTwoSegments s
        pure (Json.str r)
      | _ => throw Fault.panic
    | zone => do
      let s ← asString zone
      let r ← firstTwoSegments s
      pure (Json.str r)
  | region => pure region

/-- The statements of `getResourceIdentification` that compute `selfLink`. -/
def resourceSelfLink (resource : ConfigResource) : Except Fault String :=
  match GetConstFromConfig resource "self_link" with
  | .null => pure ""
  | v => asString v

/-- Function `getResourceIdentification`. -/
def getResourceIdentification (env : Env) (resource : ConfigResource) :
    Except Fault ResourceIdentification := do
  let region ← resourceRegion resource
  let selfLink ← resourceSelfLink resource
  pure {
    Name := resource.Name
    ResourceType := resource.Type_
    Provider := Provider.GCP
    Region := match region with
      | .str s => s
      | v => env.Sprint v
    SelfLink := selfLink
    Count := 1 }

/-- Record `disk`. -/
structure disk where
  sizeGb : ℚ
  isSSD : Bool
  replicationFactor : Int
  deriving DecidableEq

/-- The section "Is Boot disk" of `getDisk`: the flag given by the caller,
replaced by the constant `boot` of the block when there is one. -/
def diskIsBoot (diskBlock : Block) (isBootDiskParam : Bool) : Except Fault Bool :=
  match GetConstFromExpression (diskBlock.lookup "boot") with
  | .null => pure isBootDiskParam
  | .bool b => pure b
  | _ => throw Fault.panic

/-- The section "Get disk type" of `getDisk`. -/
def diskTypeOf (config : Config) (diskBlock : Block) (isBootDisk : Bool) :
    Except Fault String :=
  match diskBlock.lookup "type" with
  | none => pure (if isBootDisk then config.bootDiskType else config.diskType)
  | some diskTypeExpr => asString diskTypeExpr.ConstantValue

/-- The declared size of a disk block in `getDisk`: the constant `size`, or
else the constant `disk_size_gb`; `Json.null` when neither is declared. -/
def declaredSize (diskBlock : Block) : Json :=
  match GetConstFromExpression (diskBlock.lookup "size") with
  | .null => GetConstFromExpression (diskBlock.lookup "disk_size_gb")
  | v => v

/-- The section "Get Disk size" of `getDisk`. -/
def diskSizeGb (config : Config) (diskBlock : Block) (isBootDisk : Bool)
    (dataResources : List (String × DataImageResource)) : Except Fault ℚ :=
  match declaredSize diskBlock with
  | .null =>
    let dflt := if isBootDisk then config.bootDiskSize else config.diskSize
    match diskBlock.lookup "image" with
    | some diskImageLinkExpr =>
      pure (diskImageLinkExpr.References.foldl
        (fun size ref =>
          match dataResources.lookup ref with
          | some image => image.DiskSizeGb
          | none => size)
        dflt)
    | none => pure dflt
  | v => asFloat v

/-- The last statements of `getDisk`: the replication factor is the length of
the constant list `replica_zones`, 1 when the block has no such expression. -/
def diskReplication (diskBlock : Block) : Except Fault Int :=
  match diskBlock.lookup "replica_zones" with
  | some replicaZonesExpr =>
    match replicaZonesExpr.ConstantValue with
    | .arr rz => pure (wrap32 rz.length)
    | _ => throw Fault.panic
  | none => pure 1

/-- Function `getDisk`. -/
def getDisk (config : Config) (diskBlock : Block) (isBootDiskParam : Bool)
    (dataResources : List (String × DataImageResource)) : Except Fault disk := do
  -- Is Boot disk
  let isBootDisk ← diskIsBoot diskBlock isBootDiskParam
  -- Get disk type
  let diskType ← diskTypeOf config diskBlock isBootDisk
  let isSSD := if diskType = "pd-standard" then false else true
  -- Get Disk size
  let sizeGb ← diskSizeGb config diskBlock isBootDisk dataResources
  let replicationFactor ← diskReplication diskBlock
  pure { sizeGb := sizeGb, isSSD := isSSD, replicationFactor := replicationFactor }

/-- Function `getBootDisk`: the disk of the last `initialize_params` block, the
zero value of `disk` when there is none. -/
def getBootDisk (config : Config) (bootDiskBlock : Block)
    (dataResources : List (String × DataImageResource)) : Except Fault disk :=
  match bootDiskBlock.lookup "initialize_params" with
  | none => throw Fault.panic
  | some initParams =>
    initParams.NestedBlocks.foldlM
      (fun _ initParam => getDisk config initParam true dataResources)
      { sizeGb := 0, isSSD := false, replicationFactor := 0 }

/-- The loops of `getComputeResourceSpecs` that collect the disks of a
resource: boot disks, then `disk` blocks, then scratch disks. -/
def collectDisks (config : Config) (resource : ConfigResource)
    (dataResources : List (String × DataImageResource)) : Except Fault (List disk) := do
  let disks : List disk := []
  let disks ←
    match resource.Expressions.lookup "boot_disk" with
    | some bdExpr =>
      bdExpr.NestedBlocks.foldlM
        (fun disks bootDiskBlock => do
          let bootDisk ← getBootDisk config bootDiskBlock dataResources
          pure (disks ++ [bootDisk]))
        disks
    | none => pure disks
  let disks ←
    match resource.Expressions.lookup "disk" with
    | some diskExpr =>
      diskExpr.NestedBlocks.foldlM
        (fun disks diskBlock => do
          let bootDisk ← getDisk config diskBlock false dataResources
          pure (disks ++ [bootDisk]))
        disks
    | none => pure disks
  let disks :=
    match resource.Expressions.lookup "scratch_disk" with
    | some sdExpr =>
      sdExpr.NestedBlocks.foldl
        (fun disks _ => disks ++ [{ sizeGb := 375, isSSD := true, replicationFactor := 0 }])
        disks
    | none => disks
  pure disks

/-- The loop of `getComputeResourceSpecs` that totals the disk sizes; the state
is the pair `(hddSize, ssdSize)`. -/
def sumDisks (disks : List disk) : ℚ × ℚ :=
  disks.foldl
    (fun acc disk =>
      if disk.isSSD then (acc.1, acc.2 + disk.sizeGb) else (acc.1 + disk.sizeGb, acc.2))
    (0, 0)

/-- The body of the loop over `guest_accelerator` in `getComputeResourceSpecs`:
the float loop `for i := 0; i < gpuCount; i++` runs `⌈gpuCount⌉` times when
`gpuCount` is positive and not at all otherwise. -/
def appendAccelerator (gpus : List String) (gaI : Json) : Except Fault (List String) :=
  match gaI with
  | .obj ga => do
    let gpuCount ←
      match ga.lookup "count" with
      | some v => asFloat v
      | none => throw Fault.panic
    let gpuType ←
      match ga.lookup "type" with
      | some v => asString v
      | none => throw Fault.panic
    pure (gpus ++ List.replicate ⌈gpuCount⌉.toNat gpuType)
  | _ => throw Fault.panic

/-- The first statements of `getComputeResourceSpecs`: the catalog entry of the
declared machine type in the zone of the group, or of the resource when no
group zone is given. -/
def lookupMachineType (env : Env) (resource : ConfigResource) (groupZone : Option String) :
    Except Fault MachineType := do
  let machine_type ← asString (GetConstFromConfig resource "machine_type")
  let zone ←
    match groupZone with
    | some z => pure z
    | none => asString (GetConstFromConfig resource "zone")
  env.GetGCPMachineType machine_type zone

/-- The loop of `getComputeResourceSpecs` over the `guest_accelerator`
constant, started with the GPUs of the machine type. -/
def collectGpus (resource : ConfigResource) (gpus : List String) :
    Except Fault (List String) :=
  match GetConstFromConfig resource "guest_accelerator" with
  | .null => pure gpus
  | .arr guestAccelerators => guestAccelerators.foldlM appendAccelerator gpus
  | _ => throw Fault.panic

/-- Function `getComputeResourceSpecs`; `groupZone` is `none` for the nil
interface. -/
def getComputeResourceSpecs (env : Env) (resource : ConfigResource)
    (dataResources : List (String × DataImageResource)) (groupZone : Option String) :
    Except Fault ComputeResourceSpecs := do
  let machineType ← lookupMachineType env resource groupZone
  let CPUType :=
    match GetConstFromConfig resource "cpu_platform" with
    | .str s => s
    | _ => ""
  let disks ← collectDisks env.config resource dataResources
  let sizes := sumDisks disks
  let gpus := machineType.GPUTypes
  let gpus ← collectGpus resource gpus
  pure {
    GpuTypes := gpus
    VCPUs := machineType.Vcpus
    MemoryMb := machineType.MemoryMb
    CPUType := CPUType
    SsdStorage := sizes.2
    HddStorage := sizes.1
    ReplicationFactor := 1 }

/-- Function `getComputeDiskResourceSpecs`. -/
def getComputeDiskResourceSpecs (env : Env) (resource : ConfigResource)
    (dataResources : List (String × DataImageResource)) :
    Except Fault ComputeResourceSpecs := do
  let disk ← getDisk env.config resource.Expressions false dataResources
  pure {
    GpuTypes := []
    VCPUs := 0
    MemoryMb := 0
    CPUType := ""
    SsdStorage := if disk.isSSD then 0 + disk.sizeGb else 0
    HddStorage := if disk.isSSD then 0 else 0 + disk.sizeGb
    ReplicationFactor := disk.replicationFactor }

/-- The expression `settingsExpr.NestedBlocks[0]` of `getSQLResourceSpecs`. -/
def firstBlock (expr : Expression) : Except Fault Block :=
  match expr.NestedBlocks with
  | first :: _ => pure first
  | [] => throw Fault.panic

/-- The statements of `getSQLResourceSpecs` on `availability_type`: the field
`ConstantValue` is read through the pointer returned by the map, which is nil
when the key is absent. -/
def sqlReplicationFactor (settings : Block) : Except Fault Int :=
  match settings.lookup "availability_type" with
  | none => throw Fault.panic
  | some availabilityType =>
    match availabilityType.ConstantValue with
    | .str s => pure (if s = "REGIONAL" then 2 else 1)
    | _ => pure 1

/-- The statements of `getSQLResourceSpecs` on `tier`. -/
def sqlTierName (settings : Block) : Except Fault String :=
  match settings.lookup "tier" with
  | some tierExpr => asString tierExpr.ConstantValue
  | none => pure ""

/-- The statements of `getSQLResourceSpecs` on `disk_type`. -/
def sqlDiskType (settings : Block) : Except Fault String :=
  match settings.lookup "disk_type" with
  | some diskTypeI => asString diskTypeI.ConstantValue
  | none => pure "PD_SSD"

/-- The statements of `getSQLResourceSpecs` on `disk_size`. -/
def sqlDiskSize (settings : Block) : Except Fault ℚ :=
  match settings.lookup "disk_size" with
  | some diskSizeI => asFloat diskSizeI.ConstantValue
  | none => pure 10

/-- The last test of `getSQLResourceSpecs`: the pair `(ssdSize, hddSize)` for a
disk type and a disk size, a fatal error for a type that is neither `PD_SSD`
nor `PD_HDD`. -/
def sqlStorage (diskType : String) (diskSize : ℚ) : Except Fault (ℚ × ℚ) :=
  if diskType = "PD_SSD" then pure (diskSize, 0)
  else if diskType = "PD_HDD" then pure (0, diskSize)
  else throw Fault.fatal

/-- Function `getSQLResourceSpecs`. -/
def getSQLResourceSpecs (env : Env) (resource : ConfigResource) :
    Except Fault ComputeResourceSpecs :=
  match resource.Expressions.lookup "settings" with
  | some settingsExpr => do
    let settings ← firstBlock settingsExpr
    let replicationFactor ← sqlReplicationFactor settings
    let tierName ← sqlTierName settings
    let tier ← env.GetGCPSQLTier tierName
    let diskType ← sqlDiskType settings
    let diskSize ← sqlDiskSize settings
    let sizes ← sqlStorage diskType diskSize
    pure {
      GpuTypes := []
      VCPUs := wrap32 tier.Vcpus
      MemoryMb := wrap32 tier.MemoryMb
      CPUType := ""
      SsdStorage := sizes.1
      HddStorage := sizes.2
      ReplicationFactor := replicationFactor }
  | none =>
    pure {
      GpuTypes := []
      VCPUs := wrap32 0
      MemoryMb := wrap32 0
      CPUType := ""
      SsdStorage := 0
      HddStorage := 0
      ReplicationFactor := 1 }

/-- Function `GetResourceTemplate`; `none` is the nil resource. -/
def GetResourceTemplate (env : Env) (tfResource : ConfigResource)
    (dataResources : List (String × DataImageResource)) (zone : String) :
    Except Fault (Option Resource) := do
  let resourceId ← getResourceIdentification env tfResource
  if resourceId.ResourceType = "google_compute_instance_template" then
    let specs ← getComputeResourceSpecs env tfResource dataResources (some zone)
    pure (some (Resource.ComputeResource resourceId specs))
  else
    pure none

/-- The loops of `getComputeInstanceGroupManagerSpecs` over the `version`
blocks and their references: every reference not ending in `.id` assigns the
catalog entry found under it (nil when there is none) to `template`. -/
def findTemplate (tfResource : ConfigResource)
    (resourceTemplates : List (String × ConfigResource)) : Option ConfigResource :=
  match tfResource.Expressions.lookup "version" with
  | some versionExpr =>
    versionExpr.NestedBlocks.foldl
      (fun template version =>
        match version.lookup "instance_template" with
        | some instanceTemplate =>
          instanceTemplate.References.foldl
            (fun template reference =>
              if !HasSuffix reference ".id" then resourceTemplates.lookup reference
              else template)
            template
        | none => template)
      none
  | none => none

/-- The first statements of `getComputeInstanceGroupManagerSpecs`: the
constant `target_size` truncated to an `int64`, 0 when none is declared. -/
def groupTargetSize (tfResource : ConfigResource) : Except Fault Int :=
  match GetConstFromConfig tfResource "target_size" with
  | .null => pure 0
  | targetSizeExpr => do
    let f ← asFloat targetSizeExpr
    pure (wrap64 (truncate f))

/-- Function `getComputeInstanceGroupManagerSpecs`; the first component is
`none` for the nil specs.  For a template resource that is not a Compute
Resource the source takes the `log.Fatalf` branch, whose argument
`computeTemplate.GetAddress()` is evaluated first, on the zero value of
`ComputeResource`, the identification of which is a nil pointer: the branch
panics before `log.Fatalf` is called. -/
def getComputeInstanceGroupManagerSpecs (env : Env) (tfResource : ConfigResource)
    (dataResources : List (String × DataImageResource))
    (resourceTemplates : List (String × ConfigResource)) :
    Except Fault (Option ComputeResourceSpecs × Int) := do
  let targetSize ← groupTargetSize tfResource
  match findTemplate tfResource resourceTemplates with
  | some template => do
    let zone ← asString (GetConstFromConfig tfResource "zone")
    let templateResource ← GetResourceTemplate env template dataResources zone
    match templateResource with
    | some (Resource.ComputeResource _ specs) => pure (some specs, targetSize)
    | _ => throw Fault.panic
  | none => pure (none, 0)

/-- Function `GetResource` of the GCP resolver. -/
def GetResource (env : Env) (tfResource : ConfigResource)
    (dataResources : List (String × DataImageResource))
    (resourceTemplates : List (String × ConfigResource)) : Except Fault Resource := do
  let resourceId ← getResourceIdentification env tfResource
  if resourceId.ResourceType = "google_compute_instance" then
    let specs ← getComputeResourceSpecs env tfResource dataResources none
    pure (Resource.ComputeResource resourceId specs)
  else if resourceId.ResourceType = "google_compute_disk" ∨
      resourceId.ResourceType = "google_compute_region_disk" then
    let specs ← getComputeDiskResourceSpecs env tfResource dataResources
    pure (Resource.ComputeResource resourceId specs)
  else if resourceId.ResourceType = "google_sql_database_instance" then
    let specs ← getSQLResourceSpecs env tfResource
    pure (Resource.ComputeResource resourceId specs)
  else if resourceId.ResourceType = "google_compute_instance_group_manager" then
    let result ←
      getComputeInstanceGroupManagerSpecs env tfResource dataResources resourceTemplates
    match result.1 with
    | some specs =>
      pure (Resource.ComputeResource { resourceId with Count := result.2 } specs)
    | none => pure (Resource.UnsupportedResource resourceId)
  else
    pure (Resource.UnsupportedResource resourceId)

/-! ## resources.go -/

/-- Assignment `m[k] = v` on a map: the entry under `k` is replaced, or a new
one is added. -/
def mapSet {β : Type} (m : List (String × β)) (k : String) (v : β) : List (String × β) :=
  match m with
  | [] => [(k, v)]
  | (k', v') :: rest => if k' = k then (k, v) :: rest else (k', v') :: mapSet rest k v

/-- Type assertion `v.(map[string]interface{})`. -/
def asObject : Json → Except Fault (List (String × Json))
  | .obj m => .ok m
  | _ => .error .panic

/-- The expression `resource[key].(string)` on a decoded JSON object. -/
def stringField (resource : List (String × Json)) (key : String) : Except Fault String :=
  match resource.lookup key with
  | some (.str s) => .ok s
  | _ => .error .panic

/-- Test `v != nil` on an interface value. -/
def Json.notNil : Json → Bool
  | .null => false
  | _ => true

/-- Function `parseProvider`. -/
def parseProvider (env : Env) (tfProviderName : String) : Except Fault Provider :=
  if HasSuffix tfProviderName "google" then env.ParseProvider "gcp"
  else if HasSuffix tfProviderName "aws" then env.ParseProvider "aws"
  else env.ParseProvider tfProviderName

/-- The loop of `checkIgnoredResource` over the ignore list. -/
def checkIgnoredLoop (env : Env) (resourceType : String) : List String → Except Fault Bool
  | [] => pure false
  | ignoredResource :: rest =>
    if ignoredResource = resourceType then pure true
    else
      -- Case of regex
      match env.regexMatch ignoredResource resourceType with
      | none => throw Fault.panic
      | some true => pure true
      | some false => checkIgnoredLoop env resourceType rest

/-- Function `checkIgnoredResource`. -/
def checkIgnoredResource (env : Env) (resourceType : String) (provider : Provider) :
    Except Fault Bool :=
  match env.IgnoredResources provider with
  | none => throw Fault.panic
  | some ignoredResourceNames => checkIgnoredLoop env resourceType ignoredResourceNames

/-- Function `getGPU`. -/
def getGPU (env : Env) (gpu : TaggedBlock) : Except Fault (List String) := do
  let gpuType ←
    match gpu.lookup "type" with
    | none => throw Fault.panic
    | some none => throw Fault.error
    | some (some gpuType) => pure gpuType
  let count ←
    match gpu.lookup "count" with
    | none => throw Fault.panic
    | some count => pure count
  match count with
  | some count =>
    if count.Value.notNil then do
      let intValue ← env.ParseToInt count.Value
      if 0 < intValue then do
        let gpuTypeValue ← asString gpuType.Value
        pure (List.replicate intValue.toNat gpuTypeValue)
      else pure []
    else pure []
  | none => pure []

/-- Record `storage`. -/
structure storage where
  SizeGb : ℚ
  IsSSD : Bool
  deriving DecidableEq

/-- The unit conversion of `getStorage`: four independent tests on the lower
case of the unit. -/
def storageToGb (storageSizeGb : ℚ) (unit : Option String) : ℚ :=
  match unit with
  | some unit =>
    let s := storageSizeGb
    let s := if ToLower unit = "mb" then decimalDiv s 1024 else s
    let s := if ToLower unit = "tb" then s * 1024 else s
    let s := if ToLower unit = "kb" then decimalDiv (decimalDiv s 1024) 1024 else s
    let s :=
      if ToLower unit = "b" then decimalDiv (decimalDiv (decimalDiv s 1024) 1024) 1024 else s
    s
  | none => storageSizeGb

/-- Function `getStorage`. -/
def getStorage (env : Env) (storageMap : TaggedBlock) : Except Fault storage := do
  let storageSize ←
    match storageMap.lookup "size" with
    | some (some storageSize) => pure storageSize
    | _ => throw Fault.panic
  let storageSizeGb ←
    match env.NewFromString storageSize.Value with
    | .ok d => pure d
    | .error _ => throw Fault.fatal
  let storageType ←
    match storageMap.lookup "type" with
    | none => throw Fault.panic
    | some storageType => pure storageType
  -- TODO get storage size unit correctly
  let storageSizeGb := storageToGb storageSizeGb storageSize.Unit
  let isSSD ←
    match storageType with
    | some storageType => do
      let storageTypeValue ← asString storageType.Value
      pure (if ToLower storageTypeValue = "ssd" then true else false)
    | none => pure false
  pure { SizeGb := storageSizeGb, IsSSD := isSSD }

/-- The unit switch of `getComputeResource` on `MemoryMb`, an `int32`:
`memoryMb` is the value already converted to `int32`, `unit` the lower case of
the declared unit. -/
def memoryToMb (memoryMb : Int) (unit : String) : Except Fault Int :=
  if unit = "gb" then pure (wrap32 (memoryMb * 1024))
  else if unit = "tb" then pure (wrap32 (memoryMb * (1024 * 1024)))
  else if unit = "pb" then pure (wrap32 (memoryMb * (1024 * 1024 * 1024)))
  else if unit = "mb" then pure memoryMb
  else if unit = "kb" then pure (memoryMb.tdiv 1024)
  else if unit = "b" then pure (memoryMb.tdiv (1024 * 1024))
  else throw Fault.fatal

/-- The section "Add memory" of `getComputeResource`: the value of `MemoryMb`
for the result `memory` of `getValue("memory", context)`. -/
def memorySection (env : Env) (memory : Option valueWithUnit) : Except Fault Int :=
  match memory with
  | some memory =>
    if memory.Value.notNil then do
      let intValue ← env.ParseToInt memory.Value
      let memoryMb := wrap32 intValue
      let unit ←
        match memory.Unit with
        | some u => pure (ToLower u)
        | none => throw Fault.panic
      memoryToMb memoryMb unit
    else pure 0
  | none => pure 0

/-- The sections of `getComputeResource` that read an optional integer
(`vCPUs`, `replication_factor`, `count`): `convert` of the parsed value when
there is one, `dflt` otherwise. -/
def intSection (env : Env) (value : Option valueWithUnit) (convert : Int → Int)
    (dflt : Int) : Except Fault Int :=
  match value with
  | some value =>
    if value.Value.notNil then do
      let intValue ← env.ParseToInt value.Value
      pure (convert intValue)
    else pure dflt
  | none => pure dflt

/-- The section "Add storage" of `getComputeResource`; the state is the pair
`(SsdStorage, HddStorage)`. -/
def storageSection (env : Env) (storages : List TaggedBlock) : Except Fault (ℚ × ℚ) :=
  storages.foldlM
    (fun acc storageI => do
      let storage ← getStorage env storageI
      let size := storage.SizeGb
      if storage.IsSSD then pure (acc.1 + size, acc.2) else pure (acc.1, acc.2 + size))
    (0, 0)

/-- Dereference of a pointer, a panic on nil. -/
def deref {α : Type} : Option α → Except Fault α
  | some a => .ok a
  | none => .error .panic

/-- The first statements of `getComputeResource`, up to the construction of the
context; `none` when the provider is not recognised, in which case the function
returns `nil, nil`. -/
def buildContext (env : Env) (resourceI : Json) (resourceMapping : ResourceMapping) :
    Except Fault (Option tfContext) := do
  let resource ← asObject resourceI
  let resourceAddress ← stringField resource "address"
  let providerName ←
    match resource.lookup "provider_name" with
    | some (.str s) => pure s
    | _ => throw Fault.error
  match parseProvider env providerName with
  | .error Fault.error => pure none
  | .error f => throw f
  | .ok provider =>
    pure (some {
      ResourceAddress := resourceAddress
      Mapping := resourceMapping
      Resource := resource
      Provider := provider })

/-- The statements of `getComputeResource` on `resource["index"]`: a resource
with an index is named `name[index]`. -/
def indexedName (resource : List (String × Json)) (name : String) : Except Fault String :=
  match resource.lookup "index" with
  | none => pure name
  | some .null => pure name
  | some index => do
    let f ← asFloat index
    pure (name ++ "[" ++ toString (truncate f) ++ "]")

/-- Function `getComputeResource`; the result `none` is the pair `nil, nil`. -/
def getComputeResource (env : Env) (resourceI : Json) (resourceMapping : ResourceMapping)
    (resourcesResult : List Resource) : Except Fault (Option (List Resource)) := do
  match ← buildContext env resourceI resourceMapping with
  | none => pure none
  | some context => do
    let resource := context.Resource
    let name ← env.getString "name" context
    let region ← env.getString "region" context
    -- TODO case of region missing (aws)
    let resourceType ← env.getString "type" context
    let name ← deref name
    let name ← indexedName resource name
    let resourceType ← deref resourceType
    let region ← deref region
    -- Add vCPUs
    let vcpus ← env.getValue "vCPUs" context
    let VCPUs ← intSection env vcpus wrap32 0
    -- Add memory
    let memory ← env.getValue "memory" context
    let MemoryMb ← memorySection env memory
    -- Add GPUs
    let gpus ← env.getSlice "guest_accelerator" context
    let GpuTypes ←
      gpus.foldlM
        (fun acc gpu => do
          let gpuTypes ← getGPU env gpu
          pure (acc ++ gpuTypes))
        []
    -- Add CPU type
    let cpuType ← env.getString "cpu_platform" context
    let CPUType :=
      match cpuType with
      | some c => c
      | none => ""
    -- Add replication factor
    let replicationFactor ← env.getValue "replication_factor" context
    let ReplicationFactor ← intSection env replicationFactor wrap32 1
    -- Add count (case of autoscaling group)
    let count ← env.getValue "count" context
    let Count ← intSection env count wrap64 1
    -- Add storage
    let storages ← env.getSlice "storage" context
    let sizes ← storageSection env storages
    let computeResource := Resource.ComputeResource
      { Name := name
        ResourceType := resourceType
        Provider := Provider.GCP
        Region := region
        SelfLink := ""
        Count := Count }
      { GpuTypes := GpuTypes
        VCPUs := VCPUs
        MemoryMb := MemoryMb
        CPUType := CPUType
        SsdStorage := sizes.1
        HddStorage := sizes.2
        ReplicationFactor := ReplicationFactor }
    pure (some (resourcesResult ++ [computeResource]))

/-- Function `getResourcesOfType`; `plan` is the global `TfPlan`.  The
parameter `resourceType` of the source only appears in log and error messages
and is left out. -/
def getResourcesOfType (env : Env) (plan : Json) (mapping : ResourceMapping) :
    Except Fault (List Resource) := do
  let paths ← env.readPaths mapping.Paths
  paths.foldlM
    (fun resourcesResult path => do
      let resourcesFound ← env.GetJSON path plan
      resourcesFound.foldlM
        (fun resourcesResult resourceI => do
          let resourcesResultGot ← getComputeResource env resourceI mapping resourcesResult
          match resourcesResultGot with
          | some got => pure got
          | none => pure resourcesResult)
        resourcesResult)
    []

/-- The first loop of `GetResources`: every resource found for a mapped
resource type is stored under its address. -/
def mappingPass (env : Env) (plan : Json) (mapping : List (String × ResourceMapping)) :
    Except Fault (List (String × Resource)) :=
  mapping.foldlM
    (fun resourcesMap entry => do
      let resources ← getResourcesOfType env plan entry.2
      pure (resources.foldl
        (fun resourcesMap resource => mapSet resourcesMap (env.GetAddress resource) resource)
        resourcesMap))
    []

/-- The body of the second loop of `GetResources` ("Get resource not in
mapping"), for one element of the planned resource list. -/
def unmappedStep (env : Env) (resourcesMap : List (String × Resource)) (resourceI : Json) :
    Except Fault (List (String × Resource)) := do
  let resource ← asObject resourceI
  let resourceAddress ← stringField resource "address"
  let resourceMap := resourcesMap.lookup resourceAddress
  let providerName ← stringField resource "provider_name"
  match parseProvider env providerName with
  | .error Fault.error => pure resourcesMap
  | .error f => throw f
  | .ok provider =>
    match resourceMap with
    | some _ => pure resourcesMap
    | none => do
      -- That is an unsupported resource
      let resourceType ← stringField resource "type"
      let ignored ← checkIgnoredResource env resourceType provider
      if ignored then pure resourcesMap
      else do
        let name ← stringField resource "name"
        let unsupportedResource := Resource.UnsupportedResource
          { Name := name
            ResourceType := resourceType
            -- TODO get provider from Terraform plan
            Provider := Provider.GCP
            Region := ""
            SelfLink := ""
            Count := 1 }
        pure (mapSet resourcesMap resourceAddress unsupportedResource)

/-- The second loop of `GetResources`. -/
def unmappedPass (env : Env) (resourcesMap : List (String × Resource))
    (plannedResources : List Json) : Except Fault (List (String × Resource)) :=
  plannedResources.foldlM (unmappedStep env) resourcesMap

/-- Function `GetResources`. -/
def GetResources (env : Env) (tfplan : Json) : Except Fault (List (String × Resource)) := do
  -- Get resources from Terraform plan
  let plannedResourcesResult ← env.GetJSON ".planned_values.root_module.resources" tfplan
  match plannedResourcesResult with
  | [] => throw Fault.error
  | first :: _ => do
    let plannedResources ←
      match first with
      | .arr l => pure l
      | _ => throw Fault.panic
    -- Get compute resources
    let mapping ← env.getMapping
    let resourcesMap ← mappingPass env tfplan mapping
    -- Get resource not in mapping
    unmappedPass env resourcesMap plannedResources

/-! ## Definitions used to state the properties -/

/-- A fallible function applied to every element of a list, in order, stopping
at the first fault. -/
def mapE {α β : Type} (f : α → Except Fault β) : List α → Except Fault (List β)
  | [] => .ok []
  | a :: l =>
    match f a with
    | .error e => .error e
    | .ok b =>
      match mapE f l with
      | .error e => .error e
      | .ok bs => .ok (b :: bs)

/-- The blocks nested under a key of a resource, none when the key is absent. -/
def blocksOf (resource : ConfigResource) (key : String) : List Block :=
  match resource.Expressions.lookup key with
  | some e => e.NestedBlocks
  | none => []

/-- A scratch disk: a local SSD of 375 GB. -/
def scratchDisk : disk := { sizeGb := 375, isSSD := true, replicationFactor := 0 }

/-- The disks of a resource: one per `boot_disk` block, one per `disk` block,
one scratch disk per `scratch_disk` block. -/
def attachedDisks (config : Config) (resource : ConfigResource)
    (dataResources : List (String × DataImageResource)) : Except Fault (List disk) := do
  let boot ← mapE (fun b => getBootDisk config b dataResources) (blocksOf resource "boot_disk")
  let additional ← mapE (fun b => getDisk config b false dataResources) (blocksOf resource "disk")
  let scratch := List.replicate (blocksOf resource "scratch_disk").length scratchDisk
  pure (boot ++ additional ++ scratch)

/-- Sum of the sizes of the disks classified SSD. -/
def ssdTotal (disks : List disk) : ℚ :=
  ((disks.filter (fun d => d.isSSD)).map (fun d => d.sizeGb)).sum

/-- Sum of the sizes of the disks classified HDD. -/
def hddTotal (disks : List disk) : ℚ :=
  ((disks.filter (fun d => !d.isSSD)).map (fun d => d.sizeGb)).sum

/-- The type and the count declared by one `guest_accelerator` block. -/
def acceleratorOf : Json → Except Fault (String × ℚ)
  | .obj ga =>
    match ga.lookup "count", ga.lookup "type" with
    | some (.num c), some (.str t) => .ok (t, c)
    | _, _ => .error .panic
  | _ => .error .panic

/-- The accelerators declared by a resource, in order. -/
def guestAccelerators (resource : ConfigResource) : Except Fault (List (String × ℚ)) :=
  match GetConstFromConfig resource "guest_accelerator" with
  | .null => .ok []
  | .arr l => mapE acceleratorOf l
  | _ => .error .panic

/-- A value fits in an `int32`. -/
def fits32 (n : Int) : Prop := -2147483648 ≤ n ∧ n ≤ 2147483647

/-- Field `MemoryMb` of a resource, 0 for a resource without specs. -/
def Resource.memoryMb : Resource → Int
  | .ComputeResource _ specs => specs.MemoryMb
  | .UnsupportedResource _ => 0

/-- The references found in the `instance_template` expressions of the
`version` blocks of a group, in order, without those ending in `.id`. -/
def templateReferences (tfResource : ConfigResource) : List String :=
  (((blocksOf tfResource "version").map fun version =>
      match version.lookup "instance_template" with
      | some instanceTemplate => instanceTemplate.References
      | none => []).flatten).filter fun reference => !HasSuffix reference ".id"

/-- A value fits in an `int64`. -/
def fits64 (n : Int) : Prop := -9223372036854775808 ≤ n ∧ n ≤ 9223372036854775807

/-- The address of an element of the planned resource list, when it is an
object with a string under `address`. -/
def addressOf (resourceI : Json) : Option String :=
  match asObject resourceI with
  | .ok resource =>
    match stringField resource "address" with
    | .ok a => some a
    | .error _ => none
  | .error _ => none

/-- The Unsupported Resource built by `GetResources` for a planned resource of
the given name and type. -/
def unsupported (name resourceType : String) : Resource :=
  Resource.UnsupportedResource
    { Name := name
      ResourceType := resourceType
      Provider := Provider.GCP
      Region := ""
      SelfLink := ""
      Count := 1 }

/-- The string `r` is made of the first two dash-separated segments of `z`,
joined by a dash: `z` is `a-b` or `a-b-...` with no dash in `a` and `b`, and
`r` is `a-b`. -/
def IsFirstTwoSegments (z r : String) : Prop :=
  ∃ a b tail, '-' ∉ a ∧ '-' ∉ b ∧ z.data = a ++ '-' :: b ++ tail ∧
    (tail = [] ∨ tail.head? = some '-') ∧ r = String.mk (a ++ '-' :: b)

/-- The fixed default size of a disk: the configured boot-disk default for a
boot disk, the configured disk default otherwise. -/
def defaultSize (config : Config) (isBootDisk : Bool) : ℚ :=
  if isBootDisk then config.bootDiskSize else config.diskSize

/-- The images of the auxiliary-resource table found under the references of
the `image` expression of a disk block, in the order of the references. -/
def resolvedImages (diskBlock : Block) (dataResources : List (String × DataImageResource)) :
    List DataImageResource :=
  match diskBlock.lookup "image" with
  | some diskImageLinkExpr => diskImageLinkExpr.References.filterMap dataResources.lookup
  | none => []

/-- The identification of a resource. -/
def Resource.identification : Resource → ResourceIdentification
  | .ComputeResource id _ => id
  | .UnsupportedResource id => id

/-- Sum of the sizes of the storage blocks classified SSD. -/
def storageSsdTotal (blocks : List storage) : ℚ :=
  ((blocks.filter (fun s => s.IsSSD)).map (fun s => s.SizeGb)).sum

/-- Sum of the sizes of the storage blocks classified HDD. -/
def storageHddTotal (blocks : List storage) : ℚ :=
  ((blocks.filter (fun s => !s.IsSSD)).map (fun s => s.SizeGb)).sum

/-- A mapped property that resolves to no value: the pointer returned by
`getValue` is nil, or its `Value` is nil. -/
def noValue (value : Option valueWithUnit) : Bool :=
  match value with
  | none => true
  | some value => !value.Value.notNil

/-- The resource last stored under the address `a` by the inner loop of
`GetResources` over `resources`, starting from the entry `init`. -/
def lastStored (env : Env) (a : String) (init : Option Resource) (resources : List Resource) :
    Option Resource :=
  resources.foldl (fun acc r => if env.GetAddress r = a then some r else acc) init

/-- The entry under the address `a` after the turn of the first loop of
`GetResources` for the mapping entry `entry`, starting from the entry `init`. -/
def storedBy (env : Env) (plan : Json) (a : String) (init : Option Resource)
    (entry : String × ResourceMapping) : Option Resource :=
  match getResourcesOfType env plan entry.2 with
  | .ok resources => lastStored env a init resources
  | .error _ => init

/-- Two mapping entries yield resources of different addresses. -/
def DisjointAddresses (env : Env) (plan : Json) (e₁ e₂ : String × ResourceMapping) : Prop :=
  ∀ rs₁ rs₂, getResourcesOfType env plan e₁.2 = .ok rs₁ →
    getResourcesOfType env plan e₂.2 = .ok rs₂ →
    ∀ r₁ ∈ rs₁, ∀ r₂ ∈ rs₂, env.GetAddress r₁ ≠ env.GetAddress r₂

/-- The factor of the units in which the unit switch of `getComputeResource`
multiplies the memory value (1 for `mb`, which keeps it); `none` for the other
units. -/
def memoryFactor (unit : String) : Option Int :=
  if unit = "gb" then some 1024
  else if unit = "tb" then some (1024 * 1024)
  else if unit = "pb" then some (1024 * 1024 * 1024)
  else if unit = "mb" then some 1
  else none

/-- A plain type name: letters, digits and underscores only, hence no
metacharacter of a regular expression. -/
def plainName (s : String) : Bool :=
  s.data.all fun c => c.isAlphanum || c = '_'

/-- The library call `regexp.MustCompile(pattern).MatchString(s)` for a pattern
without metacharacter: the pattern is matched as literal text anywhere in `s`,
the expression not being anchored. -/
def literalMatch (pattern s : String) : Bool :=
  decide (pattern.data <:+: s.data)

/-- The number `r` is `x` rounded to 16 decimal places, a tie going away from
zero: `r` is a multiple of 10⁻¹⁶ nearest to `x`, and the one of larger
absolute value when two multiples are as near. -/
def IsRounded16 (x r : ℚ) : Prop :=
  (∃ n : ℤ, r = n / 10000000000000000) ∧
  |r - x| ≤ 1 / 20000000000000000 ∧
  (|r - x| = 1 / 20000000000000000 → |x| < |r|)

/-! ## Examples -/

/-- An expression holding a constant. -/
def const (v : Json) : Expression := .mk v [] []

/-- An expression holding nested blocks. -/
def blocks (b : List Block) : Expression := .mk .null [] b

/-- An expression holding references. -/
def refs (r : List String) : Expression := .mk .null r []

/-- Default configuration of the tool. -/
def exampleConfig : Config :=
  { bootDiskSize := 10, bootDiskType := "pd-standard", diskSize := 10, diskType := "pd-standard" }

/-- An environment with small catalogs: one machine type without GPU, one
database tier, the providers `gcp`, `aws` and `azure`, empty ignore lists, and
no mapped resource type. -/
def exampleEnv : Env :=
  { config := exampleConfig
    GetGCPMachineType := fun _ _ => .ok { Vcpus := 2, MemoryMb := 8192, GPUTypes := [] }
    GetGCPSQLTier := fun _ => .ok { Vcpus := 1, MemoryMb := 3840 }
    ParseProvider := fun s =>
      if s = "gcp" then .ok Provider.GCP
      else if s = "aws" then .ok Provider.AWS
      else if s = "azure" then .ok Provider.AZURE
      else .error Fault.error
    Sprint := fun _ => ""
    IgnoredResources := fun _ => some []
    regexMatch := fun _ _ => some false
    GetAddress := fun r =>
      match r with
      | .ComputeResource id _ => id.ResourceType ++ "." ++ id.Name
      | .UnsupportedResource id => id.ResourceType ++ "." ++ id.Name
    GetJSON := fun _ plan =>
      match plan with
      | .obj m =>
        match m.lookup "resources" with
        | some v => .ok [v]
        | none => .ok []
      | _ => .ok []
    getMapping := .ok []
    readPaths := fun _ => .ok []
    getString := fun key context =>
      match context.Resource.lookup key with
      | some (.str s) => .ok (some s)
      | _ => .ok none
    getValue := fun _ _ => .ok none
    getSlice := fun _ _ => .ok []
    ParseToInt := fun v =>
      match v with
      | .num q => .ok (truncate q)
      | _ => .error Fault.error
    NewFromString := fun v =>
      match v with
      | .num q => .ok q
      | _ => .error Fault.error }

/-- A virtual machine with a boot disk of 50 GB (SSD) and two additional disks
of 100 GB (HDD), with two `nvidia-t4` accelerators. -/
def exampleInstance : ConfigResource :=
  { Address := "google_compute_instance.vm"
    Type_ := "google_compute_instance"
    Name := "vm"
    Expressions :=
      [("machine_type", const (.str "e2-standard-2")),
       ("zone", const (.str "europe-west9-a")),
       ("boot_disk", blocks [[("initialize_params",
          blocks [[("size", const (.num 50)), ("type", const (.str "pd-ssd"))]])]]),
       ("disk", blocks
          [[("size", const (.num 100)), ("type", const (.str "pd-standard"))],
           [("size", const (.num 100)), ("type", const (.str "pd-standard"))]]),
       ("guest_accelerator", const (.arr
          [.obj [("type", .str "nvidia-t4"), ("count", .num 2)]]))] }

/-- The specs of `exampleInstance`. -/
def exampleInstanceSpecs : ComputeResourceSpecs :=
  { GpuTypes := ["nvidia-t4", "nvidia-t4"]
    VCPUs := 2
    MemoryMb := 8192
    CPUType := ""
    SsdStorage := 50
    HddStorage := 200
    ReplicationFactor := 1 }

/-- A database instance whose `settings` block declares a tier and no
`availability_type`. -/
def exampleSqlInstance : ConfigResource :=
  { Address := "google_sql_database_instance.db"
    Type_ := "google_sql_database_instance"
    Name := "db"
    Expressions := [("settings", blocks [[("tier", const (.str "db-f1-micro"))]])] }

/-- The environment `exampleEnv` in which the mapped memory of every resource is
the value `v` with the unit `unit`. -/
def memoryEnv (v : ℚ) (unit : String) : Env :=
  { exampleEnv with
    getValue := fun key _ =>
      if key = "memory" then .ok (some { Value := .num v, Unit := some unit })
      else .ok none }

/-- A mapping without content; the example environments do not read it. -/
def exampleMapping : ResourceMapping := { Paths := .null, Properties := .null }

/-- A planned resource of the Google provider. -/
def exampleMapped : Json :=
  .obj [("address", .str "google_compute_instance.vm"),
        ("provider_name", .str "registry.terraform.io/hashicorp/google"),
        ("type", .str "google_compute_instance"),
        ("name", .str "vm"),
        ("region", .str "europe-west9")]

/-- The context built for `exampleMapped` in the example environments. -/
def exampleContext : tfContext :=
  { ResourceAddress := "google_compute_instance.vm"
    Mapping := exampleMapping
    Resource :=
      [("address", .str "google_compute_instance.vm"),
       ("provider_name", .str "registry.terraform.io/hashicorp/google"),
       ("type", .str "google_compute_instance"),
       ("name", .str "vm"),
       ("region", .str "europe-west9")]
    Provider := Provider.GCP }

/-- The resource extracted from `exampleMapped` when only its memory is mapped,
with `MemoryMb` equal to `mb`. -/
def exampleMappedResource (mb : Int) : Resource :=
  Resource.ComputeResource
    { Name := "vm"
      ResourceType := "google_compute_instance"
      Provider := Provider.GCP
      Region := "europe-west9"
      SelfLink := ""
      Count := 1 }
    { GpuTypes := []
      VCPUs := 0
      MemoryMb := mb
      CPUType := ""
      SsdStorage := 0
      HddStorage := 0
      ReplicationFactor := 1 }

/-- A storage block of the generic extractor with the size `v`, the unit `unit`
and no type. -/
def exampleStorage (v : ℚ) (unit : String) : TaggedBlock :=
  [("size", some { Value := .num v, Unit := some unit }), ("type", none)]

/-- An instance template with the disks and accelerators of `exampleInstance`
and no zone of its own. -/
def exampleTemplate : ConfigResource :=
  { Address := "google_compute_instance_template.tpl"
    Type_ := "google_compute_instance_template"
    Name := "tpl"
    Expressions :=
      [("machine_type", const (.str "e2-standard-2")),
       ("boot_disk", blocks [[("initialize_params",
          blocks [[("size", const (.num 50)), ("type", const (.str "pd-ssd"))]])]]),
       ("disk", blocks
          [[("size", const (.num 100)), ("type", const (.str "pd-standard"))],
           [("size", const (.num 100)), ("type", const (.str "pd-standard"))]]),
       ("guest_accelerator", const (.arr
          [.obj [("type", .str "nvidia-t4"), ("count", .num 2)]]))] }

/-- The template catalog holding `exampleTemplate`. -/
def exampleTemplates : List (String × ConfigResource) :=
  [("google_compute_instance_template.tpl", exampleTemplate)]

/-- An instance group manager of target size 3 whose `version` block has an
`instance_template` expression with the references `references`. -/
def exampleGroup (references : List String) : ConfigResource :=
  { Address := "google_compute_instance_group_manager.group"
    Type_ := "google_compute_instance_group_manager"
    Name := "group"
    Expressions :=
      [("zone", const (.str "europe-west9-a")),
       ("target_size", const (.num 3)),
       ("version", blocks [[("instance_template", refs references)]])] }

/-- The identification of `exampleGroup`. -/
def exampleGroupId : ResourceIdentification :=
  { Name := "group"
    ResourceType := "google_compute_instance_group_manager"
    Provider := Provider.GCP
    Region := "europe-west9"
    SelfLink := ""
    Count := 1 }

/-- The identification of `exampleTemplate`. -/
def exampleTemplateId : ResourceIdentification :=
  { Name := "tpl"
    ResourceType := "google_compute_instance_template"
    Provider := Provider.GCP
    Region := ""
    SelfLink := ""
    Count := 1 }

/-- A planned bucket of the Google provider. -/
def exampleGoogleBucket : List (String × Json) :=
  [("address", .str "google_storage_bucket.b"),
   ("provider_name", .str "registry.terraform.io/hashicorp/google"),
   ("type", .str "google_storage_bucket"),
   ("name", .str "b")]

/-- A planned bucket of the AWS provider. -/
def exampleAwsBucket : List (String × Json) :=
  [("address", .str "aws_s3_bucket.b"),
   ("provider_name", .str "registry.terraform.io/hashicorp/aws"),
   ("type", .str "aws_s3_bucket"),
   ("name", .str "b")]

/-- A planned resource of a provider that `exampleEnv` does not recognise. -/
def exampleRandomId : List (String × Json) :=
  [("address", .str "random_id.id"),
   ("provider_name", .str "registry.terraform.io/hashicorp/random"),
   ("type", .str "random_id"),
   ("name", .str "id")]

/-- The planned resource list of `examplePlan`. -/
def examplePlanned : List Json :=
  [.obj exampleGoogleBucket, .obj exampleAwsBucket, .obj exampleRandomId]

/-- A plan, in the shape read by `exampleEnv.GetJSON`. -/
def examplePlan : Json := .obj [("resources", .arr examplePlanned)]

/-- The map built by `GetResources` from `examplePlan` in `exampleEnv`. -/
def exampleResult : List (String × Resource) :=
  [("google_storage_bucket.b", unsupported "b" "google_storage_bucket"),
   ("aws_s3_bucket.b", unsupported "b" "aws_s3_bucket")]

/-- The identification of `exampleInstance`. -/
def exampleInstanceId : ResourceIdentification :=
  { Name := "vm"
    ResourceType := "google_compute_instance"
    Provider := Provider.GCP
    Region := "europe-west9"
    SelfLink := ""
    Count := 1 }

/-- A disk block without a size, whose image is a reference to a data
resource. -/
def exampleImageDisk : Block :=
  [("image", refs ["data.google_compute_image.img.self_link",
    "data.google_compute_image.img"])]

/-- An auxiliary-resource table holding the image of `exampleImageDisk` with
the size `size`. -/
def exampleImages (size : ℚ) : List (String × DataImageResource) :=
  [("data.google_compute_image.img", { DiskSizeGb := size })]

/-- The environment `exampleEnv` in which the mapped memory of every resource is
the value `v` with no unit. -/
def noUnitEnv (v : ℚ) : Env :=
  { exampleEnv with
    getValue := fun key _ =>
      if key = "memory" then .ok (some { Value := .num v, Unit := none })
      else .ok none }

/-- An instance group manager without `target_size` whose `version` block
references the template `google_compute_instance_template.tpl`. -/
def exampleGroupNoSize : ConfigResource :=
  { Address := "google_compute_instance_group_manager.group"
    Type_ := "google_compute_instance_group_manager"
    Name := "group"
    Expressions :=
      [("zone", const (.str "europe-west9-a")),
       ("version", blocks [[("instance_template",
          refs ["google_compute_instance_template.tpl"])]])] }

/-- The environment `exampleEnv` in which the mapped property `key` of every
resource is the value `v` with no unit, and no other property is mapped. -/
def valueEnv (key : String) (v : ℚ) : Env :=
  { exampleEnv with
    getValue := fun k _ =>
      if k = key then .ok (some { Value := .num v, Unit := none })
      else .ok none }

/-- The identification extracted from `exampleMapped` with the count
`count`. -/
def exampleGenericId (count : Int) : ResourceIdentification :=
  { Name := "vm"
    ResourceType := "google_compute_instance"
    Provider := Provider.GCP
    Region := "europe-west9"
    SelfLink := ""
    Count := count }

/-- The specs extracted from `exampleMapped` with the replication factor
`replicationFactor`, nothing else being mapped. -/
def exampleGenericSpecs (replicationFactor : Int) : ComputeResourceSpecs :=
  { GpuTypes := []
    VCPUs := 0
    MemoryMb := 0
    CPUType := ""
    SsdStorage := 0
    HddStorage := 0
    ReplicationFactor := replicationFactor }

/-- The resource extracted from `exampleMapped` with the count `count` and the
replication factor `replicationFactor`, nothing else being mapped. -/
def exampleGeneric (count replicationFactor : Int) : Resource :=
  Resource.ComputeResource (exampleGenericId count) (exampleGenericSpecs replicationFactor)

/-- A regional disk of 100 GB (SSD) with the replica zones `zones`. -/
def exampleRegionDisk (zones : List Json) : ConfigResource :=
  { Address := "google_compute_region_disk.d"
    Type_ := "google_compute_region_disk"
    Name := "d"
    Expressions :=
      [("region", const (.str "europe-west9")),
       ("size", const (.num 100)),
       ("type", const (.str "pd-ssd")),
       ("replica_zones", const (.arr zones))] }

/-- The identification of `exampleRegionDisk`. -/
def exampleRegionDiskId : ResourceIdentification :=
  { Name := "d"
    ResourceType := "google_compute_region_disk"
    Provider := Provider.GCP
    Region := "europe-west9"
    SelfLink := ""
    Count := 1 }

/-- The specs of `exampleRegionDisk` when its replication factor is
`replicationFactor`. -/
def exampleRegionDiskSpecs (replicationFactor : Int) : ComputeResourceSpecs :=
  { GpuTypes := []
    VCPUs := 0
    MemoryMb := 0
    CPUType := ""
    SsdStorage := 100
    HddStorage := 0
    ReplicationFactor := replicationFactor }

/-- A database instance of availability type `REGIONAL` and tier `db-f1-micro`
whose `settings` block also holds the expressions `disk`. -/
def exampleSqlRegional (disk : Block) : ConfigResource :=
  { Address := "google_sql_database_instance.db"
    Type_ := "google_sql_database_instance"
    Name := "db"
    Expressions :=
      [("settings", blocks [[("availability_type", const (.str "REGIONAL")),
          ("tier", const (.str "db-f1-micro"))] ++ disk])] }

/-- The environment `exampleEnv` in which the mapped slice `key` of every
resource is `items`, and every other slice is empty. -/
def sliceEnv (key : String) (items : List TaggedBlock) : Env :=
  { exampleEnv with
    getSlice := fun k _ => if k = key then .ok items else .ok [] }

/-- A GPU block of the generic extractor with the type `type` and the count
`count`. -/
def exampleGpu (type : String) (count : ℚ) : TaggedBlock :=
  [("type", some { Value := .str type, Unit := none }),
   ("count", some { Value := .num count, Unit := none })]

/-- A GPU block of the generic extractor with the type `type` and no count. -/
def exampleGpuNoCount (type : String) : TaggedBlock :=
  [("type", some { Value := .str type, Unit := none }), ("count", none)]

/-- A storage block of the generic extractor with the size `v` in gigabytes and
the type `type`. -/
def exampleTypedStorage (v : ℚ) (type : String) : TaggedBlock :=
  [("size", some { Value := .num v, Unit := some "gb" }),
   ("type", some { Value := .str type, Unit := none })]

/-- An environment with the mapping `mapping`, in which the paths of a mapping
entry are the single string held by `Paths`, a path other than the one of the
planned resource list selects the planned resources of the type it names, and
the mapped `vCPUs` of a resource is the number held by `Properties`. -/
def mappingEnv (mapping : List (String × ResourceMapping)) : Env :=
  { exampleEnv with
    getMapping := .ok mapping
    readPaths := fun paths =>
      match paths with
      | .str s => .ok [s]
      | _ => .ok []
    GetJSON := fun path plan =>
      match plan with
      | .obj m =>
        match m.lookup "resources" with
        | some (.arr l) =>
          if path = ".planned_values.root_module.resources" then .ok [.arr l]
          else .ok (l.filter fun r =>
            match r with
            | .obj o =>
              match o.lookup "type" with
              | some (.str t) => t = path
              | _ => false
            | _ => false)
        | _ => .ok []
      | _ => .ok []
    getValue := fun key context =>
      if key = "vCPUs" then
        match context.Mapping.Properties with
        | .num q => .ok (some { Value := .num q, Unit := none })
        | _ => .ok none
      else .ok none }

/-- A mapping entry for the resources of type `type` with `vcpus` vCPUs. -/
def exampleEntry (name type : String) (vcpus : ℚ) : String × ResourceMapping :=
  (name, { Paths := .str type, Properties := .num vcpus })

/-- A planned disk of the Google provider. -/
def exampleMappedDisk : Json :=
  .obj [("address", .str "google_compute_disk.d"),
        ("provider_name", .str "registry.terraform.io/hashicorp/google"),
        ("type", .str "google_compute_disk"),
        ("name", .str "d"),
        ("region", .str "europe-west9")]

/-- A plan with a virtual machine, a disk and a bucket. -/
def exampleMappedPlan : Json :=
  .obj [("resources", .arr [exampleMapped, exampleMappedDisk, .obj exampleGoogleBucket])]

/-- The resource extracted by `mappingEnv` for the planned resource of type
`type` and name `name`, with `vcpus` vCPUs. -/
def exampleExtracted (type name : String) (vcpus : Int) : Resource :=
  Resource.ComputeResource
    { Name := name
      ResourceType := type
      Provider := Provider.GCP
      Region := "europe-west9"
      SelfLink := ""
      Count := 1 }
    { exampleGenericSpecs 1 with VCPUs := vcpus }

/-- The environment `exampleEnv` with the ignore list `ignored` for every
provider, in which a pattern is matched as literal text. -/
def literalEnv (ignored : List String) : Env :=
  { exampleEnv with
    IgnoredResources := fun _ => some ignored
    regexMatch := fun pattern s => some (literalMatch pattern s) }

/-- A configuration whose default boot disk is an SSD and whose default disk is
an HDD. -/
def exampleConfigSsdBoot : Config :=
  { bootDiskSize := 10, bootDiskType := "pd-ssd", diskSize := 500, diskType := "pd-standard" }

/-! ## Lemmas -/

theorem foldlM_append_eq_mapE {α β : Type} (f : α → Except Fault β) (l : List α)
    (init : List β) :
    l.foldlM (fun acc a => do let b ← f a; pure (acc ++ [b])) init =
      (do let bs ← mapE f l; pure (init ++ bs)) := by
  induction l generalizing init with
  | nil => simp [mapE, pure, Except.pure, bind, Except.bind]
  | cons a l ih =>
    simp only [List.foldlM_cons, mapE]
    cases hfa : f a with
    | error e => simp [bind, Except.bind]
    | ok b =>
      have := ih (init ++ [b])
      simp only [bind, Except.bind, pure, Except.pure] at this ⊢
      rw [this]
      cases mapE f l <;> simp

theorem foldl_append_const {α β : Type} (d : β) (l : List α) (init : List β) :
    l.foldl (fun acc _ => acc ++ [d]) init = init ++ List.replicate l.length d := by
  induction l generalizing init with
  | nil => simp
  | cons a l ih =>
    simp only [List.foldl_cons, ih, List.length_cons, List.replicate_succ, List.append_assoc,
      List.singleton_append]

theorem collectDisks_eq_attachedDisks (config : Config) (resource : ConfigResource)
    (dataResources : List (String × DataImageResource)) :
    collectDisks config resource dataResources = attachedDisks config resource dataResources := by
  unfold collectDisks attachedDisks blocksOf
  simp only [foldlM_append_eq_mapE, foldl_append_const]
  rcases resource.Expressions.lookup "boot_disk" with _ | bd <;>
  rcases resource.Expressions.lookup "disk" with _ | dk <;>
  rcases resource.Expressions.lookup "scratch_disk" with _ | sd <;>
  simp only [mapE, scratchDisk, bind, Except.bind, pure, Except.pure, List.length_nil,
    List.replicate_zero, List.append_nil, List.nil_append] <;>
  (try cases mapE (fun b => getBootDisk config b dataResources) bd.NestedBlocks) <;>
  (try cases mapE (fun b => getDisk config b false dataResources) dk.NestedBlocks) <;>
  simp

theorem sumDisks_foldl (disks : List disk) (h s : ℚ) :
    disks.foldl
        (fun acc disk =>
          if disk.isSSD then (acc.1, acc.2 + disk.sizeGb) else (acc.1 + disk.sizeGb, acc.2))
        (h, s) = (h + hddTotal disks, s + ssdTotal disks) := by
  induction disks generalizing h s with
  | nil => simp [hddTotal, ssdTotal]
  | cons d l ih =>
    simp only [List.foldl_cons]
    cases hd : d.isSSD with
    | true =>
      have := ih h (s + d.sizeGb)
      simp only [hd, if_true] at this ⊢
      rw [this]
      simp [hddTotal, ssdTotal, List.filter_cons, hd, add_assoc]
    | false =>
      have := ih (h + d.sizeGb) s
      simp only [hd] at this ⊢
      rw [show (if false = true then (h, s + d.sizeGb) else (h + d.sizeGb, s))
        = (h + d.sizeGb, s) from rfl, this]
      simp [hddTotal, ssdTotal, List.filter_cons, hd, add_assoc]

theorem sumDisks_eq (disks : List disk) : sumDisks disks = (hddTotal disks, ssdTotal disks) := by
  unfold sumDisks
  rw [sumDisks_foldl]
  simp

theorem appendAccelerator_eq (gpus : List String) (j : Json) :
    appendAccelerator gpus j =
      (do
        let a ← acceleratorOf j
        pure (gpus ++ List.replicate ⌈a.2⌉.toNat a.1)) := by
  cases j with
  | obj ga =>
    simp only [appendAccelerator, acceleratorOf]
    rcases hc : ga.lookup "count" with _ | c
    · simp [bind, Except.bind, throw, throwThe, MonadExceptOf.throw]
    · rcases ht : ga.lookup "type" with _ | t
      · cases c <;> simp [asFloat, bind, Except.bind, throw, throwThe, MonadExceptOf.throw]
      · cases c <;> cases t <;>
          simp [asFloat, asString, bind, Except.bind, pure, Except.pure]
  | _ => simp [appendAccelerator, acceleratorOf, bind, Except.bind, throw, throwThe,
      MonadExceptOf.throw]

theorem foldlM_appendAccelerator (l : List Json) (init : List String) :
    l.foldlM appendAccelerator init =
      (do
        let accs ← mapE acceleratorOf l
        pure (init ++ (accs.map fun a => List.replicate ⌈a.2⌉.toNat a.1).flatten)) := by
  induction l generalizing init with
  | nil => simp [mapE, pure, Except.pure, bind, Except.bind]
  | cons j l ih =>
    simp only [List.foldlM_cons, mapE, appendAccelerator_eq]
    cases acceleratorOf j with
    | error e => simp [bind, Except.bind]
    | ok a =>
      simp only [bind, Except.bind, pure, Except.pure]
      have := ih (init ++ List.replicate ⌈a.2⌉.toNat a.1)
      simp only [bind, Except.bind, pure, Except.pure] at this
      rw [this]
      cases mapE acceleratorOf l <;> simp

theorem collectGpus_eq (resource : ConfigResource) (gpus : List String) :
    collectGpus resource gpus =
      (do
        let accs ← guestAccelerators resource
        pure (gpus ++ (accs.map fun a => List.replicate ⌈a.2⌉.toNat a.1).flatten)) := by
  unfold collectGpus guestAccelerators
  cases GetConstFromConfig resource "guest_accelerator" <;>
    simp [foldlM_appendAccelerator, bind, Except.bind, pure, Except.pure, throw, throwThe,
      MonadExceptOf.throw]

theorem getComputeResourceSpecs_ok (env : Env) (resource : ConfigResource)
    (dataResources : List (String × DataImageResource)) (groupZone : Option String)
    (specs : ComputeResourceSpecs)
    (h : getComputeResourceSpecs env resource dataResources groupZone = .ok specs) :
    ∃ mt disks gpus, lookupMachineType env resource groupZone = .ok mt ∧
      attachedDisks env.config resource dataResources = .ok disks ∧
      collectGpus resource mt.GPUTypes = .ok gpus ∧
      specs.GpuTypes = gpus ∧ specs.SsdStorage = ssdTotal disks ∧
      specs.HddStorage = hddTotal disks ∧ specs.VCPUs = mt.Vcpus ∧
      specs.MemoryMb = mt.MemoryMb ∧ specs.ReplicationFactor = 1 := by
  unfold getComputeResourceSpecs at h
  rw [collectDisks_eq_attachedDisks] at h
  cases hm : lookupMachineType env resource groupZone with
  | error e => simp [hm, bind, Except.bind] at h
  | ok mt =>
    cases hd : attachedDisks env.config resource dataResources with
    | error e => simp [hm, hd, bind, Except.bind] at h
    | ok disks =>
      cases hg : collectGpus resource mt.GPUTypes with
      | error e => simp [hm, hd, hg, bind, Except.bind] at h
      | ok gpus =>
        simp only [hm, hd, hg, bind, Except.bind, sumDisks_eq, pure, Except.pure,
          Except.ok.injEq] at h
        subst h
        exact ⟨mt, disks, gpus, rfl, rfl, hg, rfl, rfl, rfl, rfl, rfl, rfl⟩

/-- Claim C1.  Whenever `getComputeResourceSpecs` returns specs for a virtual
machine instance or an instance template, the disks of the resource (boot
disks, `disk` blocks, scratch disks of 375 GB SSD each) are all resolved,
`SsdStorage` is the sum of the sizes of those classified SSD and `HddStorage`
the sum of the sizes of those classified HDD. -/
theorem getComputeResourceSpecs_storage (env : Env) (resource : ConfigResource)
    (dataResources : List (String × DataImageResource)) (groupZone : Option String)
    (specs : ComputeResourceSpecs)
    (h : getComputeResourceSpecs env resource dataResources groupZone = .ok specs) :
    ∃ disks, attachedDisks env.config resource dataResources = .ok disks ∧
      specs.SsdStorage = ssdTotal disks ∧ specs.HddStorage = hddTotal disks := by
  obtain ⟨_, disks, _, _, hd, _, _, hs, hh, _⟩ := getComputeResourceSpecs_ok _ _ _ _ _ h
  exact ⟨disks, hd, hs, hh⟩

/-- Witness of claim C1: the instance with a boot disk of 50 GB (SSD) and two
additional disks of 100 GB (HDD) reports SSD storage 50 and HDD storage 200. -/
theorem getComputeResourceSpecs_storage_witness :
    getComputeResourceSpecs exampleEnv exampleInstance [] none = .ok exampleInstanceSpecs ∧
    exampleInstanceSpecs.SsdStorage = 50 ∧ exampleInstanceSpecs.HddStorage = 200 ∧
    ∃ disks, attachedDisks exampleEnv.config exampleInstance [] = .ok disks ∧
      exampleInstanceSpecs.SsdStorage = ssdTotal disks ∧
      exampleInstanceSpecs.HddStorage = hddTotal disks :=
  ⟨by decide!, rfl, rfl,
    getComputeResourceSpecs_storage exampleEnv exampleInstance [] none exampleInstanceSpecs
      (by decide!)⟩

/-- Claim C2.  Whenever `getComputeResourceSpecs` returns specs for a resource
whose `guest_accelerator` blocks declare, in order, the types and counts
`accs`, the machine type is found in the catalog and `GpuTypes` is the list of
its GPU types followed, for each block in order, by `count` copies of the
block's type. -/
theorem getComputeResourceSpecs_gpuTypes (env : Env) (resource : ConfigResource)
    (dataResources : List (String × DataImageResource)) (groupZone : Option String)
    (specs : ComputeResourceSpecs) (accs : List (String × ℕ))
    (h : getComputeResourceSpecs env resource dataResources groupZone = .ok specs)
    (hacc : guestAccelerators resource = .ok (accs.map fun a => (a.1, (a.2 : ℚ)))) :
    ∃ mt, lookupMachineType env resource groupZone = .ok mt ∧
      specs.GpuTypes = mt.GPUTypes ++ (accs.map fun a => List.replicate a.2 a.1).flatten := by
  obtain ⟨mt, _, gpus, hm, _, hg, hs, _⟩ := getComputeResourceSpecs_ok _ _ _ _ _ h
  refine ⟨mt, hm, ?_⟩
  rw [collectGpus_eq, hacc] at hg
  simp only [bind, Except.bind, pure, Except.pure, Except.ok.injEq, List.map_map] at hg
  rw [hs, ← hg]
  congr 2
  apply List.map_congr_left
  intro a _
  simp

/-- Witness of claim C2: a machine type without GPU and one accelerator block
of type `nvidia-t4` and count 2 give the GPU types `nvidia-t4`, `nvidia-t4`. -/
theorem getComputeResourceSpecs_gpuTypes_witness :
    getComputeResourceSpecs exampleEnv exampleInstance [] none = .ok exampleInstanceSpecs ∧
    exampleInstanceSpecs.GpuTypes = ["nvidia-t4", "nvidia-t4"] ∧
    ∃ mt, lookupMachineType exampleEnv exampleInstance none = .ok mt ∧
      exampleInstanceSpecs.GpuTypes =
        mt.GPUTypes ++ ([("nvidia-t4", 2)].map fun a => List.replicate a.2 a.1).flatten :=
  ⟨by decide!, rfl,
    getComputeResourceSpecs_gpuTypes exampleEnv exampleInstance [] none exampleInstanceSpecs
      [("nvidia-t4", 2)] (by decide!) (by decide!)⟩

theorem bind_eq_ok {α β : Type} {x : Except Fault α} {f : α → Except Fault β} {b : β} :
    (x >>= f) = .ok b ↔ ∃ a, x = .ok a ∧ f a = .ok b := by
  cases x <;> simp [bind, Except.bind]

theorem getComputeResource_ok (env : Env) (resourceI : Json) (mapping : ResourceMapping)
    (resourcesResult out : List Resource)
    (h : getComputeResource env resourceI mapping resourcesResult = .ok (some out)) :
    ∃ context vcpus memory gpus cpuType replicationFactor count storages id specs sizes,
      buildContext env resourceI mapping = .ok (some context) ∧
      env.getValue "vCPUs" context = .ok vcpus ∧
      intSection env vcpus wrap32 0 = .ok specs.VCPUs ∧
      env.getValue "memory" context = .ok memory ∧
      memorySection env memory = .ok specs.MemoryMb ∧
      env.getSlice "guest_accelerator" context = .ok gpus ∧
      gpus.foldlM (fun acc gpu => do let gpuTypes ← getGPU env gpu; pure (acc ++ gpuTypes)) []
        = .ok specs.GpuTypes ∧
      env.getString "cpu_platform" context = .ok cpuType ∧
      specs.CPUType = cpuType.getD "" ∧
      env.getValue "replication_factor" context = .ok replicationFactor ∧
      intSection env replicationFactor wrap32 1 = .ok specs.ReplicationFactor ∧
      env.getValue "count" context = .ok count ∧
      intSection env count wrap64 1 = .ok id.Count ∧
      env.getSlice "storage" context = .ok storages ∧
      storageSection env storages = .ok sizes ∧
      specs.SsdStorage = sizes.1 ∧ specs.HddStorage = sizes.2 ∧
      id.Provider = Provider.GCP ∧
      out = resourcesResult ++ [Resource.ComputeResource id specs] := by
  unfold getComputeResource at h
  simp only [bind_eq_ok] at h
  obtain ⟨c, hc, h⟩ := h
  cases c with
  | none => simp [pure, Except.pure] at h
  | some context =>
    simp only [bind_eq_ok] at h
    obtain ⟨_, _, _, _, _, _, _, _, _, _, _, _, _, _, vcpus, hv, V, hV, memory, hm, M, hM,
      gpus, hg, G, hG, cpuType, hcpu, rf, hrf, R, hR, count, hcnt, C, hC, storages, hst,
      sizes, hsz, h⟩ := h
    simp only [pure, Except.pure, Except.ok.injEq, Option.some.injEq] at h
    subst h
    refine ⟨context, vcpus, memory, gpus, cpuType, rf, count, storages, _, _, sizes, hc, hv,
      hV, hm, hM, hg, hG, hcpu, ?_, hrf, hR, hcnt, hC, hst, hsz, rfl, rfl, rfl, rfl⟩
    cases cpuType <;> rfl

/-- Claim C3 (defect of the code).  A database instance whose `settings` block
does not declare `availability_type` makes `getSQLResourceSpecs` panic: the
field `ConstantValue` is read through the nil pointer returned by the map,
whereas the claim promises replication factor 1 when no availability mode is
declared. -/
theorem getSQLResourceSpecs_no_availability_type (env : Env) (resource : ConfigResource)
    (settingsExpr : Expression) (settings : Block) (rest : List Block)
    (hs : resource.Expressions.lookup "settings" = some settingsExpr)
    (hb : settingsExpr.NestedBlocks = settings :: rest)
    (ha : settings.lookup "availability_type" = none) :
    getSQLResourceSpecs env resource = .error Fault.panic := by
  unfold getSQLResourceSpecs
  rw [hs]
  simp only [firstBlock, sqlReplicationFactor, hb, ha, bind, Except.bind, pure, Except.pure,
    throw, throwThe, MonadExceptOf.throw]

/-- Witness of claim C3: the database instance declaring only a tier. -/
theorem getSQLResourceSpecs_no_availability_type_witness :
    getSQLResourceSpecs exampleEnv exampleSqlInstance = .error Fault.panic :=
  getSQLResourceSpecs_no_availability_type exampleEnv exampleSqlInstance
    (blocks [[("tier", const (.str "db-f1-micro"))]])
    [("tier", const (.str "db-f1-micro"))] [] rfl rfl rfl

theorem wrap32_of_fits32 {n : Int} (h : fits32 n) : wrap32 n = n := by
  unfold fits32 at h
  unfold wrap32
  omega

theorem tdiv_scale (v : Int) : (1024 * v).tdiv (1024 * 1024) = v.tdiv 1024 := by
  rcases le_total 0 v with h | h
  · rw [Int.tdiv_eq_ediv (by omega) (by norm_num), Int.tdiv_eq_ediv h (by norm_num)]
    omega
  · have hv : v = -(-v) := by omega
    rw [hv, mul_neg, Int.neg_tdiv, Int.neg_tdiv, Int.tdiv_eq_ediv (by omega) (by norm_num),
      Int.tdiv_eq_ediv (by omega) (by norm_num)]
    omega

theorem memorySection_some (env : Env) (value : Json) (unit : String) (v : Int)
    (hval : value.notNil = true) (hv : env.ParseToInt value = .ok v) :
    memorySection env (some { Value := value, Unit := some unit }) =
      memoryToMb (wrap32 v) (ToLower unit) := by
  simp [memorySection, hval, hv, bind, Except.bind, pure, Except.pure]

/-- Claim C4, as amended.  When `getComputeResource` returns a resource whose
mapped memory is the value `v` with unit `unit`, `MemoryMb` is `v` divided by
1024² for `b` and by 1024 for `kb` (integer division, truncated toward zero),
`v` for `mb`, and `v` times 1024, 1024², 1024³ for `gb`, `tb`, `pb`, the unit
being compared in lower case, provided `v` (for `b`, `kb`, `mb`) or the product
(for `gb`, `tb`, `pb`) fits in a signed 32-bit integer. -/
theorem getComputeResource_memoryMb (env : Env) (resourceI : Json) (mapping : ResourceMapping)
    (resourcesResult out : List Resource) (context : tfContext) (value : Json)
    (unit : String) (v : Int)
    (h : getComputeResource env resourceI mapping resourcesResult = .ok (some out))
    (hctx : buildContext env resourceI mapping = .ok (some context))
    (hmem : env.getValue "memory" context = .ok (some { Value := value, Unit := some unit }))
    (hval : value.notNil = true) (hv : env.ParseToInt value = .ok v) :
    ∃ id specs, out = resourcesResult ++ [Resource.ComputeResource id specs] ∧
      (ToLower unit = "b" → fits32 v → specs.MemoryMb = v.tdiv (1024 * 1024)) ∧
      (ToLower unit = "kb" → fits32 v → specs.MemoryMb = v.tdiv 1024) ∧
      (ToLower unit = "mb" → fits32 v → specs.MemoryMb = v) ∧
      (ToLower unit = "gb" → fits32 (v * 1024) → specs.MemoryMb = v * 1024) ∧
      (ToLower unit = "tb" → fits32 (v * (1024 * 1024)) →
        specs.MemoryMb = v * (1024 * 1024)) ∧
      (ToLower unit = "pb" → fits32 (v * (1024 * 1024 * 1024)) →
        specs.MemoryMb = v * (1024 * 1024 * 1024)) := by
  obtain ⟨context', _, memory, _, _, _, _, _, id, specs, _, hc, _, _, hm, hM, _, _, _, _, _,
    _, _, _, _, _, _, _, _, ho⟩ := getComputeResource_ok _ _ _ _ _ h
  rw [hctx] at hc
  simp only [Except.ok.injEq, Option.some.injEq] at hc
  subst hc
  rw [hmem] at hm
  simp only [Except.ok.injEq] at hm
  subst hm
  rw [memorySection_some env value unit v hval hv] at hM
  refine ⟨id, specs, ho, ?_, ?_, ?_, ?_, ?_, ?_⟩ <;> intro hu hf <;>
    rw [hu] at hM <;>
    simp only [memoryToMb, pure, Except.pure, Except.ok.injEq] at hM <;>
    simp only [String.reduceEq, if_false, if_true] at hM
  all_goals simp only [Except.ok.injEq] at hM
  all_goals rw [← hM]
  · rw [wrap32_of_fits32 hf]
  · rw [wrap32_of_fits32 hf]
  · rw [wrap32_of_fits32 hf]
  all_goals (unfold fits32 at hf; unfold wrap32; omega)

/-- Witness of claim C4: a memory of 2 with unit `GB` gives 2048 MB. -/
theorem getComputeResource_memoryMb_witness :
    ∃ id specs, [exampleMappedResource 2048] = [] ++ [Resource.ComputeResource id specs] ∧
      specs.MemoryMb = 2 * 1024 := by
  obtain ⟨id, specs, ho, _, _, _, hgb, _, _⟩ :=
    getComputeResource_memoryMb (memoryEnv 2 "GB") exampleMapped exampleMapping []
      [exampleMappedResource 2048] exampleContext (.num 2) "GB" 2
      (by decide!) rfl rfl rfl (by decide!)
  exact ⟨id, specs, ho, hgb (by decide) (by unfold fits32; decide)⟩

/-- Counterexample to claim C4 as stated: a memory of 8589934592 with unit `b`
(8 GiB) gives `MemoryMb = 0`, not 8589934592 divided by 1024², and a memory of
2 with unit `pb` gives `MemoryMb = -2147483648`, not 2 times 1024³; the value,
or the product, does not fit in the 32-bit field. -/
theorem getComputeResource_memoryMb_overflow :
    getComputeResource (memoryEnv 8589934592 "b") exampleMapped exampleMapping [] =
      .ok (some [exampleMappedResource 0]) ∧
    (exampleMappedResource 0).memoryMb ≠ Int.tdiv 8589934592 (1024 * 1024) ∧
    getComputeResource (memoryEnv 2 "pb") exampleMapped exampleMapping [] =
      .ok (some [exampleMappedResource (-2147483648)]) ∧
    (exampleMappedResource (-2147483648)).memoryMb ≠ 2 * (1024 * 1024 * 1024) :=
  ⟨by decide!, by decide, by decide!, by decide⟩

theorem getComputeResource_memory_some (env : Env) (resourceI : Json)
    (mapping : ResourceMapping) (resourcesResult out : List Resource) (context : tfContext)
    (value : Json) (unit : String) (v : Int)
    (h : getComputeResource env resourceI mapping resourcesResult = .ok (some out))
    (hctx : buildContext env resourceI mapping = .ok (some context))
    (hmem : env.getValue "memory" context = .ok (some { Value := value, Unit := some unit }))
    (hval : value.notNil = true) (hv : env.ParseToInt value = .ok v) :
    ∃ id specs, out = resourcesResult ++ [Resource.ComputeResource id specs] ∧
      memoryToMb (wrap32 v) (ToLower unit) = .ok specs.MemoryMb := by
  obtain ⟨context', _, memory, _, _, _, _, _, id, specs, _, hc, _, _, hm, hM, _, _, _, _, _,
    _, _, _, _, _, _, _, _, ho⟩ := getComputeResource_ok _ _ _ _ _ h
  rw [hctx] at hc
  simp only [Except.ok.injEq, Option.some.injEq] at hc
  subst hc
  rw [hmem] at hm
  simp only [Except.ok.injEq] at hm
  subst hm
  rw [memorySection_some env value unit v hval hv] at hM
  exact ⟨id, specs, ho, hM⟩

/-- Claim C5, as amended.  Take two runs of `getComputeResource`, the first on
a memory of value `v` in unit `u₁`, the second on a memory of value `1024·v` in
unit `u₂`, the next smaller unit.  For the pairs gb/mb, tb/gb and pb/tb both
runs give the same `MemoryMb`, whatever `v`; for the pairs mb/kb and kb/b they
give the same `MemoryMb` provided `1024·v` fits in a signed 32-bit integer. -/
theorem getComputeResource_memory_equivalent (env₁ env₂ : Env) (r₁ r₂ : Json)
    (m₁ m₂ : ResourceMapping) (rr₁ rr₂ out₁ out₂ : List Resource) (c₁ c₂ : tfContext)
    (val₁ val₂ : Json) (u₁ u₂ : String) (v : Int)
    (h₁ : getComputeResource env₁ r₁ m₁ rr₁ = .ok (some out₁))
    (hc₁ : buildContext env₁ r₁ m₁ = .ok (some c₁))
    (hm₁ : env₁.getValue "memory" c₁ = .ok (some { Value := val₁, Unit := some u₁ }))
    (hn₁ : val₁.notNil = true) (hv₁ : env₁.ParseToInt val₁ = .ok v)
    (h₂ : getComputeResource env₂ r₂ m₂ rr₂ = .ok (some out₂))
    (hc₂ : buildContext env₂ r₂ m₂ = .ok (some c₂))
    (hm₂ : env₂.getValue "memory" c₂ = .ok (some { Value := val₂, Unit := some u₂ }))
    (hn₂ : val₂.notNil = true) (hv₂ : env₂.ParseToInt val₂ = .ok (1024 * v)) :
    ∃ id₁ s₁ id₂ s₂, out₁ = rr₁ ++ [Resource.ComputeResource id₁ s₁] ∧
      out₂ = rr₂ ++ [Resource.ComputeResource id₂ s₂] ∧
      (ToLower u₁ = "gb" ∧ ToLower u₂ = "mb" → s₁.MemoryMb = s₂.MemoryMb) ∧
      (ToLower u₁ = "tb" ∧ ToLower u₂ = "gb" → s₁.MemoryMb = s₂.MemoryMb) ∧
      (ToLower u₁ = "pb" ∧ ToLower u₂ = "tb" → s₁.MemoryMb = s₂.MemoryMb) ∧
      (ToLower u₁ = "mb" ∧ ToLower u₂ = "kb" → fits32 (1024 * v) →
        s₁.MemoryMb = s₂.MemoryMb) ∧
      (ToLower u₁ = "kb" ∧ ToLower u₂ = "b" → fits32 (1024 * v) →
        s₁.MemoryMb = s₂.MemoryMb) := by
  obtain ⟨id₁, s₁, ho₁, hM₁⟩ :=
    getComputeResource_memory_some _ _ _ _ _ _ _ _ _ h₁ hc₁ hm₁ hn₁ hv₁
  obtain ⟨id₂, s₂, ho₂, hM₂⟩ :=
    getComputeResource_memory_some _ _ _ _ _ _ _ _ _ h₂ hc₂ hm₂ hn₂ hv₂
  refine ⟨id₁, s₁, id₂, s₂, ho₁, ho₂, ?_, ?_, ?_, ?_, ?_⟩
  · rintro ⟨hu₁, hu₂⟩
    rw [hu₁] at hM₁
    rw [hu₂] at hM₂
    simp only [memoryToMb, pure, Except.pure, Except.ok.injEq, String.reduceEq, if_false,
      if_true] at hM₁ hM₂
    rw [← hM₁, ← hM₂]
    unfold wrap32
    omega
  · rintro ⟨hu₁, hu₂⟩
    rw [hu₁] at hM₁
    rw [hu₂] at hM₂
    simp only [memoryToMb, pure, Except.pure, Except.ok.injEq, String.reduceEq, if_false,
      if_true] at hM₁ hM₂
    rw [← hM₁, ← hM₂]
    unfold wrap32
    omega
  · rintro ⟨hu₁, hu₂⟩
    rw [hu₁] at hM₁
    rw [hu₂] at hM₂
    simp only [memoryToMb, pure, Except.pure, Except.ok.injEq, String.reduceEq, if_false,
      if_true] at hM₁ hM₂
    rw [← hM₁, ← hM₂]
    unfold wrap32
    omega
  · rintro ⟨hu₁, hu₂⟩ hf
    rw [hu₁] at hM₁
    rw [hu₂] at hM₂
    simp only [memoryToMb, pure, Except.pure, Except.ok.injEq, String.reduceEq, if_false,
      if_true] at hM₁ hM₂
    have hfv : fits32 v := by unfold fits32 at hf ⊢; omega
    rw [← hM₁, ← hM₂, wrap32_of_fits32 hf, wrap32_of_fits32 hfv,
      Int.mul_tdiv_cancel_left _ (by norm_num)]
  · rintro ⟨hu₁, hu₂⟩ hf
    rw [hu₁] at hM₁
    rw [hu₂] at hM₂
    simp only [memoryToMb, pure, Except.pure, Except.ok.injEq, String.reduceEq, if_false,
      if_true] at hM₁ hM₂
    have hfv : fits32 v := by unfold fits32 at hf ⊢; omega
    rw [← hM₁, ← hM₂, wrap32_of_fits32 hf, wrap32_of_fits32 hfv, tdiv_scale]

/-- Witness of claim C5: the memories `2 GB` and `2048 MB` give the same
`MemoryMb`. -/
theorem getComputeResource_memory_equivalent_witness :
    ∃ id₁ s₁ id₂ s₂,
      [exampleMappedResource 2048] = [] ++ [Resource.ComputeResource id₁ s₁] ∧
      [exampleMappedResource 2048] = [] ++ [Resource.ComputeResource id₂ s₂] ∧
      s₁.MemoryMb = s₂.MemoryMb := by
  obtain ⟨id₁, s₁, id₂, s₂, ho₁, ho₂, hgb, _⟩ :=
    getComputeResource_memory_equivalent (memoryEnv 2 "GB") (memoryEnv 2048 "MB")
      exampleMapped exampleMapped exampleMapping exampleMapping [] []
      [exampleMappedResource 2048] [exampleMappedResource 2048] exampleContext exampleContext
      (.num 2) (.num 2048) "GB" "MB" 2
      (by decide!) rfl rfl rfl (by decide!) (by decide!) rfl rfl rfl (by decide!)
  exact ⟨id₁, s₁, id₂, s₂, ho₁, ho₂, hgb ⟨by decide, by decide⟩⟩

/-- Counterexample to claim C5 as stated: the memory `4194304 kb` (4 GiB)
gives `MemoryMb = 4096`, the equivalent memory `4294967296 b` gives
`MemoryMb = 0`, since 4294967296 does not fit in the 32-bit field. -/
theorem getComputeResource_memory_not_equivalent :
    getComputeResource (memoryEnv 4194304 "kb") exampleMapped exampleMapping [] =
      .ok (some [exampleMappedResource 4096]) ∧
    getComputeResource (memoryEnv (1024 * 4194304) "b") exampleMapped exampleMapping [] =
      .ok (some [exampleMappedResource 0]) ∧
    (exampleMappedResource 4096).memoryMb ≠ (exampleMappedResource 0).memoryMb :=
  ⟨by decide!, by decide!, by decide⟩

theorem decimalDiv_error (a b : ℚ) :
    |decimalDiv a b - a / b| ≤ 1 / 20000000000000000 := by
  unfold decimalDiv
  simp only []
  have key : a / b = a / b * 10000000000000000 / 10000000000000000 :=
    (mul_div_cancel_right₀ (a / b) (by norm_num : (10000000000000000 : ℚ) ≠ 0)).symm
  generalize a / b * 10000000000000000 = x at key ⊢
  rw [key, ← sub_div, abs_div, abs_of_pos (by norm_num : (0 : ℚ) < 10000000000000000)]
  rw [div_le_iff₀ (by norm_num)]
  norm_num
  have h1 := Int.floor_le (x + 1 / 2)
  have h2 := Int.lt_floor_add_one (x + 1 / 2)
  have h3 := Int.floor_le (-x + 1 / 2)
  have h4 := Int.lt_floor_add_one (-x + 1 / 2)
  split_ifs with hx
  · rw [abs_le]; constructor <;> linarith
  · rw [abs_le]; constructor <;> linarith

theorem half_floor : ⌊(1 / 2 : ℚ)⌋ = 0 := by
  rw [Int.floor_eq_zero_iff]
  constructor <;> norm_num

theorem decimalDiv_exact (a b : ℚ) (n : ℤ) (h : a / b * 10000000000000000 = n) :
    decimalDiv a b = a / b := by
  unfold decimalDiv
  simp only []
  have key : a / b = a / b * 10000000000000000 / 10000000000000000 :=
    (mul_div_cancel_right₀ (a / b) (by norm_num : (10000000000000000 : ℚ) ≠ 0)).symm
  rw [h] at key ⊢
  rw [key]
  congr 1
  split_ifs with hx
  · rw [Int.floor_int_add, half_floor]
    simp
  · rw [show (-(n : ℚ) + 1 / 2) = (((-n : ℤ)) : ℚ) + 1 / 2 by push_cast; ring,
      Int.floor_int_add, half_floor]
    simp

theorem getStorage_ok (env : Env) (storageMap : TaggedBlock) (size : valueWithUnit) (s : ℚ)
    (result : storage)
    (h : getStorage env storageMap = .ok result)
    (hsize : storageMap.lookup "size" = some (some size))
    (hs : env.NewFromString size.Value = .ok s) :
    result.SizeGb = storageToGb s size.Unit := by
  unfold getStorage at h
  rw [hsize] at h
  simp only [hs, bind, Except.bind, pure, Except.pure] at h
  rcases ht : storageMap.lookup "type" with _ | (_ | t)
  · simp [ht, throw, throwThe, MonadExceptOf.throw] at h
  · simp only [ht, Except.ok.injEq] at h
    rw [← h]
  · simp only [ht] at h
    cases hstr : asString t.Value with
    | error e => simp [hstr] at h
    | ok v =>
      simp only [hstr, Except.ok.injEq] at h
      rw [← h]

theorem round_tie (x : ℚ) :
    |(((if 0 ≤ x then ⌊x + 1 / 2⌋ else -⌊-x + 1 / 2⌋ : Int) : ℚ)) - x| = 1 / 2 →
    |x| < |(((if 0 ≤ x then ⌊x + 1 / 2⌋ else -⌊-x + 1 / 2⌋ : Int) : ℚ))| := by
  have h1 := Int.floor_le (x + 1 / 2)
  have h2 := Int.lt_floor_add_one (x + 1 / 2)
  have h3 := Int.floor_le (-x + 1 / 2)
  have h4 := Int.lt_floor_add_one (-x + 1 / 2)
  split_ifs with hx
  · intro h
    have hk : ((⌊x + 1 / 2⌋ : Int) : ℚ) - x = 1 / 2 := by
      rcases abs_eq (by norm_num : (0 : ℚ) ≤ 1 / 2) |>.1 h with h' | h'
      · exact h'
      · linarith
    rw [abs_of_nonneg hx, abs_of_nonneg (by linarith)]
    linarith
  · intro h
    push_neg at hx
    push_cast at h ⊢
    have hk : -((⌊-x + 1 / 2⌋ : Int) : ℚ) - x = -(1 / 2) := by
      rcases abs_eq (by norm_num : (0 : ℚ) ≤ 1 / 2) |>.1 h with h' | h'
      · linarith
      · exact h'
    rw [abs_of_neg hx, abs_neg, abs_of_nonneg (by linarith)]
    linarith

theorem decimalDiv_rounded (a b : ℚ) : IsRounded16 (a / b) (decimalDiv a b) := by
  refine ⟨?_, decimalDiv_error a b, ?_⟩
  · unfold decimalDiv
    exact ⟨_, rfl⟩
  · unfold decimalDiv
    simp only []
    have key : a / b = a / b * 10000000000000000 / 10000000000000000 :=
      (mul_div_cancel_right₀ (a / b) (by norm_num : (10000000000000000 : ℚ) ≠ 0)).symm
    have ht := round_tie (a / b * 10000000000000000)
    generalize a / b * 10000000000000000 = x at key ht ⊢
    rw [key, ← sub_div, abs_div, abs_div, abs_div,
      abs_of_pos (by norm_num : (0 : ℚ) < 10000000000000000)]
    intro h
    rw [div_eq_iff (by norm_num)] at h
    have h' := ht (by rw [h]; norm_num)
    exact div_lt_div_of_pos_right h' (by norm_num)

theorem tie_sides (n : ℤ) (x r r' : ℚ) (hr : r = n / 10000000000000000)
    (h1 : r - x = 1 / 20000000000000000) (h2 : r' - x = -(1 / 20000000000000000))
    (t1 : |x| < |r|) (t2 : |x| < |r'|) : False := by
  have hx : x = (2 * n - 1) / 20000000000000000 := by
    rw [hr] at h1
    field_simp at h1 ⊢
    linarith
  have hr' : r' = (2 * n - 2) / 20000000000000000 := by
    rw [hx] at h2
    field_simp at h2 ⊢
    linarith
  have hr2 : r = (2 * n) / 20000000000000000 := by
    rw [hr]
    field_simp
    ring
  rw [hx, hr2, abs_div, abs_div, abs_of_pos (by norm_num : (0 : ℚ) < 20000000000000000),
    div_lt_div_iff_of_pos_right (by norm_num)] at t1
  rw [hx, hr', abs_div, abs_div, abs_of_pos (by norm_num : (0 : ℚ) < 20000000000000000),
    div_lt_div_iff_of_pos_right (by norm_num)] at t2
  rcases le_or_lt n 0 with hn | hn
  · have hq : (n : ℚ) ≤ 0 := by exact_mod_cast hn
    rw [abs_of_nonpos (by linarith), abs_of_nonpos (by linarith)] at t1
    linarith
  · have hq : (1 : ℚ) ≤ n := by exact_mod_cast hn
    rw [abs_of_nonneg (by linarith), abs_of_nonneg (by linarith)] at t2
    linarith

theorem isRounded16_unique (x r r' : ℚ) (h : IsRounded16 x r) (h' : IsRounded16 x r') :
    r = r' := by
  obtain ⟨⟨n, hn⟩, hb, ht⟩ := h
  obtain ⟨⟨n', hn'⟩, hb', ht'⟩ := h'
  by_contra hne
  have hnn : n ≠ n' := fun e => hne (by rw [hn, hn', e])
  have hd : (1 : ℚ) ≤ |(n : ℚ) - n'| := by
    have : (1 : ℤ) ≤ |n - n'| := Int.one_le_abs (sub_ne_zero.2 hnn)
    exact_mod_cast this
  have hrr : 1 / 10000000000000000 ≤ |r - r'| := by
    rw [hn, hn', ← sub_div, abs_div, abs_of_pos (by norm_num : (0 : ℚ) < 10000000000000000)]
    exact div_le_div_of_nonneg_right hd (by norm_num)
  have htri : |r - r'| ≤ |r - x| + |r' - x| := by
    have := abs_sub_le r x r'
    rwa [abs_sub_comm x r'] at this
  have e1 : |r - x| = 1 / 20000000000000000 := by linarith
  have e2 : |r' - x| = 1 / 20000000000000000 := by linarith
  have t1 := ht e1
  have t2 := ht' e2
  rcases (abs_eq (by norm_num : (0 : ℚ) ≤ 1 / 20000000000000000)).1 e1 with a1 | a1 <;>
    rcases (abs_eq (by norm_num : (0 : ℚ) ≤ 1 / 20000000000000000)).1 e2 with a2 | a2
  · exact hne (by linarith)
  · exact tie_sides n x r r' hn a1 a2 t1 t2
  · exact tie_sides n' x r' r hn' a2 a1 t2 t1
  · exact hne (by linarith)

/-- Claim C6, as amended.  When `getStorage` returns for a block whose size is
`s` with unit `unit` (compared in lower case), the size in gigabytes is `s` for
`gb` and `s` times 1024 for `tb`; for `mb`, `kb` and `b` it is `s` divided
once, twice and three times by 1024, each quotient being rounded to 16 decimal
places (a tie going away from zero) before the next division.  The result is
within 10⁻¹⁶ of `s`÷1024, `s`÷1024², `s`÷1024³, and it is exactly `s`÷1024 for
`mb` when `s` has at most 6 decimal places. -/
theorem getStorage_sizeGb (env : Env) (storageMap : TaggedBlock) (size : valueWithUnit)
    (s : ℚ) (unit : String) (result : storage)
    (h : getStorage env storageMap = .ok result)
    (hsize : storageMap.lookup "size" = some (some size))
    (hs : env.NewFromString size.Value = .ok s)
    (hu : size.Unit = some unit) :
    (ToLower unit = "gb" → result.SizeGb = s) ∧
    (ToLower unit = "tb" → result.SizeGb = s * 1024) ∧
    (ToLower unit = "mb" →
      result.SizeGb = decimalDiv s 1024 ∧
      IsRounded16 (s / 1024) result.SizeGb ∧
      |result.SizeGb - s / 1024| ≤ 1 / 20000000000000000 ∧
      ∀ n : ℤ, s * 1000000 = n → result.SizeGb = s / 1024) ∧
    (ToLower unit = "kb" →
      result.SizeGb = decimalDiv (decimalDiv s 1024) 1024 ∧
      (∃ r₁, IsRounded16 (s / 1024) r₁ ∧ IsRounded16 (r₁ / 1024) result.SizeGb) ∧
      |result.SizeGb - s / (1024 * 1024)| < 1 / 10000000000000000) ∧
    (ToLower unit = "b" →
      result.SizeGb = decimalDiv (decimalDiv (decimalDiv s 1024) 1024) 1024 ∧
      (∃ r₁ r₂, IsRounded16 (s / 1024) r₁ ∧ IsRounded16 (r₁ / 1024) r₂ ∧
        IsRounded16 (r₂ / 1024) result.SizeGb) ∧
      |result.SizeGb - s / (1024 * 1024 * 1024)| < 1 / 10000000000000000) := by
  have hr := getStorage_ok env storageMap size s result h hsize hs
  rw [hu] at hr
  refine ⟨?_, ?_, ?_, ?_, ?_⟩ <;> intro hl <;>
    simp only [storageToGb, hl, String.reduceEq, if_false, if_true] at hr <;> rw [hr]
  · refine ⟨rfl, decimalDiv_rounded s 1024, decimalDiv_error s 1024, ?_⟩
    intro n hn
    apply decimalDiv_exact s 1024 (n * 9765625)
    push_cast
    rw [← hn]
    ring
  · refine ⟨rfl, ⟨_, decimalDiv_rounded s 1024, decimalDiv_rounded _ 1024⟩, ?_⟩
    have e1 := abs_le.mp (decimalDiv_error s 1024)
    have e2 := abs_le.mp (decimalDiv_error (decimalDiv s 1024) 1024)
    rw [abs_lt]
    constructor <;> linarith [e1.1, e1.2, e2.1, e2.2]
  · refine ⟨rfl, ⟨_, _, decimalDiv_rounded s 1024, decimalDiv_rounded _ 1024,
      decimalDiv_rounded _ 1024⟩, ?_⟩
    have e1 := abs_le.mp (decimalDiv_error s 1024)
    have e2 := abs_le.mp (decimalDiv_error (decimalDiv s 1024) 1024)
    have e3 := abs_le.mp (decimalDiv_error (decimalDiv (decimalDiv s 1024) 1024) 1024)
    rw [abs_lt]
    constructor <;> linarith [e1.1, e1.2, e2.1, e2.2, e3.1, e3.2]

/-- Witness of claim C6: a storage of 2048 with unit `MB` has the size 2 GB. -/
theorem getStorage_sizeGb_witness :
    getStorage exampleEnv (exampleStorage 2048 "MB") = .ok { SizeGb := 2, IsSSD := false } ∧
    (2 : ℚ) = 2048 / 1024 := by
  have h := getStorage_sizeGb exampleEnv (exampleStorage 2048 "MB")
    { Value := .num 2048, Unit := some "MB" } 2048 "MB" { SizeGb := 2, IsSSD := false }
    (by decide!) rfl rfl rfl
  exact ⟨by decide!, (h.2.2.1 (by decide)).2.2.2 2048000000 (by norm_num)⟩

/-- Counterexample to claim C6 as stated: a storage of 1 with unit `kb` has the
size 0.0000009536743164 GB, which is not 1÷1024²; the second division is
rounded to 16 decimal places. -/
theorem getStorage_sizeGb_rounded :
    getStorage exampleEnv (exampleStorage 1 "kb") =
      .ok { SizeGb := 9536743164 / 10000000000000000, IsSSD := false } ∧
    (9536743164 / 10000000000000000 : ℚ) ≠ 1 / (1024 * 1024) :=
  ⟨by decide!, by norm_num⟩

theorem foldl_references (templates : List (String × ConfigResource)) (references : List String)
    (init : Option ConfigResource) :
    references.foldl
        (fun template reference =>
          if !HasSuffix reference ".id" then templates.lookup reference else template)
        init =
      match (references.filter fun reference => !HasSuffix reference ".id").getLast? with
      | some reference => templates.lookup reference
      | none => init := by
  induction references using List.reverseRecOn with
  | nil => simp
  | append_singleton l a ih =>
    rw [List.foldl_append, ih, List.filter_append]
    cases ha : HasSuffix a ".id" <;> simp [ha]

theorem foldl_flatten_eq {α β γ : Type} (step : β → α → β) (g : γ → List α) (l : List γ)
    (init : β) :
    l.foldl (fun acc x => (g x).foldl step acc) init = ((l.map g).flatten).foldl step init := by
  induction l generalizing init with
  | nil => simp
  | cons x l ih => simp [List.foldl_append, ih]

theorem findTemplate_eq (tfResource : ConfigResource)
    (templates : List (String × ConfigResource)) :
    findTemplate tfResource templates =
      match (templateReferences tfResource).getLast? with
      | some reference => templates.lookup reference
      | none => none := by
  unfold findTemplate templateReferences blocksOf
  cases tfResource.Expressions.lookup "version" with
  | none => simp
  | some versionExpr =>
    simp only []
    refine Eq.trans ?_ (foldl_references templates _ none)
    rw [← foldl_flatten_eq]
    congr 1
    funext template version
    cases version.lookup "instance_template" <;> simp

theorem getResourceIdentification_ok (env : Env) (resource : ConfigResource)
    (id : ResourceIdentification) (h : getResourceIdentification env resource = .ok id) :
    id.Name = resource.Name ∧ id.ResourceType = resource.Type_ ∧
      id.Provider = Provider.GCP ∧ id.Count = 1 := by
  unfold getResourceIdentification at h
  simp only [bind_eq_ok, pure, Except.pure, Except.ok.injEq] at h
  obtain ⟨_, _, _, _, h⟩ := h
  subst h
  exact ⟨rfl, rfl, rfl, rfl⟩

theorem truncate_intCast (n : Int) : truncate (n : ℚ) = n := by
  simp [truncate]

theorem wrap64_of_fits64 {n : Int} (h : fits64 n) : wrap64 n = n := by
  unfold fits64 at h
  unfold wrap64
  omega

theorem GetResource_group (env : Env) (group : ConfigResource)
    (dataResources : List (String × DataImageResource))
    (templates : List (String × ConfigResource)) (id : ResourceIdentification)
    (hty : group.Type_ = "google_compute_instance_group_manager")
    (hid : getResourceIdentification env group = .ok id) :
    GetResource env group dataResources templates =
      (do
        let result ← getComputeInstanceGroupManagerSpecs env group dataResources templates
        match result.1 with
        | some specs =>
          pure (Resource.ComputeResource { id with Count := result.2 } specs)
        | none => pure (Resource.UnsupportedResource id)) := by
  have hrt := (getResourceIdentification_ok env group id hid).2.1
  rw [hty] at hrt
  unfold GetResource
  simp only [hid, bind, Except.bind, hrt, String.reduceEq, if_false, if_true, false_or]

/-- Claim C7, as amended.  For an instance group manager with identification
`id`, take the last reference not ending in `.id` among the references of the
`instance_template` expressions of its `version` blocks, in order.  When that
reference is a key of the template catalog, bound to an instance template whose
specs resolve to `specs` with the group's zone in place of a zone of the
template, `GetResource` returns the Compute Resource that carries `id` (the
group's name, type and region) with the count set to the declared
`target_size`, and the specs `specs`. -/
theorem GetResource_instance_group (env : Env) (group template : ConfigResource)
    (dataResources : List (String × DataImageResource))
    (templates : List (String × ConfigResource)) (id tid : ResourceIdentification)
    (reference zone : String) (n : Int) (specs : ComputeResourceSpecs)
    (hty : group.Type_ = "google_compute_instance_group_manager")
    (hid : getResourceIdentification env group = .ok id)
    (href : (templateReferences group).getLast? = some reference)
    (htpl : templates.lookup reference = some template)
    (htty : template.Type_ = "google_compute_instance_template")
    (htid : getResourceIdentification env template = .ok tid)
    (hzone : GetConstFromConfig group "zone" = .str zone)
    (hsize : GetConstFromConfig group "target_size" = .num n) (hn : fits64 n)
    (hspecs : getComputeResourceSpecs env template dataResources (some zone) = .ok specs) :
    GetResource env group dataResources templates =
      .ok (Resource.ComputeResource { id with Count := n } specs) ∧
    id.Name = group.Name ∧ id.ResourceType = group.Type_ := by
  have hids := getResourceIdentification_ok env group id hid
  refine ⟨?_, hids.1, hids.2.1⟩
  have htrt := (getResourceIdentification_ok env template tid htid).2.1
  rw [htty] at htrt
  have hft : findTemplate group templates = some template := by
    rw [findTemplate_eq, href]
    exact htpl
  have htr : GetResourceTemplate env template dataResources zone =
      .ok (some (Resource.ComputeResource tid specs)) := by
    unfold GetResourceTemplate
    simp only [htid, bind, Except.bind, htrt, if_true, hspecs, pure, Except.pure]
  rw [GetResource_group env group dataResources templates id hty hid]
  unfold getComputeInstanceGroupManagerSpecs
  simp only [groupTargetSize, hsize, hft, hzone, asFloat, asString, htr, bind, Except.bind,
    pure, Except.pure, truncate_intCast, wrap64_of_fits64 hn]

/-- Witness of claim C7: a group of target size 3 whose `instance_template`
has the references `google_compute_instance_template.tpl.id` and
`google_compute_instance_template.tpl`. -/
theorem GetResource_instance_group_witness :
    GetResource exampleEnv
        (exampleGroup ["google_compute_instance_template.tpl.id",
          "google_compute_instance_template.tpl"]) [] exampleTemplates =
      .ok (Resource.ComputeResource { exampleGroupId with Count := 3 } exampleInstanceSpecs) :=
  (GetResource_instance_group exampleEnv
    (exampleGroup ["google_compute_instance_template.tpl.id",
      "google_compute_instance_template.tpl"]) exampleTemplate [] exampleTemplates
    exampleGroupId exampleTemplateId "google_compute_instance_template.tpl" "europe-west9-a" 3
    exampleInstanceSpecs rfl (by decide!) (by decide!) rfl rfl (by decide!) rfl rfl
    (by unfold fits64; decide) (by decide!)).1

/-- Counterexample to claim C7 as stated: the `version` block of the group
references the template `google_compute_instance_template.tpl`, which is in the
catalog, followed by `var.template`, which is not; the later reference
replaces the template found by a nil one and `GetResource` returns an
Unsupported Resource. -/
theorem GetResource_instance_group_last_reference :
    "google_compute_instance_template.tpl" ∈
      templateReferences (exampleGroup ["google_compute_instance_template.tpl.id",
        "google_compute_instance_template.tpl", "var.template"]) ∧
    (exampleTemplates.lookup "google_compute_instance_template.tpl").isSome = true ∧
    GetResource exampleEnv
        (exampleGroup ["google_compute_instance_template.tpl.id",
          "google_compute_instance_template.tpl", "var.template"]) [] exampleTemplates =
      .ok (Resource.UnsupportedResource exampleGroupId) :=
  ⟨by decide!, by decide, by decide!⟩

/-- Claim C8.  For an instance group manager with identification `id` none of
whose template references is resolved (no `version` block, no
`instance_template` expression, every reference ending in `.id`, or no
reference that is a key of the template catalog), `GetResource` does not fail
and returns the Unsupported Resource carrying `id`; the `target_size`, when
declared, is a number. -/
theorem GetResource_unresolved_template (env : Env) (group : ConfigResource)
    (dataResources : List (String × DataImageResource))
    (templates : List (String × ConfigResource)) (id : ResourceIdentification)
    (hty : group.Type_ = "google_compute_instance_group_manager")
    (hid : getResourceIdentification env group = .ok id)
    (hsize : GetConstFromConfig group "target_size" = .null ∨
      ∃ q, GetConstFromConfig group "target_size" = .num q)
    (hun : ∀ reference ∈ templateReferences group, templates.lookup reference = none) :
    GetResource env group dataResources templates = .ok (Resource.UnsupportedResource id) := by
  have hft : findTemplate group templates = none := by
    rw [findTemplate_eq]
    cases hl : (templateReferences group).getLast? with
    | none => rfl
    | some reference => exact hun reference (List.mem_of_getLast?_eq_some hl)
  rw [GetResource_group env group dataResources templates id hty hid]
  unfold getComputeInstanceGroupManagerSpecs
  rcases hsize with hs | ⟨q, hs⟩ <;>
    simp only [groupTargetSize, hs, hft, asFloat, bind, Except.bind, pure, Except.pure]

/-- Witness of claim C8: a group whose only usable reference,
`google_compute_instance_template.other`, is not a key of the catalog. -/
theorem GetResource_unresolved_template_witness :
    GetResource exampleEnv
        (exampleGroup ["google_compute_instance_template.other.id",
          "google_compute_instance_template.other"]) [] exampleTemplates =
      .ok (Resource.UnsupportedResource exampleGroupId) :=
  GetResource_unresolved_template exampleEnv
    (exampleGroup ["google_compute_instance_template.other.id",
      "google_compute_instance_template.other"]) [] exampleTemplates exampleGroupId
    rfl (by decide!) (Or.inr ⟨3, rfl⟩)
    (by
      intro reference hr
      have hrefs : templateReferences (exampleGroup ["google_compute_instance_template.other.id",
          "google_compute_instance_template.other"]) =
          ["google_compute_instance_template.other"] := by decide!
      rw [hrefs, List.mem_singleton] at hr
      subst hr
      rfl)

theorem mapSet_lookup_self {β : Type} (m : List (String × β)) (k : String) (v : β) :
    (mapSet m k v).lookup k = some v := by
  induction m with
  | nil => simp [mapSet, List.lookup]
  | cons e m ih =>
    obtain ⟨k', v'⟩ := e
    by_cases hk : k' = k
    · simp [mapSet, hk, List.lookup]
    · have hk' : (k == k') = false := by simpa using fun h => hk h.symm
      simp [mapSet, hk, List.lookup, hk', ih]

theorem mapSet_lookup_ne {β : Type} (m : List (String × β)) (k k' : String) (v : β)
    (h : k' ≠ k) : (mapSet m k v).lookup k' = m.lookup k' := by
  induction m with
  | nil =>
    have : (k' == k) = false := by simpa using h
    simp [mapSet, List.lookup, this]
  | cons e m ih =>
    obtain ⟨k₁, v₁⟩ := e
    by_cases hk : k₁ = k
    · subst hk
      have : (k' == k₁) = false := by simpa using h
      simp [mapSet, List.lookup, this]
    · simp only [mapSet, hk, if_false, List.lookup]
      cases k' == k₁ <;> simp [ih]

theorem mapSet_keys {β : Type} (m : List (String × β)) (k : String) (v : β) :
    (mapSet m k v).map Prod.fst =
      if k ∈ m.map Prod.fst then m.map Prod.fst else m.map Prod.fst ++ [k] := by
  induction m with
  | nil => simp [mapSet]
  | cons e m ih =>
    obtain ⟨k₁, v₁⟩ := e
    by_cases hk : k₁ = k
    · subst hk
      simp [mapSet]
    · have hk' : ¬ k = k₁ := fun h => hk h.symm
      simp only [mapSet, hk, if_false, List.map_cons, ih, List.mem_cons, hk', false_or]
      split_ifs <;> simp

theorem mapSet_nodup {β : Type} (m : List (String × β)) (k : String) (v : β)
    (h : (m.map Prod.fst).Nodup) : ((mapSet m k v).map Prod.fst).Nodup := by
  rw [mapSet_keys]
  split_ifs with hk
  · exact h
  · exact List.Nodup.append h (List.nodup_singleton k) (by simpa using hk)

theorem lookup_eq_none_iff {β : Type} (m : List (String × β)) (k : String) :
    m.lookup k = none ↔ k ∉ m.map Prod.fst := by
  induction m with
  | nil => simp [List.lookup]
  | cons e m ih =>
    obtain ⟨k₁, v₁⟩ := e
    by_cases hk : k = k₁
    · subst hk
      simp [List.lookup]
    · have : (k == k₁) = false := by simpa using hk
      simp [List.lookup, this, ih, hk]

theorem count_of_lookup {β : Type} (m : List (String × β)) (k : String) (v : β)
    (hl : m.lookup k = some v) (hn : (m.map Prod.fst).Nodup) :
    (m.filter fun e => e.1 = k).length = 1 := by
  induction m with
  | nil => simp [List.lookup] at hl
  | cons e m ih =>
    obtain ⟨k₁, v₁⟩ := e
    simp only [List.map_cons, List.nodup_cons] at hn
    by_cases hk : k = k₁
    · subst hk
      have : m.filter (fun e => e.1 = k) = [] := by
        rw [List.filter_eq_nil_iff]
        intro e he
        simp only [decide_eq_true_eq]
        intro hek
        exact hn.1 (hek ▸ List.mem_map_of_mem Prod.fst he)
      simp [List.filter_cons, this]
    · have hb : (k == k₁) = false := by simpa using hk
      simp only [List.lookup, hb] at hl
      have hk' : ¬ k₁ = k := fun h => hk h.symm
      simp [List.filter_cons, hk', ih hl hn.2]

theorem unmappedStep_cases (env : Env) (m₀ m₁ : List (String × Resource)) (resourceI : Json)
    (h : unmappedStep env m₀ resourceI = .ok m₁) :
    m₁ = m₀ ∨ ∃ a v, addressOf resourceI = some a ∧ m₀.lookup a = none ∧
      m₁ = mapSet m₀ a v := by
  unfold unmappedStep at h
  simp only [bind_eq_ok] at h
  obtain ⟨resource, hr, a, ha, pn, hpn, h⟩ := h
  have haddr : addressOf resourceI = some a := by simp [addressOf, hr, ha]
  split at h
  · simp only [pure, Except.pure, Except.ok.injEq] at h
    exact Or.inl h.symm
  · simp [throw, throwThe, MonadExceptOf.throw] at h
  · split at h
    · simp only [pure, Except.pure, Except.ok.injEq] at h
      exact Or.inl h.symm
    · rename_i hnone
      simp only [bind_eq_ok] at h
      obtain ⟨t, ht, ignored, hig, h⟩ := h
      cases ignored with
      | true =>
        simp only [if_true, pure, Except.pure, Except.ok.injEq] at h
        exact Or.inl h.symm
      | false =>
        simp only [Bool.false_eq_true, if_false, bind_eq_ok, pure, Except.pure,
          Except.ok.injEq] at h
        obtain ⟨n, hn, h⟩ := h
        exact Or.inr ⟨a, _, haddr, hnone, h.symm⟩

theorem unmappedStep_obj (env : Env) (m₀ : List (String × Resource))
    (resource : List (String × Json)) (a pn t : String) (provider : Provider)
    (ha : stringField resource "address" = .ok a)
    (hpn : stringField resource "provider_name" = .ok pn)
    (ht : stringField resource "type" = .ok t)
    (hprov : parseProvider env pn = .ok provider)
    (hnone : m₀.lookup a = none) :
    unmappedStep env m₀ (.obj resource) =
      (do
        let ignored ← checkIgnoredResource env t provider
        if ignored then pure m₀
        else do
          let name ← stringField resource "name"
          pure (mapSet m₀ a (unsupported name t))) := by
  unfold unmappedStep
  simp only [asObject, ha, hpn, hprov, hnone, ht, bind, Except.bind, unsupported]

theorem unmappedStep_unknown (env : Env) (m₀ : List (String × Resource))
    (resource : List (String × Json)) (a pn : String)
    (ha : stringField resource "address" = .ok a)
    (hpn : stringField resource "provider_name" = .ok pn)
    (hprov : parseProvider env pn = .error Fault.error) :
    unmappedStep env m₀ (.obj resource) = .ok m₀ := by
  unfold unmappedStep
  simp only [asObject, ha, hpn, hprov, bind, Except.bind, pure, Except.pure]

theorem unmappedPass_frame (env : Env) (planned : List Json) (m₀ m₁ : List (String × Resource))
    (k : String) (h : unmappedPass env m₀ planned = .ok m₁)
    (hk : ∀ r ∈ planned, addressOf r ≠ some k) :
    m₁.lookup k = m₀.lookup k := by
  unfold unmappedPass at h
  induction planned generalizing m₀ with
  | nil =>
    simp only [List.foldlM_nil, pure, Except.pure, Except.ok.injEq] at h
    rw [h]
  | cons r l ih =>
    simp only [List.foldlM_cons, bind_eq_ok] at h
    obtain ⟨m', hstep, hrest⟩ := h
    rw [ih m' hrest (fun r' hr' => hk r' (List.mem_cons_of_mem _ hr'))]
    rcases unmappedStep_cases env m₀ m' r hstep with h' | ⟨a, v, ha, _, h'⟩
    · rw [h']
    · rw [h']
      apply mapSet_lookup_ne
      intro hka
      exact hk r (List.mem_cons_self _ _) (hka ▸ ha)

theorem unmappedPass_nodup (env : Env) (planned : List Json) (m₀ m₁ : List (String × Resource))
    (h : unmappedPass env m₀ planned = .ok m₁) (hn : (m₀.map Prod.fst).Nodup) :
    (m₁.map Prod.fst).Nodup := by
  unfold unmappedPass at h
  induction planned generalizing m₀ with
  | nil =>
    simp only [List.foldlM_nil, pure, Except.pure, Except.ok.injEq] at h
    rw [← h]
    exact hn
  | cons r l ih =>
    simp only [List.foldlM_cons, bind_eq_ok] at h
    obtain ⟨m', hstep, hrest⟩ := h
    apply ih m' hrest
    rcases unmappedStep_cases env m₀ m' r hstep with h' | ⟨a, v, _, _, h'⟩
    · rw [h']; exact hn
    · rw [h']; exact mapSet_nodup _ _ _ hn

theorem foldl_mapSet_nodup (f : Resource → String) (resources : List Resource)
    (m : List (String × Resource)) (hn : (m.map Prod.fst).Nodup) :
    ((resources.foldl (fun m r => mapSet m (f r) r) m).map Prod.fst).Nodup := by
  induction resources generalizing m with
  | nil => exact hn
  | cons r l ih => exact ih _ (mapSet_nodup _ _ _ hn)

theorem mappingPass_nodup (env : Env) (plan : Json) (mapping : List (String × ResourceMapping))
    (mapped : List (String × Resource)) (h : mappingPass env plan mapping = .ok mapped) :
    (mapped.map Prod.fst).Nodup := by
  unfold mappingPass at h
  have key : ∀ (l : List (String × ResourceMapping)) (m₀ m₁ : List (String × Resource)),
      (m₀.map Prod.fst).Nodup →
      l.foldlM
        (fun resourcesMap entry => do
          let resources ← getResourcesOfType env plan entry.2
          pure (resources.foldl
            (fun resourcesMap resource => mapSet resourcesMap (env.GetAddress resource) resource)
            resourcesMap))
        m₀ = .ok m₁ → (m₁.map Prod.fst).Nodup := by
    intro l
    induction l with
    | nil =>
      intro m₀ m₁ hn h
      simp only [List.foldlM_nil, pure, Except.pure, Except.ok.injEq] at h
      rw [← h]; exact hn
    | cons e l ih =>
      intro m₀ m₁ hn h
      simp only [List.foldlM_cons, bind_eq_ok, pure, Except.pure, Except.ok.injEq] at h
      obtain ⟨m', ⟨resources, _, hm'⟩, hrest⟩ := h
      apply ih m' m₁ _ hrest
      rw [← hm']
      exact foldl_mapSet_nodup _ _ _ hn
  exact key mapping [] mapped (by simp) h

theorem GetResources_eq (env : Env) (plan : Json) (planned rest : List Json)
    (mapping : List (String × ResourceMapping)) (mapped : List (String × Resource))
    (hplan : env.GetJSON ".planned_values.root_module.resources" plan =
      .ok (.arr planned :: rest))
    (hmap : env.getMapping = .ok mapping)
    (hpass : mappingPass env plan mapping = .ok mapped) :
    GetResources env plan = unmappedPass env mapped planned := by
  unfold GetResources
  simp only [hplan, hmap, hpass, bind, Except.bind, pure, Except.pure]

theorem unmappedPass_at (env : Env) (planned : List Json) (mapped m : List (String × Resource))
    (resource : List (String × Json)) (a : String)
    (hres : unmappedPass env mapped planned = .ok m)
    (hdistinct : planned.Pairwise fun x y => addressOf x ≠ addressOf y)
    (hmem : Json.obj resource ∈ planned)
    (ha : stringField resource "address" = .ok a)
    (hun : mapped.lookup a = none) :
    ∃ m₁ m₂, m₁.lookup a = none ∧ unmappedStep env m₁ (.obj resource) = .ok m₂ ∧
      m.lookup a = m₂.lookup a := by
  obtain ⟨l₁, l₂, hsplit⟩ := List.append_of_mem hmem
  have haddr : addressOf (Json.obj resource) = some a := by simp [addressOf, asObject, ha]
  rw [hsplit, List.pairwise_append] at hdistinct
  obtain ⟨_, hcons, h12⟩ := hdistinct
  rw [List.pairwise_cons] at hcons
  have hl₁ : ∀ r ∈ l₁, addressOf r ≠ some a := fun r hr =>
    haddr ▸ h12 r hr (Json.obj resource) (List.mem_cons_self _ _)
  have hl₂ : ∀ r ∈ l₂, addressOf r ≠ some a := fun r hr h' =>
    hcons.1 r hr (haddr.trans h'.symm)
  unfold unmappedPass at hres
  rw [hsplit, List.foldlM_append, bind_eq_ok] at hres
  obtain ⟨m₁, hfirst, hres⟩ := hres
  rw [List.foldlM_cons, bind_eq_ok] at hres
  obtain ⟨m₂, hstep, hlast⟩ := hres
  refine ⟨m₁, m₂, ?_, hstep, unmappedPass_frame env l₂ m₂ m a hlast hl₂⟩
  rw [unmappedPass_frame env l₁ mapped m₁ a hfirst hl₁]
  exact hun

/-- Claim C9, as amended.  Let the planned resource list have pairwise distinct
addresses, and take a resource of the list whose address was not produced by
the mapping pass.  When its `provider_name` is recognised by `parseProvider`,
the map returned by `GetResources` contains exactly one entry at that address,
the Unsupported Resource with the plan's name and type, unless the type matches
an ignore rule of the provider, in which case the map has no entry at that
address.  When the `provider_name` is not recognised the map has no entry at
that address. -/
theorem GetResources_unmapped (env : Env) (plan : Json) (planned rest : List Json)
    (mapping : List (String × ResourceMapping)) (mapped m : List (String × Resource))
    (resource : List (String × Json)) (a pn t : String)
    (hplan : env.GetJSON ".planned_values.root_module.resources" plan =
      .ok (.arr planned :: rest))
    (hmap : env.getMapping = .ok mapping)
    (hpass : mappingPass env plan mapping = .ok mapped)
    (hres : GetResources env plan = .ok m)
    (hdistinct : planned.Pairwise fun x y => addressOf x ≠ addressOf y)
    (hmem : Json.obj resource ∈ planned)
    (ha : stringField resource "address" = .ok a)
    (hpn : stringField resource "provider_name" = .ok pn)
    (ht : stringField resource "type" = .ok t)
    (hun : mapped.lookup a = none) :
    (∀ provider, parseProvider env pn = .ok provider →
      checkIgnoredResource env t provider = .ok false →
      ∃ n, stringField resource "name" = .ok n ∧ m.lookup a = some (unsupported n t) ∧
        (m.filter fun e => e.1 = a).length = 1) ∧
    (∀ provider, parseProvider env pn = .ok provider →
      checkIgnoredResource env t provider = .ok true → m.lookup a = none) ∧
    (parseProvider env pn = .error Fault.error → m.lookup a = none) := by
  rw [GetResources_eq env plan planned rest mapping mapped hplan hmap hpass] at hres
  have hnodup := unmappedPass_nodup env planned mapped m hres
    (mappingPass_nodup env plan mapping mapped hpass)
  obtain ⟨m₁, m₂, h₁, hstep, h₂⟩ :=
    unmappedPass_at env planned mapped m resource a hres hdistinct hmem ha hun
  refine ⟨?_, ?_, ?_⟩
  · intro provider hprov hig
    rw [unmappedStep_obj env m₁ resource a pn t provider ha hpn ht hprov h₁, hig] at hstep
    simp only [bind, Except.bind, Bool.false_eq_true, if_false] at hstep
    cases hn : stringField resource "name" with
    | error e => simp [hn] at hstep
    | ok n =>
      simp only [hn, pure, Except.pure, Except.ok.injEq] at hstep
      have hl : m.lookup a = some (unsupported n t) := by
        rw [h₂, ← hstep]
        exact mapSet_lookup_self _ _ _
      exact ⟨n, rfl, hl, count_of_lookup m a _ hl hnodup⟩
  · intro provider hprov hig
    rw [unmappedStep_obj env m₁ resource a pn t provider ha hpn ht hprov h₁, hig] at hstep
    simp only [bind, Except.bind, if_true, pure, Except.pure, Except.ok.injEq] at hstep
    rw [h₂, ← hstep]
    exact h₁
  · intro hprov
    rw [unmappedStep_unknown env m₁ resource a pn ha hpn hprov] at hstep
    simp only [Except.ok.injEq] at hstep
    rw [h₂, ← hstep]
    exact h₁

/-- Witness of claim C9: the bucket of the Google provider in `examplePlan`,
which no mapping covers, has exactly one entry, an Unsupported Resource. -/
theorem GetResources_unmapped_witness :
    ∃ n, stringField exampleGoogleBucket "name" = .ok n ∧
      exampleResult.lookup "google_storage_bucket.b" =
        some (unsupported n "google_storage_bucket") ∧
      (exampleResult.filter fun e => e.1 = "google_storage_bucket.b").length = 1 :=
  (GetResources_unmapped exampleEnv examplePlan examplePlanned [] [] [] exampleResult
    exampleGoogleBucket "google_storage_bucket.b" "registry.terraform.io/hashicorp/google"
    "google_storage_bucket" rfl rfl rfl (by decide!)
    (by simp [examplePlanned, addressOf, asObject, stringField, exampleGoogleBucket,
      exampleAwsBucket, exampleRandomId, List.lookup])
    (List.mem_cons_self _ _) rfl rfl rfl rfl).1 Provider.GCP (by decide!) (by decide!)

/-- Counterexample to claim C9 as stated: the resource `random_id.id` of
`examplePlan` is not produced by the mapping pass and its type matches no
ignore rule of any provider, yet the map has no entry at its address, because
its `provider_name` is not recognised. -/
theorem GetResources_unknown_provider_skipped :
    Json.obj exampleRandomId ∈ examplePlanned ∧
    stringField exampleRandomId "address" = .ok "random_id.id" ∧
    mappingPass exampleEnv examplePlan [] = .ok [] ∧
    (∀ provider, checkIgnoredResource exampleEnv "random_id" provider = .ok false) ∧
    GetResources exampleEnv examplePlan = .ok exampleResult ∧
    exampleResult.lookup "random_id.id" = none := by
  refine ⟨by simp [examplePlanned], by decide!, by decide!, ?_, by decide!, by decide!⟩
  intro provider
  cases provider <;> decide!

/-- Claim C10 (defect of the code).  Under the hypotheses of claim C9, the
Unsupported Resource stored for a planned resource whose provider is
recognised records the provider GCP whatever `parseProvider` inferred from the
`provider_name`: the identification is built with the constant
`providers.GCP`, next to a comment `TODO get provider from Terraform plan`. -/
theorem GetResources_unsupported_provider (env : Env) (plan : Json) (planned rest : List Json)
    (mapping : List (String × ResourceMapping)) (mapped m : List (String × Resource))
    (resource : List (String × Json)) (a pn t : String) (provider : Provider)
    (hplan : env.GetJSON ".planned_values.root_module.resources" plan =
      .ok (.arr planned :: rest))
    (hmap : env.getMapping = .ok mapping)
    (hpass : mappingPass env plan mapping = .ok mapped)
    (hres : GetResources env plan = .ok m)
    (hdistinct : planned.Pairwise fun x y => addressOf x ≠ addressOf y)
    (hmem : Json.obj resource ∈ planned)
    (ha : stringField resource "address" = .ok a)
    (hpn : stringField resource "provider_name" = .ok pn)
    (ht : stringField resource "type" = .ok t)
    (hun : mapped.lookup a = none)
    (hprov : parseProvider env pn = .ok provider)
    (hig : checkIgnoredResource env t provider = .ok false) :
    ∃ id, m.lookup a = some (Resource.UnsupportedResource id) ∧
      id.Provider = Provider.GCP := by
  rw [GetResources_eq env plan planned rest mapping mapped hplan hmap hpass] at hres
  obtain ⟨m₁, m₂, h₁, hstep, h₂⟩ :=
    unmappedPass_at env planned mapped m resource a hres hdistinct hmem ha hun
  rw [unmappedStep_obj env m₁ resource a pn t provider ha hpn ht hprov h₁, hig] at hstep
  simp only [bind, Except.bind, Bool.false_eq_true, if_false] at hstep
  cases hn : stringField resource "name" with
  | error e => simp [hn] at hstep
  | ok n =>
    simp only [hn, pure, Except.pure, Except.ok.injEq] at hstep
    have hl : m.lookup a = some (unsupported n t) := by
      rw [h₂, ← hstep]
      exact mapSet_lookup_self _ _ _
    exact ⟨_, hl, rfl⟩

/-- Witness of claim C10: the bucket of `examplePlan` whose `provider_name`
ends in `/aws` is inferred to be of the provider AWS and is stored with the
provider GCP. -/
theorem GetResources_unsupported_provider_witness :
    parseProvider exampleEnv "registry.terraform.io/hashicorp/aws" = .ok Provider.AWS ∧
    ∃ id, exampleResult.lookup "aws_s3_bucket.b" = some (Resource.UnsupportedResource id) ∧
      id.Provider = Provider.GCP :=
  ⟨by decide!,
    GetResources_unsupported_provider exampleEnv examplePlan examplePlanned [] [] []
      exampleResult exampleAwsBucket "aws_s3_bucket.b" "registry.terraform.io/hashicorp/aws"
      "aws_s3_bucket" Provider.AWS rfl rfl rfl (by decide!)
      (by simp [examplePlanned, addressOf, asObject, stringField, exampleGoogleBucket,
        exampleAwsBucket, exampleRandomId, List.lookup])
      (List.mem_cons_of_mem _ (List.mem_cons_self _ _)) rfl rfl rfl rfl (by decide!)
      (by decide!)⟩

theorem splitChars_eq (sep : Char) (l : List Char) :
    splitChars sep l =
      (l.takeWhile fun c => c != sep) ::
        (match l.dropWhile fun c => c != sep with
        | [] => []
        | _ :: rest => splitChars sep rest) := by
  induction l with
  | nil => simp [splitChars]
  | cons c cs ih =>
    by_cases hc : c = sep
    · subst hc
      simp [splitChars]
    · have hne : (c != sep) = true := by simpa using hc
      simp only [splitChars, hc, if_false, List.takeWhile_cons, hne, if_true,
        List.dropWhile_cons]
      rw [ih]

theorem dropWhile_head (sep : Char) (l : List Char) (d : Char) (rest : List Char)
    (h : (l.dropWhile fun c => c != sep) = d :: rest) : d = sep := by
  have := List.head_dropWhile_not (fun c => c != sep) l (by rw [h]; simp)
  simp only [h, List.head_cons] at this
  simpa using this

theorem not_mem_takeWhile (sep : Char) (l : List Char) :
    sep ∉ l.takeWhile fun c => c != sep := by
  intro h
  have := List.mem_takeWhile_imp h
  simp at this

theorem firstTwoSegments_ok (z r : String) (h : firstTwoSegments z = .ok r) :
    ∃ a b tail, '-' ∉ a ∧ '-' ∉ b ∧ z.data = a ++ '-' :: b ++ tail ∧
      (tail = [] ∨ tail.head? = some '-') ∧ r = String.mk (a ++ '-' :: b) := by
  unfold firstTwoSegments at h
  rw [splitChars_eq] at h
  cases hd : (z.data.dropWhile fun c => c != '-') with
  | nil => simp [hd] at h
  | cons d rest =>
    have hds := dropWhile_head '-' z.data d rest hd
    subst hds
    simp only [hd] at h
    rw [splitChars_eq] at h
    simp only [Except.ok.injEq] at h
    refine ⟨z.data.takeWhile fun c => c != '-', rest.takeWhile fun c => c != '-',
      rest.dropWhile fun c => c != '-', not_mem_takeWhile _ _, not_mem_takeWhile _ _, ?_, ?_,
      h.symm⟩
    · have h1 := List.takeWhile_append_dropWhile (fun c => c != '-') z.data
      rw [hd] at h1
      rw [List.append_assoc, List.cons_append, List.takeWhile_append_dropWhile]
      exact h1.symm
    · cases ht : (rest.dropWhile fun c => c != '-') with
      | nil => exact Or.inl rfl
      | cons e rest' =>
        right
        rw [dropWhile_head '-' rest e rest' ht]
        rfl

theorem getResourceIdentification_region_eq (env : Env) (resource : ConfigResource)
    (id : ResourceIdentification) (h : getResourceIdentification env resource = .ok id) :
    ∃ region, resourceRegion resource = .ok region ∧
      id.Region = match region with
        | .str s => s
        | v => env.Sprint v := by
  unfold getResourceIdentification at h
  simp only [bind_eq_ok, pure, Except.pure, Except.ok.injEq] at h
  obtain ⟨region, hr, _, _, h⟩ := h
  subst h
  exact ⟨region, hr, rfl⟩

/-- Claim C11.  Whenever `getResourceIdentification` returns an identification,
its region is the explicit `region` constant when one is declared; otherwise
the first two dash-separated segments of the `zone` joined by a dash;
otherwise the first two segments of the first element of `replica_zones`;
otherwise the empty string. -/
theorem getResourceIdentification_region (env : Env) (resource : ConfigResource)
    (id : ResourceIdentification) (h : getResourceIdentification env resource = .ok id) :
    (∀ s, GetConstFromConfig resource "region" = .str s → id.Region = s) ∧
    (GetConstFromConfig resource "region" = .null →
      ∀ z, GetConstFromConfig resource "zone" = .str z → IsFirstTwoSegments z id.Region) ∧
    (GetConstFromConfig resource "region" = .null →
      GetConstFromConfig resource "zone" = .null →
      ∀ z rest, GetConstFromConfig resource "replica_zones" = .arr (.str z :: rest) →
        IsFirstTwoSegments z id.Region) ∧
    (GetConstFromConfig resource "region" = .null →
      GetConstFromConfig resource "zone" = .null →
      GetConstFromConfig resource "replica_zones" = .null → id.Region = "") := by
  obtain ⟨region, hr, hid⟩ := getResourceIdentification_region_eq env resource id h
  unfold resourceRegion at hr
  refine ⟨?_, ?_, ?_, ?_⟩
  · intro s hs
    simp only [hs, pure, Except.pure, Except.ok.injEq] at hr
    subst hr
    exact hid
  · intro hn z hz
    simp only [hn, hz, asString, bind_eq_ok, pure, Except.pure, Except.ok.injEq] at hr
    obtain ⟨_, hs, r', hf, hr⟩ := hr
    subst hs hr
    rw [hid]
    exact firstTwoSegments_ok _ _ hf
  · intro hn hzn z rest hz
    simp only [hn, hzn, hz, asString, bind_eq_ok, pure, Except.pure, Except.ok.injEq] at hr
    obtain ⟨_, hs, r', hf, hr⟩ := hr
    subst hs hr
    rw [hid]
    exact firstTwoSegments_ok _ _ hf
  · intro hn hzn hrn
    simp only [hn, hzn, hrn, pure, Except.pure, Except.ok.injEq] at hr
    subst hr
    exact hid

/-- Witness of claim C11: the zone `europe-west9-a` gives the region
`europe-west9`. -/
theorem getResourceIdentification_region_witness :
    getResourceIdentification exampleEnv exampleInstance = .ok exampleInstanceId ∧
    exampleInstanceId.Region = "europe-west9" ∧
    IsFirstTwoSegments "europe-west9-a" exampleInstanceId.Region :=
  ⟨by decide!, rfl,
    (getResourceIdentification_region exampleEnv exampleInstance exampleInstanceId
      (by decide!)).2.1 rfl "europe-west9-a" rfl⟩

theorem foldl_image (dataResources : List (String × DataImageResource)) (references : List String)
    (dflt : ℚ) :
    references.foldl
        (fun size ref =>
          match dataResources.lookup ref with
          | some image => image.DiskSizeGb
          | none => size)
        dflt =
      match (references.filterMap dataResources.lookup).getLast? with
      | some image => image.DiskSizeGb
      | none => dflt := by
  induction references using List.reverseRecOn with
  | nil => simp
  | append_singleton l a ih =>
    rw [List.foldl_append, ih, List.filterMap_append]
    cases ha : dataResources.lookup a <;> simp [ha]

theorem diskSizeGb_undeclared (config : Config) (diskBlock : Block) (isBootDisk : Bool)
    (dataResources : List (String × DataImageResource))
    (hd : declaredSize diskBlock = .null) :
    diskSizeGb config diskBlock isBootDisk dataResources =
      .ok (match (resolvedImages diskBlock dataResources).getLast? with
        | some image => image.DiskSizeGb
        | none => defaultSize config isBootDisk) := by
  unfold diskSizeGb resolvedImages defaultSize
  rw [hd]
  cases diskBlock.lookup "image" with
  | none => simp [pure, Except.pure]
  | some e =>
    simp only [pure, Except.pure]
    congr 1
    exact foldl_image dataResources e.References _

theorem getDisk_of_sections (config : Config) (diskBlock : Block) (isBootDiskParam : Bool)
    (dataResources : List (String × DataImageResource)) (isBootDisk : Bool)
    (diskType : String) (sizeGb : ℚ) (replicationFactor : Int)
    (hb : diskIsBoot diskBlock isBootDiskParam = .ok isBootDisk)
    (ht : diskTypeOf config diskBlock isBootDisk = .ok diskType)
    (hs : diskSizeGb config diskBlock isBootDisk dataResources = .ok sizeGb)
    (hr : diskReplication diskBlock = .ok replicationFactor) :
    getDisk config diskBlock isBootDiskParam dataResources =
      .ok { sizeGb := sizeGb
            isSSD := if diskType = "pd-standard" then false else true
            replicationFactor := replicationFactor } := by
  simp only [getDisk, hb, ht, hs, hr, bind, Except.bind, pure, Except.pure]

theorem getDisk_sections (config : Config) (diskBlock : Block) (isBootDiskParam : Bool)
    (dataResources : List (String × DataImageResource)) (d : disk)
    (h : getDisk config diskBlock isBootDiskParam dataResources = .ok d) :
    ∃ isBootDisk diskType,
      diskIsBoot diskBlock isBootDiskParam = .ok isBootDisk ∧
      diskTypeOf config diskBlock isBootDisk = .ok diskType ∧
      diskSizeGb config diskBlock isBootDisk dataResources = .ok d.sizeGb ∧
      diskReplication diskBlock = .ok d.replicationFactor ∧
      d.isSSD = (if diskType = "pd-standard" then false else true) := by
  unfold getDisk at h
  simp only [bind_eq_ok, pure, Except.pure, Except.ok.injEq] at h
  obtain ⟨b, hb, t, ht, s, hs, r, hr, h⟩ := h
  subst h
  exact ⟨b, t, hb, ht, hs, hr, rfl⟩

/-- Claim C12.  For a disk block whose boot flag, type and replication factor
are read without fault, `getDisk` returns a disk: of the declared size when
there is one; when no size is declared and a reference of the `image`
expression is a key of the auxiliary-resource table, of the size that the table
records for the image (for the last such reference when there are several);
when no size is declared and no reference is a key of the table, which is
where the source places an image without a declared size, of the fixed default
size (the configured boot-disk default for a boot disk, the configured disk
default otherwise). -/
theorem getDisk_size (config : Config) (diskBlock : Block) (isBootDiskParam : Bool)
    (dataResources : List (String × DataImageResource)) (isBootDisk : Bool)
    (diskType : String) (replicationFactor : Int)
    (hb : diskIsBoot diskBlock isBootDiskParam = .ok isBootDisk)
    (ht : diskTypeOf config diskBlock isBootDisk = .ok diskType)
    (hr : diskReplication diskBlock = .ok replicationFactor) :
    (∀ q, declaredSize diskBlock = .num q →
      getDisk config diskBlock isBootDiskParam dataResources =
        .ok { sizeGb := q
              isSSD := if diskType = "pd-standard" then false else true
              replicationFactor := replicationFactor }) ∧
    (declaredSize diskBlock = .null →
      ∀ image, (resolvedImages diskBlock dataResources).getLast? = some image →
      getDisk config diskBlock isBootDiskParam dataResources =
        .ok { sizeGb := image.DiskSizeGb
              isSSD := if diskType = "pd-standard" then false else true
              replicationFactor := replicationFactor }) ∧
    (declaredSize diskBlock = .null → resolvedImages diskBlock dataResources = [] →
      getDisk config diskBlock isBootDiskParam dataResources =
        .ok { sizeGb := defaultSize config isBootDisk
              isSSD := if diskType = "pd-standard" then false else true
              replicationFactor := replicationFactor }) := by
  refine ⟨?_, ?_, ?_⟩
  · intro q hq
    apply getDisk_of_sections config diskBlock isBootDiskParam dataResources isBootDisk
      diskType q replicationFactor hb ht _ hr
    unfold diskSizeGb
    rw [hq]
    rfl
  · intro hn image hi
    apply getDisk_of_sections config diskBlock isBootDiskParam dataResources isBootDisk
      diskType _ replicationFactor hb ht _ hr
    rw [diskSizeGb_undeclared config diskBlock isBootDisk dataResources hn, hi]
  · intro hn he
    apply getDisk_of_sections config diskBlock isBootDiskParam dataResources isBootDisk
      diskType _ replicationFactor hb ht _ hr
    rw [diskSizeGb_undeclared config diskBlock isBootDisk dataResources hn, he]
    rfl

/-- Witness of claim C12: a disk without size whose image is recorded with
20 GB has the size 20, and the same disk has the default size 10 when its
image is not in the table. -/
theorem getDisk_size_witness :
    getDisk exampleConfig exampleImageDisk false (exampleImages 20) =
      .ok { sizeGb := 20, isSSD := false, replicationFactor := 1 } ∧
    getDisk exampleConfig exampleImageDisk false [] =
      .ok { sizeGb := defaultSize exampleConfig false, isSSD := false,
            replicationFactor := 1 } ∧
    defaultSize exampleConfig false = 10 :=
  ⟨(getDisk_size exampleConfig exampleImageDisk false (exampleImages 20) false "pd-standard" 1
      rfl rfl rfl).2.1 rfl { DiskSizeGb := 20 } (by decide!),
   (getDisk_size exampleConfig exampleImageDisk false [] false "pd-standard" 1
      rfl rfl rfl).2.2 rfl rfl,
   rfl⟩

theorem getStorage_not_fatal (env : Env) (storageMap : TaggedBlock) (size : valueWithUnit)
    (s : ℚ)
    (hsize : storageMap.lookup "size" = some (some size))
    (hs : env.NewFromString size.Value = .ok s) :
    getStorage env storageMap ≠ .error Fault.fatal := by
  unfold getStorage
  rw [hsize]
  simp only [hs, bind, Except.bind, pure, Except.pure]
  rcases ht : storageMap.lookup "type" with _ | (_ | t)
  · simp [throw, throwThe, MonadExceptOf.throw]
  · simp
  · simp only
    cases hstr : asString t.Value with
    | error e =>
      cases hv : t.Value <;> simp [asString, hv] at hstr ⊢
      all_goals (subst hstr; simp)
    | ok v => simp

/-- Claim C13 (defect of the code).  A storage size whose unit is not one of
`mb`, `gb`, `tb`, `kb`, `b` does not end `getStorage` fatally: the size is
returned unconverted, as if it were in gigabytes (the source carries the
comment `TODO get storage size unit correctly`).  The memory switch of
`getComputeResource` ends fatally on a unit outside its table. -/
theorem getStorage_unknown_unit (env : Env) (storageMap : TaggedBlock) (size : valueWithUnit)
    (s : ℚ) (unit : String)
    (hsize : storageMap.lookup "size" = some (some size))
    (hs : env.NewFromString size.Value = .ok s)
    (hu : size.Unit = some unit)
    (hunit : ToLower unit ∉ ["mb", "gb", "tb", "kb", "b"]) :
    getStorage env storageMap ≠ .error Fault.fatal ∧
    (∀ result, getStorage env storageMap = .ok result → result.SizeGb = s) ∧
    (∀ value v u, value.notNil = true → env.ParseToInt value = .ok v →
      ToLower u ∉ ["gb", "tb", "pb", "mb", "kb", "b"] →
      memorySection env (some { Value := value, Unit := some u }) = .error Fault.fatal) := by
  refine ⟨getStorage_not_fatal env storageMap size s hsize hs, ?_, ?_⟩
  · intro result h
    rw [getStorage_ok env storageMap size s result h hsize hs, hu]
    simp only [List.mem_cons, List.mem_singleton, List.not_mem_nil, or_false, not_or] at hunit
    simp [storageToGb, hunit]
  · intro value v u hval hv hnot
    rw [memorySection_some env value u v hval hv]
    simp only [List.mem_cons, List.mem_singleton, List.not_mem_nil, or_false, not_or] at hnot
    simp [memoryToMb, hnot, throw, throwThe, MonadExceptOf.throw]

/-- Witness of claim C13: a storage of 5 with the unit `xb` is returned as
5 GB. -/
theorem getStorage_unknown_unit_witness :
    getStorage exampleEnv (exampleStorage 5 "xb") = .ok { SizeGb := 5, IsSSD := false } ∧
    getStorage exampleEnv (exampleStorage 5 "xb") ≠ .error Fault.fatal :=
  ⟨by decide!,
    (getStorage_unknown_unit exampleEnv (exampleStorage 5 "xb")
      { Value := .num 5, Unit := some "xb" } 5 "xb" rfl rfl rfl (by decide)).1⟩

theorem memorySection_no_unit (env : Env) (value : Json) (hval : value.notNil = true) :
    (∀ mb, memorySection env (some { Value := value, Unit := none }) ≠ .ok mb) ∧
    (∀ v, env.ParseToInt value = .ok v →
      memorySection env (some { Value := value, Unit := none }) = .error Fault.panic) := by
  constructor
  · intro mb
    cases hv : env.ParseToInt value <;>
      simp [memorySection, hval, hv, bind, Except.bind, throw, throwThe, MonadExceptOf.throw]
  · intro v hv
    simp [memorySection, hval, hv, bind, Except.bind, throw, throwThe, MonadExceptOf.throw]

theorem getComputeResource_none (env : Env) (resourceI : Json) (mapping : ResourceMapping)
    (resourcesResult : List Resource)
    (h : getComputeResource env resourceI mapping resourcesResult = .ok none) :
    buildContext env resourceI mapping = .ok none := by
  unfold getComputeResource at h
  simp only [bind_eq_ok] at h
  obtain ⟨c, hc, h⟩ := h
  cases c with
  | none => exact hc
  | some context =>
    simp only [bind_eq_ok] at h
    obtain ⟨_, _, _, _, _, _, _, _, _, _, _, _, _, _, _, _, _, _, _, _, _, _,
      _, _, _, _, _, _, _, _, _, _, _, _, _, _, _, _,
      _, _, h⟩ := h
    simp [pure, Except.pure] at h

/-- Claim C14 (defect of the code).  A mapped memory that has a value and no
unit never lets `getComputeResource` return: the unit pointer is dereferenced
without a test and the function panics, whereas `getStorage` tests the unit
pointer and reads a size without unit in gigabytes. -/
theorem getComputeResource_memory_no_unit (env : Env) (resourceI : Json)
    (mapping : ResourceMapping) (resourcesResult : List Resource) (context : tfContext)
    (value : Json)
    (hctx : buildContext env resourceI mapping = .ok (some context))
    (hmem : env.getValue "memory" context = .ok (some { Value := value, Unit := none }))
    (hval : value.notNil = true) :
    (∀ out, getComputeResource env resourceI mapping resourcesResult ≠ .ok out) ∧
    (∀ v, env.ParseToInt value = .ok v →
      memorySection env (some { Value := value, Unit := none }) = .error Fault.panic) := by
  refine ⟨?_, (memorySection_no_unit env value hval).2⟩
  intro out h
  cases out with
  | none =>
    rw [getComputeResource_none env resourceI mapping resourcesResult h] at hctx
    simp at hctx
  | some out =>
    obtain ⟨context', _, memory, _, _, _, _, _, id, specs, _, hc, _, _, hm, hM, _⟩ :=
      getComputeResource_ok _ _ _ _ _ h
    rw [hctx] at hc
    simp only [Except.ok.injEq, Option.some.injEq] at hc
    subst hc
    rw [hmem] at hm
    simp only [Except.ok.injEq] at hm
    subst hm
    exact (memorySection_no_unit env value hval).1 _ hM

/-- Witness of claim C14: a memory of 2048 with no unit makes
`getComputeResource` panic. -/
theorem getComputeResource_memory_no_unit_witness :
    getComputeResource (noUnitEnv 2048) exampleMapped exampleMapping [] = .error Fault.panic ∧
    ∀ out, getComputeResource (noUnitEnv 2048) exampleMapped exampleMapping [] ≠ .ok out :=
  ⟨by decide!,
    (getComputeResource_memory_no_unit (noUnitEnv 2048) exampleMapped exampleMapping []
      exampleContext (.num 2048) rfl rfl rfl).1⟩

theorem getSQLResourceSpecs_ok (env : Env) (resource : ConfigResource)
    (specs : ComputeResourceSpecs) (h : getSQLResourceSpecs env resource = .ok specs) :
    (resource.Expressions.lookup "settings" = none ∧ specs.ReplicationFactor = 1 ∧
      specs.SsdStorage = 0 ∧ specs.HddStorage = 0) ∨
    ∃ settingsExpr settings replicationFactor tierName tier diskType diskSize,
      resource.Expressions.lookup "settings" = some settingsExpr ∧
      firstBlock settingsExpr = .ok settings ∧
      sqlReplicationFactor settings = .ok replicationFactor ∧
      sqlTierName settings = .ok tierName ∧
      env.GetGCPSQLTier tierName = .ok tier ∧
      sqlDiskType settings = .ok diskType ∧
      sqlDiskSize settings = .ok diskSize ∧
      sqlStorage diskType diskSize = .ok (specs.SsdStorage, specs.HddStorage) ∧
      specs.ReplicationFactor = replicationFactor ∧
      specs.VCPUs = wrap32 tier.Vcpus ∧ specs.MemoryMb = wrap32 tier.MemoryMb := by
  unfold getSQLResourceSpecs at h
  cases hs : resource.Expressions.lookup "settings" with
  | none =>
    simp only [hs, pure, Except.pure, Except.ok.injEq] at h
    subst h
    exact Or.inl ⟨rfl, rfl, rfl, rfl⟩
  | some settingsExpr =>
    simp only [hs, bind_eq_ok, pure, Except.pure, Except.ok.injEq] at h
    obtain ⟨settings, h1, rf, h2, tn, h3, tier, h4, dt, h5, ds, h6, sizes, h7, h⟩ := h
    subst h
    exact Or.inr ⟨settingsExpr, settings, rf, tn, tier, dt, ds, rfl, h1, h2, h3, h4, h5, h6, h7,
      rfl, rfl, rfl⟩

theorem sqlReplicationFactor_ok (settings : Block) (rf : Int)
    (h : sqlReplicationFactor settings = .ok rf) : rf = 1 ∨ rf = 2 := by
  unfold sqlReplicationFactor at h
  cases ha : settings.lookup "availability_type" with
  | none => simp [ha, throw, throwThe, MonadExceptOf.throw] at h
  | some a =>
    simp only [ha] at h
    cases hc : a.ConstantValue <;> simp only [hc, pure, Except.pure, Except.ok.injEq] at h
    case str s =>
      by_cases hr : s = "REGIONAL"
      · simp [hr] at h; exact Or.inr h.symm
      · simp [hr] at h; exact Or.inl h.symm
    all_goals exact Or.inl h.symm

theorem GetResourceTemplate_ok (env : Env) (template : ConfigResource)
    (dataResources : List (String × DataImageResource)) (zone : String)
    (id : ResourceIdentification) (specs : ComputeResourceSpecs)
    (h : GetResourceTemplate env template dataResources zone =
      .ok (some (Resource.ComputeResource id specs))) :
    getComputeResourceSpecs env template dataResources (some zone) = .ok specs := by
  unfold GetResourceTemplate at h
  simp only [bind_eq_ok] at h
  obtain ⟨tid, _, h⟩ := h
  split at h
  · simp only [bind_eq_ok, pure, Except.pure, Except.ok.injEq, Option.some.injEq,
      Resource.ComputeResource.injEq] at h
    obtain ⟨s, hs, _, h⟩ := h
    rw [← h]
    exact hs
  · simp [pure, Except.pure] at h

theorem getComputeInstanceGroupManagerSpecs_ok (env : Env) (tfResource : ConfigResource)
    (dataResources : List (String × DataImageResource))
    (resourceTemplates : List (String × ConfigResource))
    (result : Option ComputeResourceSpecs × Int)
    (h : getComputeInstanceGroupManagerSpecs env tfResource dataResources resourceTemplates =
      .ok result) :
    ∃ targetSize, groupTargetSize tfResource = .ok targetSize ∧
      ((findTemplate tfResource resourceTemplates = none ∧ result = (none, 0)) ∨
       ∃ template zone specs, findTemplate tfResource resourceTemplates = some template ∧
         GetConstFromConfig tfResource "zone" = .str zone ∧
         getComputeResourceSpecs env template dataResources (some zone) = .ok specs ∧
         result = (some specs, targetSize)) := by
  unfold getComputeInstanceGroupManagerSpecs at h
  simp only [bind_eq_ok] at h
  obtain ⟨ts, hts, h⟩ := h
  refine ⟨ts, hts, ?_⟩
  cases hft : findTemplate tfResource resourceTemplates with
  | none =>
    simp only [hft, pure, Except.pure, Except.ok.injEq] at h
    exact Or.inl ⟨rfl, h.symm⟩
  | some template =>
    simp only [hft, bind_eq_ok] at h
    obtain ⟨zone, hz, tr, htr, h⟩ := h
    have hzone : GetConstFromConfig tfResource "zone" = .str zone := by
      cases hc : GetConstFromConfig tfResource "zone" <;> simp [hc, asString] at hz
      rw [hz]
    right
    split at h
    · rename_i id specs
      simp only [pure, Except.pure, Except.ok.injEq] at h
      exact ⟨template, zone, specs, rfl, hzone, GetResourceTemplate_ok _ _ _ _ _ _ htr, h.symm⟩
    · simp [throw, throwThe, MonadExceptOf.throw] at h

theorem GetResource_cases (env : Env) (tfResource : ConfigResource)
    (dataResources : List (String × DataImageResource))
    (resourceTemplates : List (String × ConfigResource)) (res : Resource)
    (h : GetResource env tfResource dataResources resourceTemplates = .ok res) :
    ∃ id, getResourceIdentification env tfResource = .ok id ∧
      ((tfResource.Type_ = "google_compute_instance" ∧
          ∃ specs, getComputeResourceSpecs env tfResource dataResources none = .ok specs ∧
            res = Resource.ComputeResource id specs) ∨
       ((tfResource.Type_ = "google_compute_disk" ∨
            tfResource.Type_ = "google_compute_region_disk") ∧
          ∃ specs, getComputeDiskResourceSpecs env tfResource dataResources = .ok specs ∧
            res = Resource.ComputeResource id specs) ∨
       (tfResource.Type_ = "google_sql_database_instance" ∧
          ∃ specs, getSQLResourceSpecs env tfResource = .ok specs ∧
            res = Resource.ComputeResource id specs) ∨
       (tfResource.Type_ = "google_compute_instance_group_manager" ∧
          ∃ result,
            getComputeInstanceGroupManagerSpecs env tfResource dataResources resourceTemplates =
              .ok result ∧
            ((∃ specs, result.1 = some specs ∧
                res = Resource.ComputeResource { id with Count := result.2 } specs) ∨
             (result.1 = none ∧ res = Resource.UnsupportedResource id))) ∨
       res = Resource.UnsupportedResource id) := by
  unfold GetResource at h
  simp only [bind_eq_ok] at h
  obtain ⟨id, hid, h⟩ := h
  have hty := (getResourceIdentification_ok env tfResource id hid).2.1
  refine ⟨id, hid, ?_⟩
  split_ifs at h with h1 h2 h3 h4
  all_goals (try rw [hty] at h1)
  all_goals (try rw [hty] at h2)
  all_goals (try rw [hty] at h3)
  all_goals (try rw [hty] at h4)
  · simp only [bind_eq_ok, pure, Except.pure, Except.ok.injEq] at h
    obtain ⟨specs, hs, h⟩ := h
    exact Or.inl ⟨h1, specs, hs, h.symm⟩
  · simp only [bind_eq_ok, pure, Except.pure, Except.ok.injEq] at h
    obtain ⟨specs, hs, h⟩ := h
    exact Or.inr (Or.inl ⟨h2, specs, hs, h.symm⟩)
  · simp only [bind_eq_ok, pure, Except.pure, Except.ok.injEq] at h
    obtain ⟨specs, hs, h⟩ := h
    exact Or.inr (Or.inr (Or.inl ⟨h3, specs, hs, h.symm⟩))
  · simp only [bind_eq_ok] at h
    obtain ⟨result, hr, h⟩ := h
    refine Or.inr (Or.inr (Or.inr (Or.inl ⟨h4, result, hr, ?_⟩)))
    cases h1' : result.1 with
    | none =>
      simp only [h1', pure, Except.pure, Except.ok.injEq] at h
      exact Or.inr ⟨rfl, h.symm⟩
    | some specs =>
      simp only [h1', pure, Except.pure, Except.ok.injEq] at h
      exact Or.inl ⟨specs, rfl, h.symm⟩
  · simp only [pure, Except.pure, Except.ok.injEq] at h
    exact Or.inr (Or.inr (Or.inr (Or.inr h.symm)))

theorem groupTargetSize_ok (tfResource : ConfigResource) (c : Int)
    (h : groupTargetSize tfResource = .ok c) :
    (GetConstFromConfig tfResource "target_size" = .null → c = 0) ∧
    (∀ q, GetConstFromConfig tfResource "target_size" = .num q → c = wrap64 (truncate q)) := by
  unfold groupTargetSize at h
  constructor
  · intro hn
    simp only [hn, pure, Except.pure, Except.ok.injEq] at h
    exact h.symm
  · intro q hq
    simp only [hq, asFloat, bind, Except.bind, pure, Except.pure, Except.ok.injEq] at h
    exact h.symm

theorem intSection_ok (env : Env) (value : Option valueWithUnit) (convert : Int → Int)
    (dflt c : Int) (h : intSection env value convert dflt = .ok c) :
    (value = none → c = dflt) ∧
    (∀ w, value = some w → w.Value.notNil = false → c = dflt) ∧
    (∀ w v, value = some w → w.Value.notNil = true → env.ParseToInt w.Value = .ok v →
      c = convert v) := by
  unfold intSection at h
  refine ⟨?_, ?_, ?_⟩
  · intro hv
    simp only [hv, pure, Except.pure, Except.ok.injEq] at h
    exact h.symm
  · intro w hv hn
    simp [hv, hn, pure, Except.pure] at h
    exact h.symm
  · intro w v hv hn hp
    simp [hv, hn, hp, bind, Except.bind, pure, Except.pure] at h
    exact h.symm

theorem unmappedStep_cases_unsupported (env : Env) (m₀ m₁ : List (String × Resource))
    (resourceI : Json) (h : unmappedStep env m₀ resourceI = .ok m₁) :
    m₁ = m₀ ∨ ∃ a n t, m₁ = mapSet m₀ a (unsupported n t) := by
  unfold unmappedStep at h
  simp only [bind_eq_ok] at h
  obtain ⟨resource, hr, a, ha, pn, hpn, h⟩ := h
  split at h
  · simp only [pure, Except.pure, Except.ok.injEq] at h
    exact Or.inl h.symm
  · simp [throw, throwThe, MonadExceptOf.throw] at h
  · split at h
    · simp only [pure, Except.pure, Except.ok.injEq] at h
      exact Or.inl h.symm
    · simp only [bind_eq_ok] at h
      obtain ⟨t, ht, ignored, hig, h⟩ := h
      cases ignored with
      | true =>
        simp only [if_true, pure, Except.pure, Except.ok.injEq] at h
        exact Or.inl h.symm
      | false =>
        simp only [Bool.false_eq_true, if_false, bind_eq_ok, pure, Except.pure,
          Except.ok.injEq] at h
        obtain ⟨n, hn, h⟩ := h
        exact Or.inr ⟨a, n, t, h.symm⟩

theorem unmappedPass_entries (env : Env) (planned : List Json)
    (m₀ m₁ : List (String × Resource)) (a : String) (res : Resource)
    (h : unmappedPass env m₀ planned = .ok m₁) (hl : m₁.lookup a = some res) :
    m₀.lookup a = some res ∨ ∃ n t, res = unsupported n t := by
  unfold unmappedPass at h
  induction planned generalizing m₀ with
  | nil =>
    simp only [List.foldlM_nil, pure, Except.pure, Except.ok.injEq] at h
    rw [h]
    exact Or.inl hl
  | cons r l ih =>
    simp only [List.foldlM_cons, bind_eq_ok] at h
    obtain ⟨m', hstep, hrest⟩ := h
    rcases ih m' hrest with h' | h'
    · rcases unmappedStep_cases_unsupported env m₀ m' r hstep with he | ⟨k, n, t, he⟩
      · rw [he] at h'
        exact Or.inl h'
      · rw [he] at h'
        by_cases hk : a = k
        · subst hk
          rw [mapSet_lookup_self] at h'
          simp only [Option.some.injEq] at h'
          exact Or.inr ⟨n, t, h'.symm⟩
        · rw [mapSet_lookup_ne _ _ _ _ hk] at h'
          exact Or.inl h'
    · exact Or.inr h'

/-- Claim C15, as amended.  The identification count of an extracted resource
is 1, with two exceptions.  A resource returned by `GetResource` has the count
1 unless it is the Compute Resource of an instance group manager, whose count
is the declared `target_size` truncated to an integer (wrapped to 64 bits) and
0 when no `target_size` is declared.  A resource appended by
`getComputeResource` has the count 1 when no `count` is mapped or the mapped
value is nil, and otherwise the integer read from the mapped value, whatever it
is.  Every entry that `GetResources` adds for an address absent from the
mapped resources is an Unsupported Resource of count 1. -/
theorem identification_count (env : Env) :
    (∀ tfResource dataResources resourceTemplates res,
      GetResource env tfResource dataResources resourceTemplates = .ok res →
      res.identification.Count = 1 ∨
      (tfResource.Type_ = "google_compute_instance_group_manager" ∧
        (∃ id specs, res = Resource.ComputeResource id specs) ∧
        (GetConstFromConfig tfResource "target_size" = .null →
          res.identification.Count = 0) ∧
        (∀ q, GetConstFromConfig tfResource "target_size" = .num q →
          res.identification.Count = wrap64 (truncate q)))) ∧
    (∀ resourceI mapping resourcesResult out,
      getComputeResource env resourceI mapping resourcesResult = .ok (some out) →
      ∃ context count id specs,
        buildContext env resourceI mapping = .ok (some context) ∧
        env.getValue "count" context = .ok count ∧
        out = resourcesResult ++ [Resource.ComputeResource id specs] ∧
        (count = none → id.Count = 1) ∧
        (∀ w, count = some w → w.Value.notNil = false → id.Count = 1) ∧
        (∀ w v, count = some w → w.Value.notNil = true → env.ParseToInt w.Value = .ok v →
          id.Count = wrap64 v)) ∧
    (∀ plan planned rest mapping mapped m a res,
      env.GetJSON ".planned_values.root_module.resources" plan = .ok (.arr planned :: rest) →
      env.getMapping = .ok mapping →
      mappingPass env plan mapping = .ok mapped →
      GetResources env plan = .ok m →
      mapped.lookup a = none → m.lookup a = some res →
      (∃ n t, res = unsupported n t) ∧ res.identification.Count = 1) := by
  refine ⟨?_, ?_, ?_⟩
  · intro tfResource dataResources resourceTemplates res h
    obtain ⟨id, hid, hc⟩ := GetResource_cases env tfResource dataResources resourceTemplates res h
    have hcount := (getResourceIdentification_ok env tfResource id hid).2.2.2
    rcases hc with ⟨_, specs, _, hr⟩ | ⟨_, specs, _, hr⟩ | ⟨_, specs, _, hr⟩ |
      ⟨hty, result, hres, hr⟩ | hr
    · left; rw [hr]; exact hcount
    · left; rw [hr]; exact hcount
    · left; rw [hr]; exact hcount
    · rcases hr with ⟨specs, hs, hr⟩ | ⟨_, hr⟩
      · right
        obtain ⟨ts, hts, hcase⟩ := getComputeInstanceGroupManagerSpecs_ok _ _ _ _ _ hres
        rcases hcase with ⟨_, hnone⟩ | ⟨_, _, specs', _, _, _, hsome⟩
        · rw [hnone] at hs
          simp at hs
        · have h2 : result.2 = ts := by rw [hsome]
          have hg := groupTargetSize_ok tfResource ts hts
          refine ⟨hty, ⟨_, _, hr⟩, ?_, ?_⟩
          · intro hn
            rw [hr]
            simp only [Resource.identification, h2]
            exact hg.1 hn
          · intro q hq
            rw [hr]
            simp only [Resource.identification, h2]
            exact hg.2 q hq
      · left; rw [hr]; exact hcount
    · left; rw [hr]; exact hcount
  · intro resourceI mapping resourcesResult out h
    obtain ⟨context, _, _, _, _, _, count, _, id, specs, _, hc, _, _, _, _, _, _, _, _, _, _,
      hcnt, hC, _, _, _, _, _, ho⟩ := getComputeResource_ok _ _ _ _ _ h
    exact ⟨context, count, id, specs, hc, hcnt, ho, intSection_ok env count wrap64 1 _ hC⟩
  · intro plan planned rest mapping mapped m a res hplan hmap hpass hres hun hl
    rw [GetResources_eq env plan planned rest mapping mapped hplan hmap hpass] at hres
    rcases unmappedPass_entries env planned mapped m a res hres hl with h' | ⟨n, t, h'⟩
    · rw [hun] at h'
      simp at h'
    · exact ⟨⟨n, t, h'⟩, by rw [h']; rfl⟩

/-- Witness of claim C15: the virtual machine `exampleInstance` is returned
with the count 1. -/
theorem identification_count_witness :
    GetResource exampleEnv exampleInstance [] [] =
      .ok (Resource.ComputeResource exampleInstanceId exampleInstanceSpecs) ∧
    ((Resource.ComputeResource exampleInstanceId exampleInstanceSpecs).identification.Count = 1 ∨
      (exampleInstance.Type_ = "google_compute_instance_group_manager" ∧
        (∃ id specs, Resource.ComputeResource exampleInstanceId exampleInstanceSpecs =
          Resource.ComputeResource id specs) ∧
        (GetConstFromConfig exampleInstance "target_size" = .null →
          (Resource.ComputeResource exampleInstanceId
            exampleInstanceSpecs).identification.Count = 0) ∧
        (∀ q, GetConstFromConfig exampleInstance "target_size" = .num q →
          (Resource.ComputeResource exampleInstanceId
            exampleInstanceSpecs).identification.Count = wrap64 (truncate q)))) :=
  ⟨by decide!, (identification_count exampleEnv).1 exampleInstance [] []
    (Resource.ComputeResource exampleInstanceId exampleInstanceSpecs) (by decide!)⟩

/-- Counterexample to claim C15 as stated: an instance group manager that
declares no `target_size` and whose template resolves is returned with the
count 0, and a resource whose mapped `count` is 0 is appended with the
count 0. -/
theorem identification_count_zero :
    GetConstFromConfig exampleGroupNoSize "target_size" = .null ∧
    GetResource exampleEnv exampleGroupNoSize [] exampleTemplates =
      .ok (Resource.ComputeResource { exampleGroupId with Count := 0 } exampleInstanceSpecs) ∧
    getComputeResource (valueEnv "count" 0) exampleMapped exampleMapping [] =
      .ok (some [exampleGeneric 0 1]) ∧
    ¬ (1 ≤ (Resource.ComputeResource { exampleGroupId with Count := 0 }
      exampleInstanceSpecs).identification.Count) ∧
    ¬ (1 ≤ (exampleGeneric 0 1).identification.Count) :=
  ⟨rfl, by decide!, by decide!, by decide, by decide⟩

theorem getComputeDiskResourceSpecs_ok (env : Env) (resource : ConfigResource)
    (dataResources : List (String × DataImageResource)) (specs : ComputeResourceSpecs)
    (h : getComputeDiskResourceSpecs env resource dataResources = .ok specs) :
    ∃ d, getDisk env.config resource.Expressions false dataResources = .ok d ∧
      specs.ReplicationFactor = d.replicationFactor ∧
      specs.SsdStorage = (if d.isSSD then 0 + d.sizeGb else 0) ∧
      specs.HddStorage = (if d.isSSD then 0 else 0 + d.sizeGb) := by
  unfold getComputeDiskResourceSpecs at h
  simp only [bind_eq_ok, pure, Except.pure, Except.ok.injEq] at h
  obtain ⟨d, hd, h⟩ := h
  subst h
  exact ⟨d, hd, rfl, rfl, rfl⟩

theorem diskReplication_ok (diskBlock : Block) (r : Int)
    (h : diskReplication diskBlock = .ok r) :
    (diskBlock.lookup "replica_zones" = none → r = 1) ∧
    (∀ e rz, diskBlock.lookup "replica_zones" = some e → e.ConstantValue = .arr rz →
      r = wrap32 rz.length) := by
  unfold diskReplication at h
  constructor
  · intro hn
    simp only [hn, pure, Except.pure, Except.ok.injEq] at h
    exact h.symm
  · intro e rz he hc
    simp only [he, hc, pure, Except.pure, Except.ok.injEq] at h
    exact h.symm

theorem sqlReplicationFactor_value (settings : Block) (rf : Int) (e : Expression)
    (h : sqlReplicationFactor settings = .ok rf)
    (he : settings.lookup "availability_type" = some e) :
    (e.ConstantValue = .str "REGIONAL" → rf = 2) ∧
    (e.ConstantValue ≠ .str "REGIONAL" → rf = 1) := by
  unfold sqlReplicationFactor at h
  rw [he] at h
  simp only at h
  cases hc : e.ConstantValue with
  | str s =>
    rw [hc] at h
    simp only [pure, Except.pure, Except.ok.injEq] at h
    constructor
    · intro hs
      simp only [Json.str.injEq] at hs
      rw [← h, hs]
      rfl
    · intro hs
      have : s ≠ "REGIONAL" := fun h' => hs (by rw [h'])
      rw [← h]
      simp [this]
  | _ =>
    rw [hc] at h
    simp only [pure, Except.pure, Except.ok.injEq] at h
    exact ⟨fun hs => Json.noConfusion hs, fun _ => h.symm⟩

/-- Claim C16, as amended.  A Compute Resource returned by `GetResource` is a
virtual machine, an instance group, a database instance, a standalone disk or
a regional disk.  Its replication factor is 1 for a virtual machine and an
instance group.  For a database instance it is 1 or 2: 1 without `settings`
block, 2 when the `availability_type` constant of the block is `REGIONAL` and
1 otherwise.  For a standalone disk or a regional disk it is 1 when no
`replica_zones` expression is declared and otherwise the number of declared
replica zones (wrapped to 32 bits), whatever that number is.  For a resource
appended by `getComputeResource` it is 1 when no `replication_factor` is
mapped or the mapped value is nil, and otherwise the integer read from the
mapped value (wrapped to 32 bits), whatever it is. -/
theorem replicationFactor_value (env : Env) :
    (∀ tfResource dataResources resourceTemplates id specs,
      GetResource env tfResource dataResources resourceTemplates =
        .ok (Resource.ComputeResource id specs) →
      (tfResource.Type_ = "google_compute_instance" ∨
        tfResource.Type_ = "google_compute_instance_group_manager" ∨
        tfResource.Type_ = "google_sql_database_instance" ∨
        tfResource.Type_ = "google_compute_disk" ∨
        tfResource.Type_ = "google_compute_region_disk") ∧
      (tfResource.Type_ = "google_compute_instance" ∨
          tfResource.Type_ = "google_compute_instance_group_manager" →
        specs.ReplicationFactor = 1) ∧
      (tfResource.Type_ = "google_sql_database_instance" →
        (specs.ReplicationFactor = 1 ∨ specs.ReplicationFactor = 2) ∧
        (tfResource.Expressions.lookup "settings" = none → specs.ReplicationFactor = 1) ∧
        (∀ settingsExpr settings e,
          tfResource.Expressions.lookup "settings" = some settingsExpr →
          firstBlock settingsExpr = .ok settings →
          settings.lookup "availability_type" = some e →
          (e.ConstantValue = .str "REGIONAL" → specs.ReplicationFactor = 2) ∧
          (e.ConstantValue ≠ .str "REGIONAL" → specs.ReplicationFactor = 1))) ∧
      (tfResource.Type_ = "google_compute_disk" ∨
          tfResource.Type_ = "google_compute_region_disk" →
        (tfResource.Expressions.lookup "replica_zones" = none →
          specs.ReplicationFactor = 1) ∧
        (∀ e rz, tfResource.Expressions.lookup "replica_zones" = some e →
          e.ConstantValue = .arr rz → specs.ReplicationFactor = wrap32 rz.length))) ∧
    (∀ resourceI mapping resourcesResult out,
      getComputeResource env resourceI mapping resourcesResult = .ok (some out) →
      ∃ context replicationFactor id specs,
        buildContext env resourceI mapping = .ok (some context) ∧
        env.getValue "replication_factor" context = .ok replicationFactor ∧
        out = resourcesResult ++ [Resource.ComputeResource id specs] ∧
        (replicationFactor = none → specs.ReplicationFactor = 1) ∧
        (∀ w, replicationFactor = some w → w.Value.notNil = false →
          specs.ReplicationFactor = 1) ∧
        (∀ w v, replicationFactor = some w → w.Value.notNil = true →
          env.ParseToInt w.Value = .ok v → specs.ReplicationFactor = wrap32 v)) := by
  refine ⟨?_, ?_⟩
  · intro tfResource dataResources resourceTemplates id specs h
    obtain ⟨id', hid, hc⟩ := GetResource_cases env tfResource dataResources resourceTemplates _ h
    rcases hc with ⟨hty, specs', hs, hr⟩ | ⟨hty, specs', hs, hr⟩ | ⟨hty, specs', hs, hr⟩ |
      ⟨hty, result, hres, hr⟩ | hr
    · simp only [Resource.ComputeResource.injEq] at hr
      obtain ⟨_, _, _, _, _, _, _, _, _, _, _, hrf⟩ := getComputeResourceSpecs_ok _ _ _ _ _ hs
      rw [hr.2]
      refine ⟨Or.inl hty, fun _ => hrf, fun hd => ?_, fun hd => ?_⟩
      · rw [hty] at hd
        simp at hd
      · rw [hty] at hd
        simp at hd
    · simp only [Resource.ComputeResource.injEq] at hr
      obtain ⟨d, hd, hrf, _⟩ := getComputeDiskResourceSpecs_ok _ _ _ _ hs
      obtain ⟨_, _, _, _, _, hrep, _⟩ := getDisk_sections _ _ _ _ _ hd
      refine ⟨Or.inr (Or.inr (Or.inr hty)), fun h1 => ?_, fun h1 => ?_, fun _ => ?_⟩
      · rcases hty with hty | hty <;> rw [hty] at h1 <;> simp at h1
      · rcases hty with hty | hty <;> rw [hty] at h1 <;> simp at h1
      · rw [hr.2, hrf]
        exact diskReplication_ok _ _ hrep
    · simp only [Resource.ComputeResource.injEq] at hr
      rw [hr.2]
      refine ⟨Or.inr (Or.inr (Or.inl hty)), fun h1 => ?_, fun _ => ?_, fun hd => ?_⟩
      · rw [hty] at h1
        simp at h1
      · rcases getSQLResourceSpecs_ok env tfResource specs' hs with ⟨hnone, h1, _⟩ |
          ⟨settingsExpr, settings, rf, _, _, _, _, hse, hfb, hrf, _, _, _, _, _, hspec, _⟩
        · refine ⟨Or.inl h1, fun _ => h1, ?_⟩
          intro settingsExpr settings e hl
          rw [hnone] at hl
          cases hl
        · rw [hspec]
          refine ⟨sqlReplicationFactor_ok settings rf hrf, ?_, ?_⟩
          · intro hn
            rw [hse] at hn
            cases hn
          · intro settingsExpr' settings' e hl hb he
            rw [hse] at hl
            cases hl
            rw [hfb] at hb
            cases hb
            exact sqlReplicationFactor_value settings rf e hrf he
      · rw [hty] at hd
        simp at hd
    · rcases hr with ⟨specs', hs, hr⟩ | ⟨_, hr⟩
      · simp only [Resource.ComputeResource.injEq] at hr
        obtain ⟨_, _, hcase⟩ := getComputeInstanceGroupManagerSpecs_ok _ _ _ _ _ hres
        rcases hcase with ⟨_, hnone⟩ | ⟨_, _, specs'', _, _, hts, hsome⟩
        · rw [hnone] at hs
          simp at hs
        · rw [hsome] at hs
          simp only [Option.some.injEq] at hs
          obtain ⟨_, _, _, _, _, _, _, _, _, _, _, hrf⟩ :=
            getComputeResourceSpecs_ok _ _ _ _ _ hts
          rw [hr.2, ← hs]
          refine ⟨Or.inr (Or.inl hty), fun _ => hrf, fun hd => ?_, fun hd => ?_⟩
          · rw [hty] at hd
            simp at hd
          · rw [hty] at hd
            simp at hd
      · simp at hr
    · simp at hr
  · intro resourceI mapping resourcesResult out h
    obtain ⟨context, _, _, _, _, rf, _, _, id, specs, _, hc, _, _, _, _, _, _, _, _, hrf, hR,
      _, _, _, _, _, _, _, ho⟩ := getComputeResource_ok _ _ _ _ _ h
    exact ⟨context, rf, id, specs, hc, hrf, ho, intSection_ok env rf wrap32 1 _ hR⟩

/-- Witness of claim C16: a regional disk with two replica zones has the
replication factor 2. -/
theorem replicationFactor_value_witness :
    GetResource exampleEnv
        (exampleRegionDisk [.str "europe-west9-a", .str "europe-west9-b"]) [] [] =
      .ok (Resource.ComputeResource exampleRegionDiskId (exampleRegionDiskSpecs 2)) ∧
    (exampleRegionDiskSpecs 2).ReplicationFactor =
      wrap32 ([Json.str "europe-west9-a", Json.str "europe-west9-b"].length) :=
  ⟨by decide!,
   (((replicationFactor_value exampleEnv).1
      (exampleRegionDisk [.str "europe-west9-a", .str "europe-west9-b"]) [] []
      exampleRegionDiskId (exampleRegionDiskSpecs 2) (by decide!)).2.2.2
      (Or.inr rfl)).2 _ _ rfl rfl⟩

/-- Counterexample to claim C16 as stated: a regional disk whose
`replica_zones` list is empty is returned with the replication factor 0, and a
resource whose mapped `replication_factor` is 0 is appended with the
replication factor 0. -/
theorem replicationFactor_zero :
    GetResource exampleEnv (exampleRegionDisk []) [] [] =
      .ok (Resource.ComputeResource exampleRegionDiskId (exampleRegionDiskSpecs 0)) ∧
    getComputeResource (valueEnv "replication_factor" 0) exampleMapped exampleMapping [] =
      .ok (some [Resource.ComputeResource (exampleGenericId 1) (exampleGenericSpecs 0)]) ∧
    ¬ (1 ≤ (exampleRegionDiskSpecs 0).ReplicationFactor) ∧
    ¬ (1 ≤ (exampleGenericSpecs 0).ReplicationFactor) :=
  ⟨by decide!, by decide!, by decide, by decide⟩

theorem getSQLResourceSpecs_of_sections (env : Env) (resource : ConfigResource)
    (settingsExpr : Expression) (settings : Block) (replicationFactor : Int)
    (tierName : String) (tier : SqlTier) (diskType : String) (diskSize : ℚ)
    (hs : resource.Expressions.lookup "settings" = some settingsExpr)
    (hb : firstBlock settingsExpr = .ok settings)
    (hrf : sqlReplicationFactor settings = .ok replicationFactor)
    (htn : sqlTierName settings = .ok tierName)
    (ht : env.GetGCPSQLTier tierName = .ok tier)
    (hdt : sqlDiskType settings = .ok diskType)
    (hds : sqlDiskSize settings = .ok diskSize) :
    getSQLResourceSpecs env resource =
      (sqlStorage diskType diskSize).map (fun sizes =>
        { GpuTypes := []
          VCPUs := wrap32 tier.Vcpus
          MemoryMb := wrap32 tier.MemoryMb
          CPUType := ""
          SsdStorage := sizes.1
          HddStorage := sizes.2
          ReplicationFactor := replicationFactor }) := by
  unfold getSQLResourceSpecs
  rw [hs]
  simp only [hb, hrf, htn, ht, hdt, hds, bind, Except.bind, pure, Except.pure]
  cases sqlStorage diskType diskSize <;> rfl

/-- Claim C17.  For a database instance whose `settings` block has a readable
availability type and tier, `getSQLResourceSpecs` reads the disk type as the
declared `disk_type`, or `PD_SSD` when none is declared, and the disk size as
the declared `disk_size`, or 10 when none is declared; for the type `PD_SSD`
it returns the spec with that size as `SsdStorage` and `HddStorage` 0, and for
the type `PD_HDD` the spec with that size as `HddStorage` and `SsdStorage`
0. -/
theorem getSQLResourceSpecs_disk (env : Env) (resource : ConfigResource)
    (settingsExpr : Expression) (settings : Block) (replicationFactor : Int)
    (tierName : String) (tier : SqlTier)
    (hs : resource.Expressions.lookup "settings" = some settingsExpr)
    (hb : firstBlock settingsExpr = .ok settings)
    (hrf : sqlReplicationFactor settings = .ok replicationFactor)
    (htn : sqlTierName settings = .ok tierName)
    (ht : env.GetGCPSQLTier tierName = .ok tier) :
    (settings.lookup "disk_type" = none → sqlDiskType settings = .ok "PD_SSD") ∧
    (∀ e s, settings.lookup "disk_type" = some e → e.ConstantValue = .str s →
      sqlDiskType settings = .ok s) ∧
    (settings.lookup "disk_size" = none → sqlDiskSize settings = .ok 10) ∧
    (∀ e q, settings.lookup "disk_size" = some e → e.ConstantValue = .num q →
      sqlDiskSize settings = .ok q) ∧
    (∀ diskSize, sqlDiskType settings = .ok "PD_SSD" → sqlDiskSize settings = .ok diskSize →
      getSQLResourceSpecs env resource =
        .ok { GpuTypes := []
              VCPUs := wrap32 tier.Vcpus
              MemoryMb := wrap32 tier.MemoryMb
              CPUType := ""
              SsdStorage := diskSize
              HddStorage := 0
              ReplicationFactor := replicationFactor }) ∧
    (∀ diskSize, sqlDiskType settings = .ok "PD_HDD" → sqlDiskSize settings = .ok diskSize →
      getSQLResourceSpecs env resource =
        .ok { GpuTypes := []
              VCPUs := wrap32 tier.Vcpus
              MemoryMb := wrap32 tier.MemoryMb
              CPUType := ""
              SsdStorage := 0
              HddStorage := diskSize
              ReplicationFactor := replicationFactor }) := by
  refine ⟨?_, ?_, ?_, ?_, ?_, ?_⟩
  · intro h
    simp only [sqlDiskType, h, pure, Except.pure]
  · intro e s h hc
    simp only [sqlDiskType, h, hc, asString]
  · intro h
    simp only [sqlDiskSize, h, pure, Except.pure]
  · intro e q h hc
    simp only [sqlDiskSize, h, hc, asFloat]
  · intro diskSize hdt hds
    rw [getSQLResourceSpecs_of_sections env resource settingsExpr settings replicationFactor
      tierName tier "PD_SSD" diskSize hs hb hrf htn ht hdt hds]
    rfl
  · intro diskSize hdt hds
    rw [getSQLResourceSpecs_of_sections env resource settingsExpr settings replicationFactor
      tierName tier "PD_HDD" diskSize hs hb hrf htn ht hdt hds]
    rfl

/-- Witness of claim C17: a regional database instance with a disk of type
`PD_HDD` and size 50. -/
theorem getSQLResourceSpecs_disk_witness :
    getSQLResourceSpecs exampleEnv
        (exampleSqlRegional [("disk_type", const (.str "PD_HDD")),
          ("disk_size", const (.num 50))]) =
      .ok { GpuTypes := []
            VCPUs := wrap32 1
            MemoryMb := wrap32 3840
            CPUType := ""
            SsdStorage := 0
            HddStorage := 50
            ReplicationFactor := 2 } :=
  (getSQLResourceSpecs_disk exampleEnv
    (exampleSqlRegional [("disk_type", const (.str "PD_HDD")), ("disk_size", const (.num 50))])
    (blocks [[("availability_type", const (.str "REGIONAL")),
      ("tier", const (.str "db-f1-micro")), ("disk_type", const (.str "PD_HDD")),
      ("disk_size", const (.num 50))]])
    [("availability_type", const (.str "REGIONAL")),
      ("tier", const (.str "db-f1-micro")), ("disk_type", const (.str "PD_HDD")),
      ("disk_size", const (.num 50))]
    2 "db-f1-micro" { Vcpus := 1, MemoryMb := 3840 } rfl rfl rfl rfl rfl).2.2.2.2.2 50 rfl rfl

theorem sqlStorage_fatal_iff (diskType : String) (diskSize : ℚ) :
    sqlStorage diskType diskSize = .error Fault.fatal ↔
      diskType ≠ "PD_SSD" ∧ diskType ≠ "PD_HDD" := by
  unfold sqlStorage
  by_cases h1 : diskType = "PD_SSD"
  · simp [h1, pure, Except.pure]
  · by_cases h2 : diskType = "PD_HDD"
    · simp [h2, pure, Except.pure]
    · simp [h1, h2, throw, throwThe, MonadExceptOf.throw]

theorem sqlDiskType_declared (settings : Block) (diskType : String)
    (h : sqlDiskType settings = .ok diskType) (hne : diskType ≠ "PD_SSD") :
    ∃ e, settings.lookup "disk_type" = some e ∧ e.ConstantValue = .str diskType := by
  unfold sqlDiskType at h
  cases hl : settings.lookup "disk_type" with
  | none =>
    rw [hl] at h
    simp only [pure, Except.pure, Except.ok.injEq] at h
    exact absurd h.symm hne
  | some e =>
    rw [hl] at h
    simp only at h
    cases hv : e.ConstantValue <;> rw [hv] at h <;> simp [asString] at h
    exact ⟨e, rfl, by rw [hv, h]⟩

/-- Claim C18 (defect of the code).  For a database instance without a
`settings` block `getSQLResourceSpecs` returns a spec.  For an instance whose
`settings` block has a readable availability type, tier, disk type and disk
size, it ends with a fatal error exactly when the disk type is neither `PD_SSD`
nor `PD_HDD`, the disk type being then a declared one, and returns a spec
otherwise.  For an instance whose `settings` block declares no
`availability_type` it returns neither a spec nor a fatal error: it panics,
whatever the disk type. -/
theorem getSQLResourceSpecs_fatal (env : Env) (resource : ConfigResource) :
    (resource.Expressions.lookup "settings" = none →
      ∃ specs, getSQLResourceSpecs env resource = .ok specs) ∧
    (∀ settingsExpr settings replicationFactor tierName tier diskType diskSize,
      resource.Expressions.lookup "settings" = some settingsExpr →
      firstBlock settingsExpr = .ok settings →
      sqlReplicationFactor settings = .ok replicationFactor →
      sqlTierName settings = .ok tierName →
      env.GetGCPSQLTier tierName = .ok tier →
      sqlDiskType settings = .ok diskType →
      sqlDiskSize settings = .ok diskSize →
      (getSQLResourceSpecs env resource = .error Fault.fatal ↔
        diskType ≠ "PD_SSD" ∧ diskType ≠ "PD_HDD") ∧
      (getSQLResourceSpecs env resource = .error Fault.fatal →
        ∃ e, settings.lookup "disk_type" = some e ∧ e.ConstantValue = .str diskType) ∧
      (diskType = "PD_SSD" ∨ diskType = "PD_HDD" →
        ∃ specs, getSQLResourceSpecs env resource = .ok specs)) ∧
    (∀ settingsExpr settings,
      resource.Expressions.lookup "settings" = some settingsExpr →
      firstBlock settingsExpr = .ok settings →
      settings.lookup "availability_type" = none →
      getSQLResourceSpecs env resource = .error Fault.panic) := by
  refine ⟨?_, ?_, ?_⟩
  · intro h
    unfold getSQLResourceSpecs
    rw [h]
    exact ⟨_, rfl⟩
  · intro settingsExpr settings replicationFactor tierName tier diskType diskSize hs hb hrf
      htn ht hdt hds
    have heq := getSQLResourceSpecs_of_sections env resource settingsExpr settings
      replicationFactor tierName tier diskType diskSize hs hb hrf htn ht hdt hds
    have hiff : getSQLResourceSpecs env resource = .error Fault.fatal ↔
        diskType ≠ "PD_SSD" ∧ diskType ≠ "PD_HDD" := by
      rw [heq, ← sqlStorage_fatal_iff diskType diskSize]
      cases sqlStorage diskType diskSize <;> simp [Except.map]
    refine ⟨hiff, fun hf => sqlDiskType_declared settings diskType hdt (hiff.1 hf).1, ?_⟩
    intro hor
    rw [heq]
    rcases hor with h | h
    · rw [h]
      exact ⟨_, rfl⟩
    · rw [h]
      exact ⟨_, rfl⟩
  · intro settingsExpr settings hs hb ha
    unfold getSQLResourceSpecs
    rw [hs]
    simp only [hb, sqlReplicationFactor, ha, bind, Except.bind, throw, throwThe,
      MonadExceptOf.throw]

/-- Witness of claim C18: a regional database instance whose declared disk
type is `PD_EXTREME` ends with a fatal error, and the database instance
declaring only a tier, whose disk type is the default `PD_SSD`, panics. -/
theorem getSQLResourceSpecs_fatal_witness :
    getSQLResourceSpecs exampleEnv
        (exampleSqlRegional [("disk_type", const (.str "PD_EXTREME"))]) =
      .error Fault.fatal ∧
    sqlDiskType [("tier", const (.str "db-f1-micro"))] = .ok "PD_SSD" ∧
    getSQLResourceSpecs exampleEnv exampleSqlInstance = .error Fault.panic :=
  ⟨(((getSQLResourceSpecs_fatal exampleEnv
      (exampleSqlRegional [("disk_type", const (.str "PD_EXTREME"))])).2.1
      (blocks [[("availability_type", const (.str "REGIONAL")),
        ("tier", const (.str "db-f1-micro")), ("disk_type", const (.str "PD_EXTREME"))]])
      [("availability_type", const (.str "REGIONAL")),
        ("tier", const (.str "db-f1-micro")), ("disk_type", const (.str "PD_EXTREME"))]
      2 "db-f1-micro" { Vcpus := 1, MemoryMb := 3840 } "PD_EXTREME" 10
      rfl rfl rfl rfl rfl rfl rfl).1).2 (by decide),
   rfl,
   (getSQLResourceSpecs_fatal exampleEnv exampleSqlInstance).2.2
      (blocks [[("tier", const (.str "db-f1-micro"))]])
      [("tier", const (.str "db-f1-micro"))] rfl rfl rfl⟩

theorem foldlM_appendList_eq_mapE {α β : Type} (f : α → Except Fault (List β)) (l : List α)
    (init : List β) :
    l.foldlM (fun acc a => do let b ← f a; pure (acc ++ b)) init =
      (do let bs ← mapE f l; pure (init ++ bs.flatten)) := by
  induction l generalizing init with
  | nil => simp [mapE, pure, Except.pure, bind, Except.bind]
  | cons a l ih =>
    simp only [List.foldlM_cons, mapE]
    cases hfa : f a with
    | error e => simp [bind, Except.bind]
    | ok b =>
      simp only [bind, Except.bind, pure, Except.pure] at ih ⊢
      rw [ih]
      cases mapE f l with
      | error e => rfl
      | ok bs => simp [List.append_assoc]

theorem getGPU_of_count (env : Env) (gpu : TaggedBlock) (gpuType count : valueWithUnit)
    (ty : String) (n : Int)
    (ht : gpu.lookup "type" = some (some gpuType)) (hty : gpuType.Value = .str ty)
    (hc : gpu.lookup "count" = some (some count)) (hv : count.Value.notNil = true)
    (hn : env.ParseToInt count.Value = .ok n) :
    getGPU env gpu = .ok (List.replicate n.toNat ty) := by
  unfold getGPU
  simp only [ht, hc, hv, hn, hty, asString, bind, Except.bind, pure, Except.pure, if_true]
  by_cases h0 : 0 < n
  · simp [h0]
  · have : n.toNat = 0 := by omega
    simp [h0, this]

/-- Claim C19.  For a GPU block whose `type` is present, `getGPU` returns the
empty list when the `count` is a nil pointer or has a nil value; when the
count is read as the integer `n` and the type is the string `ty`, it returns
the list of `n` entries equal to `ty` (the empty list for `n ≤ 0`).  The
`GpuTypes` of a resource appended by `getComputeResource` is the concatenation,
in order, of the lists that `getGPU` returns for the blocks of its
`guest_accelerator` slice. -/
theorem getGPU_types (env : Env) :
    (∀ gpu gpuType, gpu.lookup "type" = some (some gpuType) →
      (gpu.lookup "count" = some none → getGPU env gpu = .ok []) ∧
      (∀ count, gpu.lookup "count" = some (some count) → count.Value.notNil = false →
        getGPU env gpu = .ok []) ∧
      (∀ count ty n, gpu.lookup "count" = some (some count) → count.Value.notNil = true →
        env.ParseToInt count.Value = .ok n → gpuType.Value = .str ty →
        getGPU env gpu = .ok (List.replicate n.toNat ty) ∧
        (0 ≤ n → ((List.replicate n.toNat ty).length : Int) = n) ∧
        (∀ x ∈ List.replicate n.toNat ty, x = ty))) ∧
    (∀ resourceI mapping resourcesResult out,
      getComputeResource env resourceI mapping resourcesResult = .ok (some out) →
      ∃ context gpus lists id specs,
        buildContext env resourceI mapping = .ok (some context) ∧
        env.getSlice "guest_accelerator" context = .ok gpus ∧
        mapE (getGPU env) gpus = .ok lists ∧
        out = resourcesResult ++ [Resource.ComputeResource id specs] ∧
        specs.GpuTypes = lists.flatten) := by
  refine ⟨?_, ?_⟩
  · intro gpu gpuType ht
    refine ⟨?_, ?_, ?_⟩
    · intro hc
      unfold getGPU
      simp only [ht, hc, bind, Except.bind, pure, Except.pure]
    · intro count hc hv
      unfold getGPU
      simp [ht, hc, hv, bind, Except.bind, pure, Except.pure]
    · intro count ty n hc hv hn hty
      refine ⟨getGPU_of_count env gpu gpuType count ty n ht hty hc hv hn, ?_, ?_⟩
      · intro h0
        rw [List.length_replicate]
        exact Int.toNat_of_nonneg h0
      · intro x hx
        exact List.eq_of_mem_replicate hx
  · intro resourceI mapping resourcesResult out h
    obtain ⟨context, _, _, gpus, _, _, _, _, id, specs, _, hc, _, _, _, _, hg, hG,
      _, _, _, _, _, _, _, _, _, _, _, ho⟩ := getComputeResource_ok _ _ _ _ _ h
    rw [foldlM_appendList_eq_mapE] at hG
    cases hm : mapE (getGPU env) gpus with
    | error e =>
      rw [hm] at hG
      simp [bind, Except.bind] at hG
    | ok lists =>
      rw [hm] at hG
      simp only [bind, Except.bind, pure, Except.pure, List.nil_append, Except.ok.injEq] at hG
      exact ⟨context, gpus, lists, id, specs, hc, hg, hm, ho, hG.symm⟩

/-- Witness of claim C19: a block of two `nvidia-t4` yields two entries, and
a resource with three GPU blocks, the second one without count, has the
entries of the first block followed by the entry of the third. -/
theorem getGPU_types_witness :
    getGPU exampleEnv (exampleGpu "nvidia-t4" 2) = .ok ["nvidia-t4", "nvidia-t4"] ∧
    getGPU exampleEnv (exampleGpuNoCount "nvidia-a100") = .ok [] ∧
    getComputeResource (sliceEnv "guest_accelerator"
        [exampleGpu "nvidia-t4" 2, exampleGpuNoCount "nvidia-a100",
         exampleGpu "nvidia-v100" 1])
        exampleMapped exampleMapping [] =
      .ok (some [Resource.ComputeResource (exampleGenericId 1)
        { exampleGenericSpecs 1 with
          GpuTypes := ["nvidia-t4", "nvidia-t4", "nvidia-v100"] }]) :=
  ⟨((((getGPU_types exampleEnv).1 (exampleGpu "nvidia-t4" 2)
      { Value := .str "nvidia-t4", Unit := none } rfl).2.2
      { Value := .num 2, Unit := none } "nvidia-t4" 2 rfl rfl (by decide!) rfl).1),
   ((getGPU_types exampleEnv).1 (exampleGpuNoCount "nvidia-a100")
      { Value := .str "nvidia-a100", Unit := none } rfl).1 rfl,
   by decide!⟩

theorem lowerChar_eq_s (c : Char) : lowerChar c = 's' ↔ c = 's' ∨ c = 'S' := by
  constructor
  · intro h
    unfold lowerChar at h
    split_ifs at h with h1 h2
    · exact absurd h (by decide)
    · exact absurd h (by decide)
    · unfold Char.toLower at h
      simp only at h
      split_ifs at h with h3
      · right
        have hc : c = Char.ofNat c.toNat := (Char.ofNat_toNat c).symm
        obtain ⟨h65, h90⟩ := h3
        generalize c.toNat = n at hc h h65 h90
        subst hc
        have h65 : 65 ≤ n := h65
        interval_cases n <;> revert h <;> decide
      · left; exact h
  · rintro (h | h) <;> subst h <;> decide

theorem lowerChar_eq_d (c : Char) : lowerChar c = 'd' ↔ c = 'd' ∨ c = 'D' := by
  constructor
  · intro h
    unfold lowerChar at h
    split_ifs at h with h1 h2
    · exact absurd h (by decide)
    · exact absurd h (by decide)
    · unfold Char.toLower at h
      simp only at h
      split_ifs at h with h3
      · right
        have hc : c = Char.ofNat c.toNat := (Char.ofNat_toNat c).symm
        obtain ⟨h65, h90⟩ := h3
        generalize c.toNat = n at hc h h65 h90
        subst hc
        have h65 : 65 ≤ n := h65
        interval_cases n <;> revert h <;> decide
      · left; exact h
  · rintro (h | h) <;> subst h <;> decide

theorem ToLower_eq_ssd (v : String) :
    ToLower v = "ssd" ↔
      ∃ a b c, v = String.mk [a, b, c] ∧ (a = 's' ∨ a = 'S') ∧ (b = 's' ∨ b = 'S') ∧
        (c = 'd' ∨ c = 'D') := by
  unfold ToLower
  constructor
  · intro h
    have hd : v.data.map lowerChar = ['s', 's', 'd'] := congrArg String.data h
    rcases hv : v.data with _ | ⟨a, _ | ⟨b, _ | ⟨c, _ | ⟨d, l⟩⟩⟩⟩ <;> rw [hv] at hd <;>
      simp only [List.map, List.cons.injEq, and_true, reduceCtorEq, and_false] at hd
    refine ⟨a, b, c, ?_, (lowerChar_eq_s a).1 hd.1, (lowerChar_eq_s b).1 hd.2.1,
      (lowerChar_eq_d c).1 hd.2.2⟩
    rw [← hv]
  · rintro ⟨a, b, c, hv, ha, hb, hc⟩
    subst hv
    simp only [List.map, (lowerChar_eq_s a).2 ha, (lowerChar_eq_s b).2 hb,
      (lowerChar_eq_d c).2 hc]

theorem storage_total (blocks : List storage) :
    storageSsdTotal blocks + storageHddTotal blocks = (blocks.map (fun s => s.SizeGb)).sum := by
  induction blocks with
  | nil => simp [storageSsdTotal, storageHddTotal]
  | cons s l ih =>
    unfold storageSsdTotal storageHddTotal at ih ⊢
    cases hs : s.IsSSD <;> simp [List.filter, hs] <;> linarith

theorem storageFold_eq (env : Env) (storages : List TaggedBlock) (acc : ℚ × ℚ) :
    storages.foldlM
      (fun acc storageI => do
        let storage ← getStorage env storageI
        let size := storage.SizeGb
        if storage.IsSSD then pure (acc.1 + size, acc.2) else pure (acc.1, acc.2 + size))
      acc =
    (do let blocks ← mapE (getStorage env) storages
        pure (acc.1 + storageSsdTotal blocks, acc.2 + storageHddTotal blocks)) := by
  induction storages generalizing acc with
  | nil => simp [mapE, storageSsdTotal, storageHddTotal, pure, Except.pure, bind, Except.bind]
  | cons a l ih =>
    simp only [List.foldlM_cons, mapE]
    cases hfa : getStorage env a with
    | error e => simp [bind, Except.bind]
    | ok b =>
      simp only [bind, Except.bind, pure, Except.pure] at ih ⊢
      cases hb : b.IsSSD
      · simp only [Bool.false_eq_true, if_false]
        rw [ih]
        cases mapE (getStorage env) l with
        | error e => rfl
        | ok bs =>
          simp only [storageSsdTotal, storageHddTotal, List.filter, hb, Bool.not_false,
            List.map, List.sum_cons, add_assoc]
      · simp only [if_true]
        rw [ih]
        cases mapE (getStorage env) l with
        | error e => rfl
        | ok bs =>
          simp only [storageSsdTotal, storageHddTotal, List.filter, hb, Bool.not_true,
            List.map, List.sum_cons, add_assoc]

theorem storageSection_eq (env : Env) (storages : List TaggedBlock) :
    storageSection env storages =
      (do let blocks ← mapE (getStorage env) storages
          pure (storageSsdTotal blocks, storageHddTotal blocks)) := by
  unfold storageSection
  rw [storageFold_eq]
  cases mapE (getStorage env) storages with
  | error e => rfl
  | ok bs => simp [bind, Except.bind, pure, Except.pure]

theorem getStorage_typed (env : Env) (storageMap : TaggedBlock) (size : valueWithUnit) (s : ℚ)
    (t : Option valueWithUnit)
    (hsize : storageMap.lookup "size" = some (some size))
    (hs : env.NewFromString size.Value = .ok s)
    (ht : storageMap.lookup "type" = some t) :
    getStorage env storageMap =
      (do let isSSD ←
            match t with
            | some storageType => do
              let storageTypeValue ← asString storageType.Value
              pure (if ToLower storageTypeValue = "ssd" then true else false)
            | none => pure false
          pure { SizeGb := storageToGb s size.Unit, IsSSD := isSSD }) := by
  unfold getStorage
  cases t with
  | none => simp only [hsize, hs, ht, bind, Except.bind, pure, Except.pure]
  | some t =>
    simp only [hsize, hs, ht, bind, Except.bind, pure, Except.pure]

/-- Claim C20.  A storage block of the generic extractor with a readable size
is classified SSD exactly when its type is present and is a string whose lower
case is `ssd`, that is one of the eight spellings of `ssd` in upper and lower
case letters, and HDD otherwise, also when the type is a nil pointer; its size
is the normalised size.  In a resource appended by `getComputeResource`,
`SsdStorage` is the sum of the sizes of the blocks classified SSD and
`HddStorage` the sum of the sizes of the other blocks of the `storage` slice,
and their total is the sum of the sizes of all the blocks. -/
theorem getStorage_classification (env : Env) :
    (∀ storageMap size s, storageMap.lookup "size" = some (some size) →
      env.NewFromString size.Value = .ok s →
      (storageMap.lookup "type" = some none →
        getStorage env storageMap =
          .ok { SizeGb := storageToGb s size.Unit, IsSSD := false }) ∧
      (∀ t v, storageMap.lookup "type" = some (some t) → t.Value = .str v →
        getStorage env storageMap =
          .ok { SizeGb := storageToGb s size.Unit
                IsSSD := if ToLower v = "ssd" then true else false })) ∧
    (∀ v, ToLower v = "ssd" ↔
      ∃ a b c, v = String.mk [a, b, c] ∧ (a = 's' ∨ a = 'S') ∧ (b = 's' ∨ b = 'S') ∧
        (c = 'd' ∨ c = 'D')) ∧
    (∀ resourceI mapping resourcesResult out,
      getComputeResource env resourceI mapping resourcesResult = .ok (some out) →
      ∃ context storages blocks id specs,
        buildContext env resourceI mapping = .ok (some context) ∧
        env.getSlice "storage" context = .ok storages ∧
        mapE (getStorage env) storages = .ok blocks ∧
        out = resourcesResult ++ [Resource.ComputeResource id specs] ∧
        specs.SsdStorage = storageSsdTotal blocks ∧
        specs.HddStorage = storageHddTotal blocks ∧
        specs.SsdStorage + specs.HddStorage = (blocks.map (fun s => s.SizeGb)).sum) := by
  refine ⟨?_, ToLower_eq_ssd, ?_⟩
  · intro storageMap size s hsize hs
    refine ⟨?_, ?_⟩
    · intro ht
      rw [getStorage_typed env storageMap size s none hsize hs ht]
      rfl
    · intro t v ht hv
      rw [getStorage_typed env storageMap size s (some t) hsize hs ht]
      simp only [hv, asString, bind, Except.bind, pure, Except.pure]
  · intro resourceI mapping resourcesResult out h
    obtain ⟨context, _, _, _, _, _, _, storages, id, specs, sizes, hc, _, _, _, _, _, _,
      _, _, _, _, _, _, hsl, hS, h1, h2, _, ho⟩ := getComputeResource_ok _ _ _ _ _ h
    rw [storageSection_eq] at hS
    cases hm : mapE (getStorage env) storages with
    | error e =>
      rw [hm] at hS
      simp [bind, Except.bind] at hS
    | ok blocks =>
      rw [hm] at hS
      simp only [bind, Except.bind, pure, Except.pure, Except.ok.injEq] at hS
      have e1 : specs.SsdStorage = storageSsdTotal blocks := by rw [h1, ← hS]
      have e2 : specs.HddStorage = storageHddTotal blocks := by rw [h2, ← hS]
      refine ⟨context, storages, blocks, id, specs, hc, hsl, hm, ho, e1, e2, ?_⟩
      rw [e1, e2]
      exact storage_total blocks

/-- Witness of claim C20: a block of 100 GB of type `SSD` is classified SSD,
and a resource with the blocks 100 GB `SSD`, 200 GB `hdd`, 50 GB without type
and 30 GB `Ssd` has 130 GB of SSD storage and 250 GB of HDD storage. -/
theorem getStorage_classification_witness :
    getStorage exampleEnv (exampleTypedStorage 100 "SSD") =
      .ok { SizeGb := storageToGb 100 (some "gb")
            IsSSD := if ToLower "SSD" = "ssd" then true else false } ∧
    getStorage exampleEnv (exampleTypedStorage 100 "SSD") =
      .ok { SizeGb := 100, IsSSD := true } ∧
    getComputeResource (sliceEnv "storage"
        [exampleTypedStorage 100 "SSD", exampleTypedStorage 200 "hdd",
         exampleStorage 50 "gb", exampleTypedStorage 30 "Ssd"])
        exampleMapped exampleMapping [] =
      .ok (some [Resource.ComputeResource (exampleGenericId 1)
        { exampleGenericSpecs 1 with SsdStorage := 130, HddStorage := 250 }]) :=
  ⟨(((getStorage_classification exampleEnv).1 (exampleTypedStorage 100 "SSD")
      { Value := .num 100, Unit := some "gb" } 100 rfl rfl).2
      { Value := .str "SSD", Unit := none } "SSD" rfl rfl), by decide!, by decide!⟩

theorem intSection_noValue (env : Env) (value : Option valueWithUnit) (convert : Int → Int)
    (dflt : Int) (h : noValue value = true) : intSection env value convert dflt = .ok dflt := by
  unfold intSection
  cases value with
  | none => rfl
  | some w =>
    simp only [noValue, Bool.not_eq_true'] at h
    simp [h, pure, Except.pure]

theorem memorySection_noValue (env : Env) (memory : Option valueWithUnit)
    (h : noValue memory = true) : memorySection env memory = .ok 0 := by
  unfold memorySection
  cases memory with
  | none => rfl
  | some w =>
    simp only [noValue, Bool.not_eq_true'] at h
    simp [h, pure, Except.pure]

/-- Claim C21.  For a mapped resource whose name, region and type resolve and
for which `vCPUs`, `memory`, `replication_factor` and `count` resolve to no
value, `cpu_platform` to no string and `guest_accelerator` and `storage` to
no block, `getComputeResource` appends the Compute Resource with the resolved
identification, the provider GCP and the count 1, and the spec with vCPUs 0,
memory 0, no GPU, an empty CPU type, SSD and HDD storage 0 and the replication
factor 1. -/
theorem getComputeResource_defaults (env : Env) (resourceI : Json) (mapping : ResourceMapping)
    (resourcesResult : List Resource) (context : tfContext)
    (name region resourceType indexed : String)
    (vcpus memory replicationFactor count : Option valueWithUnit)
    (hctx : buildContext env resourceI mapping = .ok (some context))
    (hname : env.getString "name" context = .ok (some name))
    (hregion : env.getString "region" context = .ok (some region))
    (htype : env.getString "type" context = .ok (some resourceType))
    (hindex : indexedName context.Resource name = .ok indexed)
    (hvcpus : env.getValue "vCPUs" context = .ok vcpus) (hv : noValue vcpus = true)
    (hmemory : env.getValue "memory" context = .ok memory) (hm : noValue memory = true)
    (hgpus : env.getSlice "guest_accelerator" context = .ok [])
    (hcpu : env.getString "cpu_platform" context = .ok none)
    (hrf : env.getValue "replication_factor" context = .ok replicationFactor)
    (hr : noValue replicationFactor = true)
    (hcount : env.getValue "count" context = .ok count) (hc : noValue count = true)
    (hstorage : env.getSlice "storage" context = .ok []) :
    getComputeResource env resourceI mapping resourcesResult =
      .ok (some (resourcesResult ++ [Resource.ComputeResource
        { Name := indexed
          ResourceType := resourceType
          Provider := Provider.GCP
          Region := region
          SelfLink := ""
          Count := 1 }
        { GpuTypes := []
          VCPUs := 0
          MemoryMb := 0
          CPUType := ""
          SsdStorage := 0
          HddStorage := 0
          ReplicationFactor := 1 }])) := by
  unfold getComputeResource
  simp only [hctx, hname, hregion, htype, hindex, hvcpus, hmemory, hgpus, hcpu, hrf, hcount,
    hstorage, intSection_noValue env vcpus wrap32 0 hv, memorySection_noValue env memory hm,
    intSection_noValue env replicationFactor wrap32 1 hr,
    intSection_noValue env count wrap64 1 hc, storageSection, deref, List.foldlM_nil,
    bind, Except.bind, pure, Except.pure]

/-- Witness of claim C21: the planned resource `exampleMapped`, of which the
example environment maps the name, the region and the type only. -/
theorem getComputeResource_defaults_witness :
    getComputeResource exampleEnv exampleMapped exampleMapping [] =
      .ok (some ([] ++ [Resource.ComputeResource
        { Name := "vm"
          ResourceType := "google_compute_instance"
          Provider := Provider.GCP
          Region := "europe-west9"
          SelfLink := ""
          Count := 1 }
        { GpuTypes := []
          VCPUs := 0
          MemoryMb := 0
          CPUType := ""
          SsdStorage := 0
          HddStorage := 0
          ReplicationFactor := 1 }])) :=
  getComputeResource_defaults exampleEnv exampleMapped exampleMapping [] exampleContext
    "vm" "europe-west9" "google_compute_instance" "vm" none none none none
    rfl rfl rfl rfl rfl rfl rfl rfl rfl rfl rfl rfl rfl rfl rfl rfl

theorem lookup_mapSet {β : Type} (m : List (String × β)) (k a : String) (v : β) :
    (mapSet m k v).lookup a = if k = a then some v else m.lookup a := by
  by_cases h : k = a
  · subst h
    simp [mapSet_lookup_self]
  · simp only [h, if_false]
    exact mapSet_lookup_ne m k a v (fun h' => h h'.symm)

theorem lookup_foldl_mapSet (env : Env) (a : String) (resources : List Resource)
    (m : List (String × Resource)) :
    (resources.foldl (fun m r => mapSet m (env.GetAddress r) r) m).lookup a =
      lastStored env a (m.lookup a) resources := by
  unfold lastStored
  induction resources generalizing m with
  | nil => rfl
  | cons r l ih =>
    simp only [List.foldl_cons]
    rw [ih, lookup_mapSet]

theorem lastStored_untouched (env : Env) (a : String) (init : Option Resource)
    (resources : List Resource) (h : ∀ r ∈ resources, env.GetAddress r ≠ a) :
    lastStored env a init resources = init := by
  unfold lastStored
  induction resources generalizing init with
  | nil => rfl
  | cons r l ih =>
    simp only [List.foldl_cons, h r (List.mem_cons_self _ _), if_false]
    exact ih init (fun r' hr' => h r' (List.mem_cons_of_mem _ hr'))

theorem lastStored_touched (env : Env) (a : String) (init init' : Option Resource)
    (resources : List Resource) (h : ∃ r ∈ resources, env.GetAddress r = a) :
    lastStored env a init resources = lastStored env a init' resources := by
  unfold lastStored
  induction resources generalizing init init' with
  | nil =>
    obtain ⟨r, hr, _⟩ := h
    cases hr
  | cons r l ih =>
    simp only [List.foldl_cons]
    by_cases hr : env.GetAddress r = a
    · simp only [hr, if_true]
    · simp only [hr, if_false]
      apply ih
      obtain ⟨r', hr', ha⟩ := h
      rcases List.mem_cons.1 hr' with h1 | h1
      · subst h1
        exact absurd ha hr
      · exact ⟨r', h1, ha⟩

theorem storedBy_comm (env : Env) (plan : Json) (a : String) (init : Option Resource)
    (x y : String × ResourceMapping)
    (h : x = y ∨ DisjointAddresses env plan x y) :
    storedBy env plan a (storedBy env plan a init x) y =
      storedBy env plan a (storedBy env plan a init y) x := by
  rcases h with h | h
  · subst h
    rfl
  · unfold storedBy
    cases hx : getResourcesOfType env plan x.2 with
    | error e => cases hy : getResourcesOfType env plan y.2 <;> simp
    | ok rx =>
      cases hy : getResourcesOfType env plan y.2 with
      | error e => simp
      | ok ry =>
        simp only
        by_cases hxa : ∃ r ∈ rx, env.GetAddress r = a
        · have hya : ∀ r ∈ ry, env.GetAddress r ≠ a := by
            intro r hr hra
            obtain ⟨r', hr', hra'⟩ := hxa
            exact h rx ry hx hy r' hr' r hr (hra'.trans hra.symm)
          rw [lastStored_untouched env a _ ry hya, lastStored_untouched env a _ ry hya]
        · have hxa' : ∀ r ∈ rx, env.GetAddress r ≠ a := fun r hr hra => hxa ⟨r, hr, hra⟩
          rw [lastStored_untouched env a _ rx hxa', lastStored_untouched env a _ rx hxa']

theorem mappingFold_ok (env : Env) (plan : Json) (mapping : List (String × ResourceMapping))
    (m₀ m : List (String × Resource))
    (h : mapping.foldlM
      (fun resourcesMap entry => do
        let resources ← getResourcesOfType env plan entry.2
        pure (resources.foldl
          (fun resourcesMap resource => mapSet resourcesMap (env.GetAddress resource) resource)
          resourcesMap))
      m₀ = .ok m) :
    (∀ e ∈ mapping, ∃ rs, getResourcesOfType env plan e.2 = .ok rs) ∧
    ∀ a, m.lookup a = mapping.foldl (storedBy env plan a) (m₀.lookup a) := by
  induction mapping generalizing m₀ with
  | nil =>
    simp only [List.foldlM_nil, pure, Except.pure, Except.ok.injEq] at h
    subst h
    exact ⟨fun e he => absurd he (List.not_mem_nil e), fun a => rfl⟩
  | cons e l ih =>
    simp only [List.foldlM_cons] at h
    cases he : getResourcesOfType env plan e.2 with
    | error f =>
      rw [he] at h
      simp [bind, Except.bind] at h
    | ok rs =>
      rw [he] at h
      simp only [bind, Except.bind, pure, Except.pure] at h
      obtain ⟨h1, h2⟩ := ih _ h
      refine ⟨?_, ?_⟩
      · intro e' he'
        rcases List.mem_cons.1 he' with h3 | h3
        · subst h3
          exact ⟨rs, he⟩
        · exact h1 e' h3
      · intro a
        rw [h2 a, List.foldl_cons, lookup_foldl_mapSet]
        simp only [storedBy, he]

theorem mappingFold_of_ok (env : Env) (plan : Json) (mapping : List (String × ResourceMapping))
    (m₀ : List (String × Resource))
    (h : ∀ e ∈ mapping, ∃ rs, getResourcesOfType env plan e.2 = .ok rs) :
    ∃ m, mapping.foldlM
      (fun resourcesMap entry => do
        let resources ← getResourcesOfType env plan entry.2
        pure (resources.foldl
          (fun resourcesMap resource => mapSet resourcesMap (env.GetAddress resource) resource)
          resourcesMap))
      m₀ = .ok m := by
  induction mapping generalizing m₀ with
  | nil => exact ⟨m₀, rfl⟩
  | cons e l ih =>
    obtain ⟨rs, he⟩ := h e (List.mem_cons_self _ _)
    simp only [List.foldlM_cons, he, bind, Except.bind, pure, Except.pure]
    exact ih _ (fun e' he' => h e' (List.mem_cons_of_mem _ he'))

theorem mappingPass_perm (env : Env) (plan : Json)
    (mapping mapping' : List (String × ResourceMapping)) (mapped : List (String × Resource))
    (h : mappingPass env plan mapping = .ok mapped) (hperm : mapping'.Perm mapping)
    (hdisj : mapping.Pairwise (DisjointAddresses env plan)) :
    ∃ mapped', mappingPass env plan mapping' = .ok mapped' ∧
      ∀ a, mapped'.lookup a = mapped.lookup a := by
  unfold mappingPass at h ⊢
  obtain ⟨hok, hl⟩ := mappingFold_ok env plan mapping [] mapped h
  obtain ⟨mapped', h'⟩ := mappingFold_of_ok env plan mapping' []
    (fun e he => hok e (hperm.subset he))
  refine ⟨mapped', h', fun a => ?_⟩
  rw [(mappingFold_ok env plan mapping' [] mapped' h').2 a, hl a]
  apply List.Perm.foldl_eq' hperm
  intro x hx y hy z
  apply storedBy_comm
  by_cases hxy : x = y
  · exact Or.inl hxy
  · right
    have hsymm : Symmetric (DisjointAddresses env plan) := by
      intro e₁ e₂ h12 rs₁ rs₂ h1 h2 r₁ hr₁ r₂ hr₂ heq
      exact h12 rs₂ rs₁ h2 h1 r₂ hr₂ r₁ hr₁ heq.symm
    exact hdisj.forall hsymm (hperm.subset hx) (hperm.subset hy) hxy


theorem mappingPass_getMapping (env : Env) (x : Except Fault (List (String × ResourceMapping)))
    (plan : Json) (l : List (String × ResourceMapping)) :
    mappingPass { env with getMapping := x } plan l = mappingPass env plan l := rfl

theorem checkIgnoredLoop_getMapping (env : Env)
    (x : Except Fault (List (String × ResourceMapping))) (resourceType : String)
    (l : List String) :
    checkIgnoredLoop { env with getMapping := x } resourceType l =
      checkIgnoredLoop env resourceType l := by
  induction l with
  | nil => rfl
  | cons a l ih =>
    unfold checkIgnoredLoop
    rw [ih]

theorem checkIgnoredResource_getMapping (env : Env)
    (x : Except Fault (List (String × ResourceMapping))) (resourceType : String)
    (provider : Provider) :
    checkIgnoredResource { env with getMapping := x } resourceType provider =
      checkIgnoredResource env resourceType provider := by
  unfold checkIgnoredResource
  simp only [checkIgnoredLoop_getMapping]

theorem unmappedStep_getMapping (env : Env)
    (x : Except Fault (List (String × ResourceMapping))) (m : List (String × Resource))
    (r : Json) :
    unmappedStep { env with getMapping := x } m r = unmappedStep env m r := by
  unfold unmappedStep
  simp only [checkIgnoredResource_getMapping]
  rfl

theorem unmappedPass_getMapping (env : Env) (x : Except Fault (List (String × ResourceMapping)))
    (m : List (String × Resource)) (l : List Json) :
    unmappedPass { env with getMapping := x } m l = unmappedPass env m l := by
  unfold unmappedPass
  induction l generalizing m with
  | nil => rfl
  | cons a l ih =>
    simp only [List.foldlM_cons, unmappedStep_getMapping]
    cases unmappedStep env m a with
    | error e => rfl
    | ok m1 => exact ih m1


theorem unmappedStep_congr (env : Env) (m m' m₁ : List (String × Resource)) (r : Json)
    (heq : ∀ a, m'.lookup a = m.lookup a) (h : unmappedStep env m r = .ok m₁) :
    ∃ m₁', unmappedStep env m' r = .ok m₁' ∧ ∀ a, m₁'.lookup a = m₁.lookup a := by
  unfold unmappedStep at h ⊢
  cases hr : asObject r with
  | error e => rw [hr] at h; simp [bind, Except.bind] at h
  | ok resource =>
    rw [hr] at h
    simp only [bind, Except.bind] at h ⊢
    cases ha : stringField resource "address" with
    | error e => rw [ha] at h; simp at h
    | ok a =>
      rw [ha] at h
      simp only at h ⊢
      cases hp : stringField resource "provider_name" with
      | error e => rw [hp] at h; simp at h
      | ok pn =>
        rw [hp] at h
        simp only at h ⊢
        cases hpp : parseProvider env pn with
        | error f =>
          rw [hpp] at h
          cases f <;> simp only [pure, Except.pure, throw, throwThe, MonadExceptOf.throw,
            Except.ok.injEq, reduceCtorEq] at h ⊢
          subst h
          exact ⟨m', rfl, heq⟩
        | ok provider =>
          rw [hpp] at h
          simp only at h ⊢
          rw [heq a]
          cases hl : m.lookup a with
          | some v =>
            rw [hl] at h
            simp only [pure, Except.pure, Except.ok.injEq] at h ⊢
            subst h
            exact ⟨m', rfl, heq⟩
          | none =>
            rw [hl] at h
            simp only at h ⊢
            cases ht : stringField resource "type" with
            | error e => rw [ht] at h; simp at h
            | ok t =>
              rw [ht] at h
              simp only at h ⊢
              cases hi : checkIgnoredResource env t provider with
              | error e => rw [hi] at h; simp at h
              | ok ignored =>
                rw [hi] at h
                simp only at h ⊢
                cases ignored with
                | true =>
                  simp only [if_true, pure, Except.pure, Except.ok.injEq] at h ⊢
                  subst h
                  exact ⟨m', rfl, heq⟩
                | false =>
                  simp only [Bool.false_eq_true, if_false] at h ⊢
                  cases hn : stringField resource "name" with
                  | error e => rw [hn] at h; simp at h
                  | ok n =>
                    rw [hn] at h
                    simp only [pure, Except.pure, Except.ok.injEq] at h ⊢
                    subst h
                    refine ⟨_, rfl, fun a' => ?_⟩
                    rw [lookup_mapSet, lookup_mapSet, heq a']

theorem unmappedPass_congr (env : Env) (planned : List Json) (m m' m₁ : List (String × Resource))
    (heq : ∀ a, m'.lookup a = m.lookup a) (h : unmappedPass env m planned = .ok m₁) :
    ∃ m₁', unmappedPass env m' planned = .ok m₁' ∧ ∀ a, m₁'.lookup a = m₁.lookup a := by
  unfold unmappedPass at h ⊢
  induction planned generalizing m m' with
  | nil =>
    simp only [List.foldlM_nil, pure, Except.pure, Except.ok.injEq] at h ⊢
    subst h
    exact ⟨m', rfl, heq⟩
  | cons r l ih =>
    simp only [List.foldlM_cons, bind, Except.bind] at h ⊢
    cases hs : unmappedStep env m r with
    | error e => rw [hs] at h; simp at h
    | ok m₂ =>
      rw [hs] at h
      obtain ⟨m₂', hs', heq'⟩ := unmappedStep_congr env m m' m₂ r heq hs
      rw [hs']
      exact ih m₂ m₂' heq' h

theorem GetResources_ok (env : Env) (plan : Json) (m : List (String × Resource))
    (h : GetResources env plan = .ok m) :
    ∃ planned rest mapping mapped,
      env.GetJSON ".planned_values.root_module.resources" plan = .ok (.arr planned :: rest) ∧
      env.getMapping = .ok mapping ∧ mappingPass env plan mapping = .ok mapped ∧
      unmappedPass env mapped planned = .ok m := by
  unfold GetResources at h
  cases hj : env.GetJSON ".planned_values.root_module.resources" plan with
  | error e => rw [hj] at h; simp [bind, Except.bind] at h
  | ok found =>
    rw [hj] at h
    simp only [bind, Except.bind] at h
    rcases found with _ | ⟨first, rest⟩
    · simp [throw, throwThe, MonadExceptOf.throw] at h
    · cases first <;> simp only [throw, throwThe, MonadExceptOf.throw, pure, Except.pure,
        reduceCtorEq] at h
      rename_i planned
      cases hm : env.getMapping with
      | error e => rw [hm] at h; simp at h
      | ok mapping =>
        rw [hm] at h
        simp only at h
        cases hp : mappingPass env plan mapping with
        | error e => rw [hp] at h; simp at h
        | ok mapped =>
          rw [hp] at h
          exact ⟨planned, rest, mapping, mapped, rfl, rfl, hp, h⟩

/-- Claim C22, as amended.  Let `GetResources` build the map `m` from a plan
with a mapping whose resource types are enumerated in the order `mapping`, no
two entries of the mapping yielding resources of the same address.  With the
same plan and any other enumeration order `mapping'` of the same entries,
`GetResources` builds a map that is equal to `m` address by address. -/
theorem GetResources_enumeration_order (env : Env) (plan : Json)
    (mapping mapping' : List (String × ResourceMapping)) (m : List (String × Resource))
    (hmap : env.getMapping = .ok mapping) (hperm : mapping'.Perm mapping)
    (hdisj : mapping.Pairwise (DisjointAddresses env plan))
    (h : GetResources env plan = .ok m) :
    ∃ m', GetResources { env with getMapping := .ok mapping' } plan = .ok m' ∧
      ∀ a, m'.lookup a = m.lookup a := by
  obtain ⟨planned, rest, mapping₀, mapped, hplan, hmap₀, hpass, hun⟩ := GetResources_ok env plan m h
  rw [hmap] at hmap₀
  cases hmap₀
  obtain ⟨mapped', hpass', heq⟩ := mappingPass_perm env plan mapping mapping' mapped hpass hperm hdisj
  obtain ⟨m', hun', heq'⟩ := unmappedPass_congr env planned mapped mapped' m heq hun
  refine ⟨m', ?_, heq'⟩
  rw [GetResources_eq { env with getMapping := .ok mapping' } plan planned rest mapping' mapped'
    hplan rfl (by rw [mappingPass_getMapping]; exact hpass'), unmappedPass_getMapping]
  exact hun'

/-- Witness of claim C22: a mapping with an entry for the virtual machines
and an entry for the disks, enumerated in the two possible orders, on a plan
with a virtual machine, a disk and a bucket. -/
theorem GetResources_enumeration_order_witness :
    ∃ m', GetResources
        { mappingEnv [exampleEntry "instance" "google_compute_instance" 2,
            exampleEntry "disk" "google_compute_disk" 0] with
          getMapping := .ok [exampleEntry "disk" "google_compute_disk" 0,
            exampleEntry "instance" "google_compute_instance" 2] }
        exampleMappedPlan = .ok m' ∧
      ∀ a, m'.lookup a =
        [("google_compute_instance.vm", exampleExtracted "google_compute_instance" "vm" 2),
         ("google_compute_disk.d", exampleExtracted "google_compute_disk" "d" 0),
         ("google_storage_bucket.b", unsupported "b" "google_storage_bucket")].lookup a :=
  GetResources_enumeration_order
    (mappingEnv [exampleEntry "instance" "google_compute_instance" 2,
      exampleEntry "disk" "google_compute_disk" 0])
    exampleMappedPlan
    [exampleEntry "instance" "google_compute_instance" 2,
      exampleEntry "disk" "google_compute_disk" 0]
    [exampleEntry "disk" "google_compute_disk" 0,
      exampleEntry "instance" "google_compute_instance" 2]
    [("google_compute_instance.vm", exampleExtracted "google_compute_instance" "vm" 2),
     ("google_compute_disk.d", exampleExtracted "google_compute_disk" "d" 0),
     ("google_storage_bucket.b", unsupported "b" "google_storage_bucket")]
    rfl (List.Perm.swap _ _ _)
    (by
      refine List.Pairwise.cons ?_ (List.Pairwise.cons (fun e he => absurd he (List.not_mem_nil e))
        List.Pairwise.nil)
      intro e he rs₁ rs₂ h₁ h₂ r₁ hr₁ r₂ hr₂
      rw [List.mem_singleton] at he
      subst he
      have e₁ : getResourcesOfType
          (mappingEnv [exampleEntry "instance" "google_compute_instance" 2,
            exampleEntry "disk" "google_compute_disk" 0]) exampleMappedPlan
          (exampleEntry "instance" "google_compute_instance" 2).2 =
          .ok [exampleExtracted "google_compute_instance" "vm" 2] := by decide!
      have e₂ : getResourcesOfType
          (mappingEnv [exampleEntry "instance" "google_compute_instance" 2,
            exampleEntry "disk" "google_compute_disk" 0]) exampleMappedPlan
          (exampleEntry "disk" "google_compute_disk" 0).2 =
          .ok [exampleExtracted "google_compute_disk" "d" 0] := by decide!
      rw [e₁] at h₁
      rw [e₂] at h₂
      cases h₁
      cases h₂
      rw [List.mem_singleton] at hr₁ hr₂
      subst hr₁ hr₂
      decide)
    (by decide!)

/-- Counterexample to claim C22 as stated: the two entries of the mapping
select the same virtual machine and map 2 and 4 vCPUs; the resource stored
under its address is the one of the entry enumerated last, so the two
enumeration orders give maps that differ at this address. -/
theorem GetResources_overlapping_types :
    [exampleEntry "large" "google_compute_instance" 4,
      exampleEntry "small" "google_compute_instance" 2].Perm
      [exampleEntry "small" "google_compute_instance" 2,
        exampleEntry "large" "google_compute_instance" 4] ∧
    GetResources
        (mappingEnv [exampleEntry "small" "google_compute_instance" 2,
          exampleEntry "large" "google_compute_instance" 4])
        exampleMappedPlan =
      .ok [("google_compute_instance.vm", exampleExtracted "google_compute_instance" "vm" 4),
           ("google_compute_disk.d", unsupported "d" "google_compute_disk"),
           ("google_storage_bucket.b", unsupported "b" "google_storage_bucket")] ∧
    GetResources
        (mappingEnv [exampleEntry "large" "google_compute_instance" 4,
          exampleEntry "small" "google_compute_instance" 2])
        exampleMappedPlan =
      .ok [("google_compute_instance.vm", exampleExtracted "google_compute_instance" "vm" 2),
           ("google_compute_disk.d", unsupported "d" "google_compute_disk"),
           ("google_storage_bucket.b", unsupported "b" "google_storage_bucket")] ∧
    exampleExtracted "google_compute_instance" "vm" 4 ≠
      exampleExtracted "google_compute_instance" "vm" 2 :=
  ⟨List.Perm.swap _ _ _, by decide!, by decide!, by decide⟩

theorem wrap32_mul_wrap32 (v k : Int) : wrap32 (wrap32 v * k) = wrap32 (v * k) := by
  unfold wrap32
  have h : ((v + 2147483648) % 4294967296 - 2147483648) * k = v * k +
      (-((v + 2147483648) / 4294967296) * k) * 4294967296 := by
    have := Int.emod_add_ediv (v + 2147483648) 4294967296
    linear_combination k * this
  rw [h]
  have h2 : v * k + -((v + 2147483648) / 4294967296) * k * 4294967296 + 2147483648 =
      (v * k + 2147483648) + (-((v + 2147483648) / 4294967296) * k) * 4294967296 := by ring
  rw [h2, Int.add_mul_emod_self]

theorem memoryToMb_factor (v k : Int) (unit : String) (hk : memoryFactor unit = some k)
    (hf : fits32 (v * k)) : memoryToMb (wrap32 v) unit = .ok (v * k) := by
  unfold memoryFactor at hk
  unfold memoryToMb
  split_ifs at hk with h1 h2 h3 h4 <;> simp only [Option.some.injEq] at hk <;> subst hk
  · subst h1
    rw [if_pos rfl]
    simp only [pure, Except.pure]
    rw [wrap32_mul_wrap32, wrap32_of_fits32 hf]
  · subst h2
    rw [if_neg (by decide), if_pos rfl]
    simp only [pure, Except.pure]
    rw [wrap32_mul_wrap32, wrap32_of_fits32 hf]
  · subst h3
    rw [if_neg (by decide), if_neg (by decide), if_pos rfl]
    simp only [pure, Except.pure]
    rw [wrap32_mul_wrap32, wrap32_of_fits32 hf]
  · subst h4
    rw [if_neg (by decide), if_neg (by decide), if_neg (by decide), if_pos rfl]
    simp only [pure, Except.pure]
    rw [mul_one] at hf ⊢
    rw [wrap32_of_fits32 hf]

theorem memoryFactor_pos (unit : String) (k : Int) (hk : memoryFactor unit = some k) :
    0 < k := by
  unfold memoryFactor at hk
  split_ifs at hk <;> simp only [Option.some.injEq, reduceCtorEq] at hk <;> omega

/-- Claim C23, as amended.  In the section "Add memory" of
`getComputeResource`, a memory of integer value `a` in one of the units `mb`,
`gb`, `tb` and `pb` (compared in lower case) gives `MemoryMb = a·k` for the
factor `k` of the unit (1, 1024, 1024², 1024³), provided the product fits in a
signed 32-bit integer.  On such values the conversion is additive and
injective, and the result for `a` in `gb`, read back in `kb`, is `a`.  For the
units `kb` and `b` the conversion is the integer division by 1024 and 1024²,
truncated toward zero. -/
theorem memorySection_linear (env : Env) (unit : String) (k a b : Int) (va vb vs : Json)
    (hk : memoryFactor (ToLower unit) = some k)
    (hna : va.notNil = true) (ha : env.ParseToInt va = .ok a)
    (hnb : vb.notNil = true) (hb : env.ParseToInt vb = .ok b)
    (hns : vs.notNil = true) (hs : env.ParseToInt vs = .ok (a + b))
    (hfa : fits32 (a * k)) (hfb : fits32 (b * k)) (hfs : fits32 ((a + b) * k)) :
    memorySection env (some { Value := va, Unit := some unit }) = .ok (a * k) ∧
    memorySection env (some { Value := vb, Unit := some unit }) = .ok (b * k) ∧
    memorySection env (some { Value := vs, Unit := some unit }) = .ok (a * k + b * k) ∧
    (memorySection env (some { Value := va, Unit := some unit }) =
      memorySection env (some { Value := vb, Unit := some unit }) → a = b) ∧
    (∀ vr, vr.notNil = true → env.ParseToInt vr = .ok (a * 1024) → fits32 (a * 1024) →
      memorySection env (some { Value := va, Unit := some "gb" }) = .ok (a * 1024) ∧
      memorySection env (some { Value := vr, Unit := some "kb" }) = .ok a) ∧
    (fits32 a →
      memorySection env (some { Value := va, Unit := some "kb" }) = .ok (a.tdiv 1024) ∧
      memorySection env (some { Value := va, Unit := some "b" }) =
        .ok (a.tdiv (1024 * 1024))) := by
  have e1 := memorySection_some env va unit a hna ha
  have e2 := memorySection_some env vb unit b hnb hb
  have e3 := memorySection_some env vs unit (a + b) hns hs
  rw [memoryToMb_factor a k _ hk hfa] at e1
  rw [memoryToMb_factor b k _ hk hfb] at e2
  rw [memoryToMb_factor (a + b) k _ hk hfs, add_mul] at e3
  have hpos := memoryFactor_pos _ k hk
  refine ⟨e1, e2, e3, ?_, ?_, ?_⟩
  · intro h
    rw [e1, e2] at h
    simp only [Except.ok.injEq] at h
    exact Int.eq_of_mul_eq_mul_right (by omega) h
  · intro vr hnr hr hf
    refine ⟨?_, ?_⟩
    · rw [memorySection_some env va "gb" a hna ha]
      exact memoryToMb_factor a 1024 _ (by decide) hf
    · rw [memorySection_some env vr "kb" (a * 1024) hnr hr, wrap32_of_fits32 hf]
      have hl : ToLower "kb" = "kb" := by decide
      rw [hl]
      simp only [memoryToMb, pure, Except.pure]
      simp
  · intro hf
    refine ⟨?_, ?_⟩
    · rw [memorySection_some env va "kb" a hna ha, wrap32_of_fits32 hf]
      have hl : ToLower "kb" = "kb" := by decide
      rw [hl]
      rfl
    · rw [memorySection_some env va "b" a hna ha, wrap32_of_fits32 hf]
      have hl : ToLower "b" = "b" := by decide
      rw [hl]
      rfl

/-- Witness of claim C23: the memories 2, 3 and 5 in `GB`. -/
theorem memorySection_linear_witness :
    memorySection exampleEnv (some { Value := .num 2, Unit := some "GB" }) = .ok (2 * 1024) ∧
    memorySection exampleEnv (some { Value := .num 3, Unit := some "GB" }) = .ok (3 * 1024) ∧
    memorySection exampleEnv (some { Value := .num 5, Unit := some "GB" }) =
      .ok (2 * 1024 + 3 * 1024) :=
  have h := memorySection_linear exampleEnv "GB" 1024 2 3 (.num 2) (.num 3) (.num 5)
    (by decide) rfl (by decide!) rfl (by decide!) rfl (by decide!)
    (by unfold fits32; decide) (by unfold fits32; decide) (by unfold fits32; decide)
  ⟨h.1, h.2.1, h.2.2.1⟩

/-- Counterexample to claim C23 as stated: in the unit `kb` the memories 1 and
2 both give `MemoryMb = 0`, so the conversion is not injective, and the
memories 512 and 1024 give 0 and 1, so the result for 512 + 512 is not the sum
of the results for 512 and 512. -/
theorem getComputeResource_memory_not_linear :
    getComputeResource (memoryEnv 1 "kb") exampleMapped exampleMapping [] =
      .ok (some [exampleMappedResource 0]) ∧
    getComputeResource (memoryEnv 2 "kb") exampleMapped exampleMapping [] =
      .ok (some [exampleMappedResource 0]) ∧
    getComputeResource (memoryEnv 512 "kb") exampleMapped exampleMapping [] =
      .ok (some [exampleMappedResource 0]) ∧
    getComputeResource (memoryEnv (512 + 512) "kb") exampleMapped exampleMapping [] =
      .ok (some [exampleMappedResource 1]) ∧
    (exampleMappedResource 1).memoryMb ≠
      (exampleMappedResource 0).memoryMb + (exampleMappedResource 0).memoryMb :=
  ⟨by decide!, by decide!, by decide!, by decide!, by decide⟩

theorem templateReferences_mem (group : ConfigResource) (reference : String)
    (h : reference ∈ templateReferences group) :
    HasSuffix reference ".id" = false ∧
    ∃ version ∈ blocksOf group "version", ∃ instanceTemplate,
      version.lookup "instance_template" = some instanceTemplate ∧
      reference ∈ instanceTemplate.References := by
  unfold templateReferences at h
  rw [List.mem_filter] at h
  obtain ⟨hm, hs⟩ := h
  refine ⟨by simpa using hs, ?_⟩
  rw [List.mem_flatten] at hm
  obtain ⟨l, hl, hr⟩ := hm
  rw [List.mem_map] at hl
  obtain ⟨version, hv, he⟩ := hl
  cases hit : version.lookup "instance_template" with
  | none =>
    rw [hit] at he
    subst he
    cases hr
  | some instanceTemplate =>
    rw [hit] at he
    subst he
    exact ⟨version, hv, instanceTemplate, hit, hr⟩

theorem templateReferences_eq_nil (group : ConfigResource)
    (h : ∀ version ∈ blocksOf group "version", ∀ instanceTemplate,
      version.lookup "instance_template" = some instanceTemplate →
      ∀ reference ∈ instanceTemplate.References, HasSuffix reference ".id" = true) :
    templateReferences group = [] := by
  unfold templateReferences
  rw [List.filter_eq_nil_iff]
  intro reference hm
  rw [List.mem_flatten] at hm
  obtain ⟨l, hl, hr⟩ := hm
  rw [List.mem_map] at hl
  obtain ⟨version, hv, he⟩ := hl
  cases hit : version.lookup "instance_template" with
  | none =>
    rw [hit] at he
    subst he
    cases hr
  | some instanceTemplate =>
    rw [hit] at he
    subst he
    simp [h version hv instanceTemplate hit reference hr]

/-- Claim C24.  The template that `getComputeInstanceGroupManagerSpecs` uses
for an instance group does not depend on the entries of the template catalog
under keys ending in `.id`: two catalogs that agree on every other key give
the same template and the same result.  A template that is used is the catalog
entry of a reference that does not end in `.id` and belongs to the
`instance_template` expression of a `version` block of the group.  When every
such reference ends in `.id`, no template is resolved and `GetResource`
returns the group as an Unsupported Resource. -/
theorem findTemplate_skips_id (env : Env) (group : ConfigResource)
    (dataResources : List (String × DataImageResource))
    (templates : List (String × ConfigResource)) :
    (∀ templates' : List (String × ConfigResource),
      (∀ reference, HasSuffix reference ".id" = false →
        templates'.lookup reference = templates.lookup reference) →
      findTemplate group templates' = findTemplate group templates ∧
      getComputeInstanceGroupManagerSpecs env group dataResources templates' =
        getComputeInstanceGroupManagerSpecs env group dataResources templates) ∧
    (∀ template, findTemplate group templates = some template →
      ∃ reference, HasSuffix reference ".id" = false ∧
        templates.lookup reference = some template ∧
        ∃ version ∈ blocksOf group "version", ∃ instanceTemplate,
          version.lookup "instance_template" = some instanceTemplate ∧
          reference ∈ instanceTemplate.References) ∧
    (∀ id, group.Type_ = "google_compute_instance_group_manager" →
      getResourceIdentification env group = .ok id →
      (GetConstFromConfig group "target_size" = .null ∨
        ∃ q, GetConstFromConfig group "target_size" = .num q) →
      (∀ version ∈ blocksOf group "version", ∀ instanceTemplate,
        version.lookup "instance_template" = some instanceTemplate →
        ∀ reference ∈ instanceTemplate.References, HasSuffix reference ".id" = true) →
      findTemplate group templates = none ∧
      GetResource env group dataResources templates =
        .ok (Resource.UnsupportedResource id)) := by
  refine ⟨?_, ?_, ?_⟩
  · intro templates' hagree
    have hft : findTemplate group templates' = findTemplate group templates := by
      rw [findTemplate_eq, findTemplate_eq]
      cases hl : (templateReferences group).getLast? with
      | none => rfl
      | some reference =>
        exact hagree reference
          (templateReferences_mem group reference (List.mem_of_getLast?_eq_some hl)).1
    refine ⟨hft, ?_⟩
    unfold getComputeInstanceGroupManagerSpecs
    rw [hft]
  · intro template hft
    rw [findTemplate_eq] at hft
    cases hl : (templateReferences group).getLast? with
    | none =>
      rw [hl] at hft
      cases hft
    | some reference =>
      rw [hl] at hft
      obtain ⟨hs, hv⟩ :=
        templateReferences_mem group reference (List.mem_of_getLast?_eq_some hl)
      exact ⟨reference, hs, hft, hv⟩
  · intro id hty hid hsize hall
    have hft : findTemplate group templates = none := by
      rw [findTemplate_eq, templateReferences_eq_nil group hall]
      rfl
    refine ⟨hft, ?_⟩
    rw [GetResource_group env group dataResources templates id hty hid]
    unfold getComputeInstanceGroupManagerSpecs
    rcases hsize with hs | ⟨q, hs⟩ <;>
      simp only [groupTargetSize, hs, hft, asFloat, bind, Except.bind, pure, Except.pure]

/-- Witness of claim C24: a group whose only reference is
`google_compute_instance_template.tpl.id` is returned as Unsupported, though
the catalog has an entry under this very key. -/
theorem findTemplate_skips_id_witness :
    findTemplate (exampleGroup ["google_compute_instance_template.tpl.id"])
        [("google_compute_instance_template.tpl.id", exampleTemplate)] = none ∧
    GetResource exampleEnv (exampleGroup ["google_compute_instance_template.tpl.id"]) []
        [("google_compute_instance_template.tpl.id", exampleTemplate)] =
      .ok (Resource.UnsupportedResource exampleGroupId) :=
  (findTemplate_skips_id exampleEnv (exampleGroup ["google_compute_instance_template.tpl.id"])
    [] [("google_compute_instance_template.tpl.id", exampleTemplate)]).2.2
    exampleGroupId rfl (by decide!) (Or.inr ⟨3, rfl⟩)
    (by
      intro version hv instanceTemplate hit reference hr
      have hb : blocksOf (exampleGroup ["google_compute_instance_template.tpl.id"]) "version" =
          [[("instance_template", refs ["google_compute_instance_template.tpl.id"])]] := rfl
      rw [hb, List.mem_singleton] at hv
      subst hv
      cases hit
      simp only [refs, Expression.References, List.mem_singleton] at hr
      subst hr
      decide)

theorem literalMatch_self (s : String) : literalMatch s s = true := by
  unfold literalMatch
  simp

theorem checkIgnoredLoop_plain (env : Env) (resourceType : String) (ignored : List String)
    (hplain : ∀ entry ∈ ignored, plainName entry = true)
    (hre : ∀ pattern s, plainName pattern = true →
      env.regexMatch pattern s = some (literalMatch pattern s)) :
    checkIgnoredLoop env resourceType ignored =
      .ok (ignored.any fun entry => literalMatch entry resourceType) := by
  induction ignored with
  | nil => rfl
  | cons entry rest ih =>
    unfold checkIgnoredLoop
    by_cases he : entry = resourceType
    · subst he
      simp only [if_true, List.any_cons, literalMatch_self, Bool.true_or]
      rfl
    · simp only [he, if_false, hre entry resourceType (hplain entry (List.mem_cons_self _ _)),
        List.any_cons]
      cases hm : literalMatch entry resourceType with
      | true => rfl
      | false =>
        simp only [Bool.false_or]
        exact ih (fun e h => hplain e (List.mem_cons_of_mem _ h))

/-- Claim C25, as amended.  For an ignore list whose entries are plain type
names, a plain name being matched by the regular-expression library as literal
text anywhere in the type, `checkIgnoredResource` returns true if and only if
one of the entries of the provider's ignore list occurs in `resourceType` as a
substring, which is the case when `resourceType` is equal to an entry; with an
empty ignore list it returns false. -/
theorem checkIgnoredResource_plain (env : Env) (resourceType : String) (provider : Provider)
    (ignored : List String)
    (hl : env.IgnoredResources provider = some ignored)
    (hplain : ∀ entry ∈ ignored, plainName entry = true)
    (hre : ∀ pattern s, plainName pattern = true →
      env.regexMatch pattern s = some (literalMatch pattern s)) :
    (∃ b, checkIgnoredResource env resourceType provider = .ok b) ∧
    (checkIgnoredResource env resourceType provider = .ok true ↔
      ∃ entry ∈ ignored, entry.data <:+: resourceType.data) ∧
    (resourceType ∈ ignored → checkIgnoredResource env resourceType provider = .ok true) ∧
    (ignored = [] → checkIgnoredResource env resourceType provider = .ok false) := by
  have h : checkIgnoredResource env resourceType provider =
      .ok (ignored.any fun entry => literalMatch entry resourceType) := by
    unfold checkIgnoredResource
    rw [hl]
    exact checkIgnoredLoop_plain env resourceType ignored hplain hre
  have hiff : checkIgnoredResource env resourceType provider = .ok true ↔
      ∃ entry ∈ ignored, entry.data <:+: resourceType.data := by
    rw [h]
    simp only [Except.ok.injEq, List.any_eq_true, literalMatch, decide_eq_true_eq]
  refine ⟨⟨_, h⟩, hiff, ?_, ?_⟩
  · intro hm
    exact hiff.2 ⟨resourceType, hm, List.infix_refl _⟩
  · intro hn
    rw [h, hn]
    rfl

/-- Witness of claim C25: with the ignore list `google_compute_network`,
`google_compute_subnetwork`, the type `google_compute_subnetwork` is
ignored. -/
theorem checkIgnoredResource_plain_witness :
    checkIgnoredResource (literalEnv ["google_compute_network", "google_compute_subnetwork"])
      "google_compute_subnetwork" Provider.GCP = .ok true :=
  (checkIgnoredResource_plain
    (literalEnv ["google_compute_network", "google_compute_subnetwork"])
    "google_compute_subnetwork" Provider.GCP
    ["google_compute_network", "google_compute_subnetwork"] rfl
    (by decide) (fun _ _ _ => rfl)).2.2.1 (by decide)

/-- Counterexample to claim C25 as stated: the ignore list holds the plain
name `google_compute_network` only; the type `google_compute_network_peering`
is equal to no entry of the list and `checkIgnoredResource` returns true, the
entry being matched as an expression that is not anchored. -/
theorem checkIgnoredResource_substring :
    plainName "google_compute_network" = true ∧
    "google_compute_network_peering" ∉ ["google_compute_network"] ∧
    checkIgnoredResource (literalEnv ["google_compute_network"])
      "google_compute_network_peering" Provider.GCP = .ok true :=
  ⟨by decide, by decide, by decide!⟩

theorem diskIsBoot_ok (diskBlock : Block) (isBootDiskParam isBootDisk : Bool)
    (h : diskIsBoot diskBlock isBootDiskParam = .ok isBootDisk) :
    (GetConstFromExpression (diskBlock.lookup "boot") = .null → isBootDisk = isBootDiskParam) ∧
    (∀ b, GetConstFromExpression (diskBlock.lookup "boot") = .bool b → isBootDisk = b) := by
  unfold diskIsBoot at h
  constructor
  · intro hn
    rw [hn] at h
    simp only [pure, Except.pure, Except.ok.injEq] at h
    exact h.symm
  · intro b hb
    rw [hb] at h
    simp only [pure, Except.pure, Except.ok.injEq] at h
    exact h.symm

/-- Claim C26.  For a disk block whose boot flag, size and replication factor
are read without fault, the boot flag is the `boot` constant of the block when
there is one and the caller's flag otherwise; the effective type is the
declared type, or, when none is declared, the configured boot-disk default type
for a boot disk and the configured disk default type otherwise; and `getDisk`
returns a disk that is classified HDD exactly when the effective type is
`pd-standard`, and SSD for every other type. -/
theorem getDisk_classification (config : Config) (diskBlock : Block) (isBootDiskParam : Bool)
    (dataResources : List (String × DataImageResource)) (isBootDisk : Bool) (sizeGb : ℚ)
    (replicationFactor : Int)
    (hb : diskIsBoot diskBlock isBootDiskParam = .ok isBootDisk)
    (hs : diskSizeGb config diskBlock isBootDisk dataResources = .ok sizeGb)
    (hr : diskReplication diskBlock = .ok replicationFactor) :
    (GetConstFromExpression (diskBlock.lookup "boot") = .null → isBootDisk = isBootDiskParam) ∧
    (∀ b, GetConstFromExpression (diskBlock.lookup "boot") = .bool b → isBootDisk = b) ∧
    (∀ diskType,
      (diskBlock.lookup "type" = none ∧
          diskType = (if isBootDisk then config.bootDiskType else config.diskType)) ∨
        (∃ e, diskBlock.lookup "type" = some e ∧ e.ConstantValue = .str diskType) →
      ∃ d, getDisk config diskBlock isBootDiskParam dataResources = .ok d ∧
        (d.isSSD = false ↔ diskType = "pd-standard") ∧
        (d.isSSD = true ↔ diskType ≠ "pd-standard")) := by
  refine ⟨(diskIsBoot_ok diskBlock isBootDiskParam isBootDisk hb).1,
    (diskIsBoot_ok diskBlock isBootDiskParam isBootDisk hb).2, ?_⟩
  intro diskType ht
  have ht' : diskTypeOf config diskBlock isBootDisk = .ok diskType := by
    unfold diskTypeOf
    rcases ht with ⟨hn, he⟩ | ⟨e, hl, hc⟩
    · rw [hn, he]
      rfl
    · rw [hl]
      simp only [hc, asString]
  refine ⟨_, getDisk_of_sections config diskBlock isBootDiskParam dataResources isBootDisk
    diskType sizeGb replicationFactor hb ht' hs hr, ?_, ?_⟩
  · by_cases h : diskType = "pd-standard" <;> simp [h]
  · by_cases h : diskType = "pd-standard" <;> simp [h]

/-- Witness of claim C26: a disk block without type whose `boot` constant is
true, read with the caller's flag false, takes the boot-disk default type
`pd-ssd` and is classified SSD. -/
theorem getDisk_classification_witness :
    ∃ d, getDisk exampleConfigSsdBoot [("boot", const (.bool true))] false [] = .ok d ∧
      (d.isSSD = false ↔ "pd-ssd" = "pd-standard") ∧
      (d.isSSD = true ↔ "pd-ssd" ≠ "pd-standard") :=
  (getDisk_classification exampleConfigSsdBoot [("boot", const (.bool true))] false []
    true 10 1 rfl (by decide!) rfl).2.2 "pd-ssd" (Or.inl ⟨rfl, rfl⟩)

/-- Claim C27.  For a standalone disk resource whose disk is read by `getDisk`
without fault, `getComputeDiskResourceSpecs` returns a spec whose replication
factor is 1 when no `replica_zones` expression is declared and the number of
entries of the `replica_zones` list otherwise, and which carries the size of
the disk in `SsdStorage` with `HddStorage` 0 for a disk classified SSD, and in
`HddStorage` with `SsdStorage` 0 otherwise. -/
theorem getComputeDiskResourceSpecs_disk (env : Env) (resource : ConfigResource)
    (dataResources : List (String × DataImageResource)) (d : disk)
    (hd : getDisk env.config resource.Expressions false dataResources = .ok d) :
    ∃ specs, getComputeDiskResourceSpecs env resource dataResources = .ok specs ∧
      (resource.Expressions.lookup "replica_zones" = none → specs.ReplicationFactor = 1) ∧
      (∀ e rz, resource.Expressions.lookup "replica_zones" = some e →
        e.ConstantValue = .arr rz → (rz.length : Int) ≤ 2147483647 →
        specs.ReplicationFactor = rz.length) ∧
      ((d.isSSD = true ∧ specs.SsdStorage = d.sizeGb ∧ specs.HddStorage = 0) ∨
        (d.isSSD = false ∧ specs.SsdStorage = 0 ∧ specs.HddStorage = d.sizeGb)) := by
  obtain ⟨_, _, _, _, _, hrep, _⟩ := getDisk_sections _ _ _ _ _ hd
  have hrf := diskReplication_ok _ _ hrep
  refine ⟨_, by unfold getComputeDiskResourceSpecs; rw [hd]; rfl, ?_, ?_, ?_⟩
  · exact hrf.1
  · intro e rz hl hc hlen
    show d.replicationFactor = _
    rw [hrf.2 e rz hl hc]
    unfold wrap32
    omega
  · cases hssd : d.isSSD
    · right
      simp
    · left
      simp

/-- Witness of claim C27: a regional disk of 100 GB (SSD) with two replica
zones. -/
theorem getComputeDiskResourceSpecs_disk_witness :
    ∃ specs, getComputeDiskResourceSpecs exampleEnv
        (exampleRegionDisk [.str "europe-west9-a", .str "europe-west9-b"]) [] = .ok specs ∧
      specs.ReplicationFactor = 2 ∧ specs.SsdStorage = 100 ∧ specs.HddStorage = 0 := by
  obtain ⟨specs, h, _, hrf, hsize⟩ := getComputeDiskResourceSpecs_disk exampleEnv
    (exampleRegionDisk [.str "europe-west9-a", .str "europe-west9-b"]) []
    { sizeGb := 100, isSSD := true, replicationFactor := 2 } (by decide!)
  refine ⟨specs, h, hrf _ _ rfl rfl (by decide), ?_⟩
  rcases hsize with ⟨_, h1, h2⟩ | ⟨h0, _, _⟩
  · exact ⟨h1, h2⟩
  · cases h0

end Carbonifer
